import Mathlib

/-!
Verification of the scene-optimization subsystem of the babylon_test repository.

The TypeScript sources are shallowly embedded: JavaScript numbers are modelled
as rationals (`Rat`); object references are modelled by stable surrogate
identifiers (indices into the scene list, or `uid` fields), and in-place
mutation of the scene graph is modelled by explicit state passing.
-/

namespace BabylonOpt

/-- `a + b` on rationals, kernel-computable. -/
def ratAdd (a b : Rat) : Rat :=
  mkRat (a.num * (b.den : Int) + b.num * (a.den : Int)) (a.den * b.den)

/-- `a - b` on rationals, kernel-computable. -/
def ratSub (a b : Rat) : Rat :=
  mkRat (a.num * (b.den : Int) - b.num * (a.den : Int)) (a.den * b.den)

/-- `a * b` on rationals, kernel-computable. -/
def ratMul (a b : Rat) : Rat := mkRat (a.num * b.num) (a.den * b.den)

/-- `|a|` on rationals, kernel-computable. -/
def ratAbs (a : Rat) : Rat := mkRat (a.num.natAbs : Int) a.den

/-- `a ≤ b` on rationals, kernel-computable. -/
def ratLe (a b : Rat) : Bool := decide (a.num * (b.den : Int) ≤ b.num * (a.den : Int))

/-- RGB colour triple (`BABYLON.Color3`); channels are JS numbers, modelled as `Rat`. -/
structure Color3 where
  r : Rat
  g : Rat
  b : Rat
  deriving DecidableEq, Repr

/-- A texture as far as the optimizer observes it: a stable `uid` and an optional
source URL (`(texture as any).url`). -/
structure Texture where
  uid : Nat
  url : Option String
  deriving DecidableEq, Repr

/-- Materials as observed by `MaterialOptimizer`: a `StandardMaterial` (with the
colour, alpha and four texture slots the optimizer reads), a `PBRMaterial`
(albedo, metallic, roughness, alpha and five texture slots), or any other
material class (`other`), identified by its class name.  The colour fields are
`Option` because the source guards each colour access by truthiness, and
`metallic`/`roughness` are nullable in Babylon. -/
inductive Material where
  | standard (id : String)
      (diffuseColor specularColor emissiveColor : Option Color3)
      (alpha : Rat)
      (diffuseTexture bumpTexture specularTexture emissiveTexture : Option Texture)
  | pbr (id : String)
      (albedoColor : Option Color3)
      (metallic roughness : Option Rat)
      (alpha : Rat)
      (albedoTexture bumpTexture metallicTexture microSurfaceTexture ambientTexture :
        Option Texture)
  | other (id : String) (className : String)
  deriving DecidableEq, Repr

/-- The Babylon `id` of a material. -/
def Material.id : Material → String
  | .standard i _ _ _ _ _ _ _ _ => i
  | .pbr i _ _ _ _ _ _ _ _ _ => i
  | .other i _ => i

/-- `material.getClassName()`. -/
def Material.getClassName : Material → String
  | .standard .. => "StandardMaterial"
  | .pbr .. => "PBRMaterial"
  | .other _ c => c

/-- `MaterialCompareConfig` from `MaterialOptimizer.ts`. -/
structure MaterialCompareConfig where
  colorThreshold : Rat
  alphaThreshold : Rat
  metallicThreshold : Rat
  roughnessThreshold : Rat
  compareTextures : Bool
  textureUrlComparison : Bool
  deriving Repr

/-- The defaults installed by the `MaterialOptimizer` constructor. -/
def defaultMaterialConfig : MaterialCompareConfig where
  colorThreshold := mkRat 1 10
  alphaThreshold := mkRat 1 20
  metallicThreshold := mkRat 1 10
  roughnessThreshold := mkRat 1 10
  compareTextures := true
  textureUrlComparison := true

/-- `MaterialOptimizer._compareColors`.  Null colours are compared by the JS
truthiness guards; present colours by the summed per-channel absolute
difference against `threshold * 3`. -/
def compareColors (c1 c2 : Option Color3) (threshold : Rat) : Bool :=
  match c1, c2 with
  | none, none => true
  | none, some _ => false
  | some _, none => false
  | some a, some b =>
      ratLe (ratAdd (ratAdd (ratAbs (ratSub a.r b.r)) (ratAbs (ratSub a.g b.g)))
        (ratAbs (ratSub a.b b.b))) (ratMul threshold 3)

/-- `(tex as any).url || ''` -/
def textureUrlOrEmpty (t : Texture) : String := t.url.getD ""

/-- One slot comparison inside `MaterialOptimizer._compareTextureArrays`. -/
def compareTexturePair (cfg : MaterialCompareConfig) :
    Option Texture → Option Texture → Bool
  | none, none => true
  | none, some _ => false
  | some _, none => false
  | some t1, some t2 =>
      if cfg.textureUrlComparison then textureUrlOrEmpty t1 == textureUrlOrEmpty t2
      else t1.uid == t2.uid

/-- `MaterialOptimizer._compareTextureArrays` (the two arrays always have equal
length at every call site). -/
def compareTextureArrays (cfg : MaterialCompareConfig)
    (l1 l2 : List (Option Texture)) : Bool :=
  (l1.zip l2).all fun p => compareTexturePair cfg p.1 p.2

/-- `MaterialOptimizer._areMaterialsSimilar` together with the two class-specific
comparison helpers.  Materials of different classes (and non-Standard, non-PBR
materials of the same class) are never similar. -/
def areMaterialsSimilar (cfg : MaterialCompareConfig) : Material → Material → Bool
  | .standard _ d1 s1 e1 a1 dt1 bt1 st1 et1,
    .standard _ d2 s2 e2 a2 dt2 bt2 st2 et2 =>
      compareColors d1 d2 cfg.colorThreshold &&
      compareColors s1 s2 cfg.colorThreshold &&
      compareColors e1 e2 cfg.colorThreshold &&
      ratLe (ratAbs (ratSub a1 a2)) cfg.alphaThreshold &&
      (!cfg.compareTextures ||
        compareTextureArrays cfg [dt1, bt1, st1, et1] [dt2, bt2, st2, et2])
  | .pbr _ ac1 m1 r1 a1 at1 bt1 mt1 mst1 amb1,
    .pbr _ ac2 m2 r2 a2 at2 bt2 mt2 mst2 amb2 =>
      compareColors ac1 ac2 cfg.colorThreshold &&
      ratLe (ratAbs (ratSub (m1.getD 0) (m2.getD 0))) cfg.metallicThreshold &&
      ratLe (ratAbs (ratSub (r1.getD 0) (r2.getD 0))) cfg.roughnessThreshold &&
      ratLe (ratAbs (ratSub a1 a2)) cfg.alphaThreshold &&
      (!cfg.compareTextures ||
        compareTextureArrays cfg [at1, bt1, mt1, mst1, amb1] [at2, bt2, mt2, mst2, amb2])
  | _, _ => false

/-- A mesh as far as the material pass observes it: a display name and an
optional material reference. -/
structure OMesh where
  name : String
  material : Option Material
  deriving DecidableEq, Repr

/-- `MaterialInfo`: a material together with the meshes referencing it.  The JS
object stores mesh references; we store indices into the scene mesh list (the
diagnostic `hash` field is never read by the pass and is omitted). -/
structure MaterialInfo where
  material : Material
  meshes : List Nat
  deriving DecidableEq, Repr

/-- Record mesh index `i` (whose material is `mat`) in the id-keyed material
map: push onto the existing entry for `mat.id`, or append a fresh entry (JS
`Map` preserves insertion order). -/
def insertMeshMat (infos : List MaterialInfo) (mat : Material) (i : Nat) :
    List MaterialInfo :=
  match infos with
  | [] => [⟨mat, [i]⟩]
  | info :: rest =>
      if info.material.id = mat.id then
        { info with meshes := info.meshes ++ [i] } :: rest
      else
        info :: insertMeshMat rest mat i

/-- The traversal inside `MaterialOptimizer._analyzeMaterials`: `i` is the index
of the next mesh; meshes without a material are skipped. -/
def analyzeMaterialsAux (i : Nat) : List OMesh → List MaterialInfo → List MaterialInfo
  | [], infos => infos
  | m :: ms, infos =>
      match m.material with
      | none => analyzeMaterialsAux (i + 1) ms infos
      | some mat => analyzeMaterialsAux (i + 1) ms (insertMeshMat infos mat i)

/-- `MaterialOptimizer._analyzeMaterials`. -/
def analyzeMaterials (meshes : List OMesh) : List MaterialInfo :=
  analyzeMaterialsAux 0 meshes []

/-- Fuel-indexed form of the greedy clustering loop (structural recursion on
the fuel; each round strictly shrinks the worklist, so `fuel = length` is
always sufficient). -/
def groupSimilarMaterialsFuel (cfg : MaterialCompareConfig) :
    Nat → List MaterialInfo → List (List MaterialInfo)
  | _, [] => []
  | 0, _ :: _ => []
  | fuel + 1, info :: rest =>
      (info :: rest.filter fun o => areMaterialsSimilar cfg info.material o.material)
        :: groupSimilarMaterialsFuel cfg fuel
          (rest.filter fun o => !areMaterialsSimilar cfg info.material o.material)

/-- `MaterialOptimizer._groupSimilarMaterials`: greedy single-pass clustering.
Each unprocessed material opens a group and absorbs every later unprocessed
material similar to it (pairwise against the group opener only). -/
def groupSimilarMaterials (cfg : MaterialCompareConfig)
    (infos : List MaterialInfo) : List (List MaterialInfo) :=
  groupSimilarMaterialsFuel cfg infos.length infos

/-- `MaterialOptimizer._createMergedMaterial`: a fresh material carrying the
given `name` (Babylon assigns `id := name` at construction), with the master's
scalar/colour fields deep-copied and its texture references shared.  For other
material classes the source clones the material. -/
def createMergedMaterial (source : Material) (name : String) : Material :=
  match source with
  | .standard _ d s e a dt bt st et => .standard name d s e a dt bt st et
  | .pbr _ ac m r a abt bt mt mst amb => .pbr name ac m r a abt bt mt mst amb
  | .other _ c => .other name c

/-- Effect of one iteration of the `groups.forEach` loop in
`MaterialOptimizer._mergeMaterialGroups`: the materials pushed onto
`mergedMaterials`, the mesh-index ↦ material assignments performed, and the
materials disposed.  A singleton group keeps its material; a larger group
creates the merged material, repoints every referencing mesh of every member,
and disposes every member other than the master (the JS identity test
`info.material !== masterMaterial` coincides with an id test because the
analysis map is keyed by material id). -/
def mergeOneGroup (idx : Nat) (group : List MaterialInfo) :
    List Material × List (Nat × Material) × List Material :=
  match group with
  | [] => ([], [], [])
  | [info] => ([info.material], [], [])
  | master :: rest =>
      let merged := createMergedMaterial master.material
        ("Merged_" ++ toString (idx + 1))
      ([merged],
       (master :: rest).flatMap fun info => info.meshes.map fun i => (i, merged),
       ((master :: rest).filter fun info =>
          info.material.id ≠ master.material.id).map fun info => info.material)

/-- `MaterialOptimizer._mergeMaterialGroups`, folded over the groups with their
indices (the index feeds the `Merged_${index + 1}` name). -/
def mergeMaterialGroupsAux (idx : Nat) :
    List (List MaterialInfo) → List Material × List (Nat × Material) × List Material
  | [] => ([], [], [])
  | g :: gs =>
      let x := mergeOneGroup idx g
      let y := mergeMaterialGroupsAux (idx + 1) gs
      (x.1 ++ y.1, x.2.1 ++ y.2.1, x.2.2 ++ y.2.2)

/-- The material assigned to mesh index `i` after sequentially executing the
recorded assignments (the last write wins, as in the mutating source). -/
def lookupAssign (reps : List (Nat × Material)) (i : Nat) : Option Material :=
  (reps.reverse.find? fun p => p.1 == i).map fun p => p.2

/-- Apply the recorded `mesh.material = mergedMaterial` assignments to the scene
mesh list; `i` is the index of the first mesh of the suffix. -/
def applyRepointsAux (reps : List (Nat × Material)) (i : Nat) :
    List OMesh → List OMesh
  | [] => []
  | m :: ms =>
      (match lookupAssign reps i with
       | some mat => { m with material := some mat }
       | none => m) :: applyRepointsAux reps (i + 1) ms

/-- `OptimizationResult`, extended with the observable side effects of the pass:
the scene's mesh list after the reference rewrites, and the list of disposed
materials. -/
structure OptimizationResult where
  originalCount : Nat
  optimizedCount : Nat
  removedCount : Nat
  materialGroups : List (List MaterialInfo)
  mergedMaterials : List Material
  newMeshes : List OMesh
  disposed : List Material
  deriving Repr

/-- `MaterialOptimizer.optimizeMaterials`. -/
def optimizeMaterials (cfg : MaterialCompareConfig) (meshes : List OMesh) :
    OptimizationResult :=
  let infos := analyzeMaterials meshes
  let groups := groupSimilarMaterials cfg infos
  let out := mergeMaterialGroupsAux 0 groups
  { originalCount := infos.length
    optimizedCount := out.1.length
    removedCount := infos.length - out.1.length
    materialGroups := groups
    mergedMaterials := out.1
    newMeshes := applyRepointsAux out.2.1 0 meshes
    disposed := out.2.2 }

/-- Whether a scene entity is a full `BABYLON.Mesh` or an `InstancedMesh`
(in Babylon, `InstancedMesh` is not a subclass of `Mesh`). -/
inductive NodeKind where
  | full
  | inst
  deriving DecidableEq, Repr

/-- A 3-vector (position / rotation / scaling components). -/
structure Vec3 where
  x : Rat
  y : Rat
  z : Rat
  deriving DecidableEq, Repr

/-- A mesh as the instancer observes it.  `uid` is a surrogate for JS object
identity (Babylon's `uniqueId`); geometry and material are referenced by id. -/
structure IMesh where
  uid : Nat
  name : String
  kind : NodeKind
  geometryId : Option String
  materialId : Option String
  position : Vec3
  rotation : Vec3
  scaling : Vec3
  isVisible : Bool
  isPickable : Bool
  checkCollisions : Bool
  parent : Option String
  animations : List String
  metadata : Option String
  deriving DecidableEq, Repr

/-- `InstancerConfig`. -/
structure InstancerConfig where
  minInstanceCount : Nat
  preserveHierarchy : Bool
  preserveAnimations : Bool
  mergeSubMeshes : Bool
  deriving Repr

/-- Defaults installed by the `MeshInstancer` constructor. -/
def defaultInstancerConfig : InstancerConfig where
  minInstanceCount := 2
  preserveHierarchy := true
  preserveAnimations := false
  mergeSubMeshes := false

/-- The eligibility test of `MeshInstancer._analyzeMeshes`: the mesh must be a
full `Mesh` owning geometry.  (The `InstancedMesh` skip below it is dead code,
and no animation test is performed.) -/
def isInstancerCandidate (m : IMesh) : Bool :=
  m.kind == NodeKind.full && m.geometryId.isSome

/-- `mesh.geometry.id || 'unknown'` (JS `||`: the empty string is falsy). -/
def meshGeomKey (m : IMesh) : String :=
  match m.geometryId with
  | some "" => "unknown"
  | none => "unknown"
  | some s => s

/-- `mesh.material?.id || 'no-material'`. -/
def meshMatKey (m : IMesh) : String :=
  match m.materialId with
  | some "" => "no-material"
  | none => "no-material"
  | some s => s

/-- `MeshGroup` (without the result-only fields). -/
structure MeshGroup where
  geometryId : String
  materialId : String
  meshes : List IMesh
  deriving DecidableEq, Repr

/-- The string key `` `${geometryId}_${materialId}` `` of a group. -/
def MeshGroup.key (g : MeshGroup) : String := g.geometryId ++ "_" ++ g.materialId

/-- The group key of a candidate mesh. -/
def meshKey (m : IMesh) : String := meshGeomKey m ++ "_" ++ meshMatKey m

/-- Insert a candidate mesh into the id-keyed group map (JS `Map` preserves
insertion order). -/
def insertMeshGroup (gs : List MeshGroup) (m : IMesh) : List MeshGroup :=
  match gs with
  | [] => [⟨meshGeomKey m, meshMatKey m, [m]⟩]
  | g :: rest =>
      if g.key = meshKey m then { g with meshes := g.meshes ++ [m] } :: rest
      else g :: insertMeshGroup rest m

/-- `MeshInstancer._analyzeMeshes`: group candidate meshes by
(geometry, material) key and keep only groups meeting `minInstanceCount`. -/
def analyzeMeshes (cfg : InstancerConfig) (scene : List IMesh) : List MeshGroup :=
  ((scene.filter isInstancerCandidate).foldl insertMeshGroup []).filter fun g =>
    cfg.minInstanceCount ≤ g.meshes.length

/-- The `masterMesh.createInstance` call plus the property copies that follow
it.  The instance shares the master's geometry/material, copies the source's
transform, flags and (deep-cloned) metadata, and inherits the source's parent
when `preserveHierarchy` and the source has one.  The disposed source's `uid`
is reused for the instance (instances and full meshes are distinguished by
`kind`, so removal of a source full mesh stays unambiguous). -/
def createOneInstance (cfg : InstancerConfig) (master source : IMesh) (i : Nat) :
    IMesh where
  uid := source.uid
  name := master.name ++ "_instance_" ++ toString i
  kind := NodeKind.inst
  geometryId := master.geometryId
  materialId := master.materialId
  position := source.position
  rotation := source.rotation
  scaling := source.scaling
  isVisible := source.isVisible
  isPickable := source.isPickable
  checkCollisions := source.checkCollisions
  parent := if cfg.preserveHierarchy && source.parent.isSome then source.parent else none
  animations := []
  metadata := source.metadata

/-- `sourceMesh.dispose()`: the source full mesh leaves the scene's mesh list. -/
def removeSourceMesh (scene : List IMesh) (u : Nat) : List IMesh :=
  scene.filter fun m => !(m.kind == NodeKind.full && m.uid == u)

/-- The inner loop of `MeshInstancer._createInstanceGroups` over a group's
non-master members: each round appends the freshly created instance to the
scene's mesh list (Babylon registers it at construction) and then disposes the
source mesh.  Returns the instances created and the updated scene. -/
def instantiateTail (cfg : InstancerConfig) (master : IMesh) :
    List IMesh → Nat → List IMesh → List IMesh × List IMesh
  | [], _, scene => ([], scene)
  | src :: rest, i, scene =>
      let newInst := createOneInstance cfg master src i
      let scene1 := removeSourceMesh (scene ++ [newInst]) src.uid
      let out := instantiateTail cfg master rest (i + 1) scene1
      (newInst :: out.1, out.2)

/-- One iteration of the group loop: the first member becomes the master
(untouched); every other member is replaced by an instance. -/
def instantiateGroup (cfg : InstancerConfig) (scene : List IMesh) (g : MeshGroup) :
    List IMesh × List IMesh :=
  match g.meshes with
  | [] => ([], scene)
  | master :: rest => instantiateTail cfg master rest 1 scene

/-- `MeshInstancer._createInstanceGroups`: process every retained group,
collecting each group's created instances. -/
def createInstanceGroupsAux (cfg : InstancerConfig) :
    List MeshGroup → List IMesh → List (MeshGroup × List IMesh) × List IMesh
  | [], scene => ([], scene)
  | g :: gs, scene =>
      let r := instantiateGroup cfg scene g
      let out := createInstanceGroupsAux cfg gs r.2
      ((g, r.1) :: out.1, out.2)

/-- `InstancerResult`, extended with the scene list after the pass. -/
structure InstancerResult where
  originalMeshCount : Nat
  optimizedMeshCount : Nat
  instancedGroups : List (MeshGroup × List IMesh)
  totalInstancesCreated : Nat
  newScene : List IMesh
  deriving Repr

/-- `MeshInstancer.createInstances`.  Both mesh counts read
`this._scene.meshes.length`, which in Babylon includes `InstancedMesh` entries
(an `AbstractMesh` registers itself with the scene at construction). -/
def createInstances (cfg : InstancerConfig) (scene : List IMesh) : InstancerResult :=
  let groups := analyzeMeshes cfg scene
  let out := createInstanceGroupsAux cfg groups scene
  { originalMeshCount := scene.length
    optimizedMeshCount := out.2.length
    instancedGroups := out.1
    totalInstancesCreated := (out.1.map fun p => p.2.length).sum
    newScene := out.2 }

/-- Vertex-attribute kinds observed by the merger. -/
inductive VKind where
  | position
  | normal
  | uv
  | uv2
  | color
  | tangent
  deriving DecidableEq, Repr

/-- Components per vertex for each attribute kind. -/
def VKind.components : VKind → Nat
  | .position => 3
  | .normal => 3
  | .uv => 2
  | .uv2 => 2
  | .color => 4
  | .tangent => 4

/-- The fixed order in which `_normalizeVertexAttributes` probes attributes. -/
def kindOrder : List VKind := [.position, .normal, .uv, .uv2, .color, .tangent]

/-- A geometry: flat vertex-attribute buffers plus an index buffer. -/
structure MGeometry where
  positions : Option (List Rat)
  normals : Option (List Rat)
  uvs : Option (List Rat)
  uv2s : Option (List Rat)
  colors : Option (List Rat)
  tangents : Option (List Rat)
  indices : List Nat
  deriving DecidableEq, Repr

/-- `geometry.getVerticesData(kind)`. -/
def MGeometry.getVerticesData (g : MGeometry) : VKind → Option (List Rat)
  | .position => g.positions
  | .normal => g.normals
  | .uv => g.uvs
  | .uv2 => g.uv2s
  | .color => g.colors
  | .tangent => g.tangents

/-- `geometry.setVerticesData(kind, data)`. -/
def MGeometry.setVerticesData (g : MGeometry) (k : VKind) (d : List Rat) : MGeometry :=
  match k with
  | .position => { g with positions := some d }
  | .normal => { g with normals := some d }
  | .uv => { g with uvs := some d }
  | .uv2 => { g with uv2s := some d }
  | .color => { g with colors := some d }
  | .tangent => { g with tangents := some d }

/-- The geometry's vertex count (derived from the position buffer). -/
def MGeometry.vertexCount (g : MGeometry) : Nat := (g.positions.getD []).length / 3

/-- A mesh as the merger observes it. -/
structure MMesh where
  uid : Nat
  name : String
  kind : NodeKind
  geometry : Option MGeometry
  materialId : Option String
  isVisible : Bool
  isPickable : Bool
  checkCollisions : Bool
  animations : List String
  parent : Option String
  deriving DecidableEq, Repr

/-- `mesh.getTotalVertices()`. -/
def MMesh.getTotalVertices (m : MMesh) : Nat :=
  match m.geometry with
  | none => 0
  | some g => g.vertexCount

/-- `MergerConfig`. -/
structure MergerConfig where
  preserveOriginalMeshes : Bool
  mergeLimitPerGroup : Nat
  respectHierarchy : Bool
  mergeCollisionMeshes : Bool
  createBoundingBoxes : Bool
  deriving Repr

/-- Defaults installed by the `MeshMerger` constructor. -/
def defaultMergerConfig : MergerConfig where
  preserveOriginalMeshes := false
  mergeLimitPerGroup := 1000
  respectHierarchy := true
  mergeCollisionMeshes := false
  createBoundingBoxes := true

/-- `MeshMerger._isMeshMergeable`: full mesh, owns geometry, passes the
collision gate, visible, and carries no animation. -/
def isMeshMergeable (cfg : MergerConfig) (m : MMesh) : Bool :=
  m.kind == NodeKind.full &&
  m.geometry.isSome &&
  (cfg.mergeCollisionMeshes || !m.checkCollisions) &&
  m.isVisible &&
  m.animations.isEmpty

/-- `MaterialGroup` of the merger, extended with the merge outcome. -/
structure MergerGroup where
  materialId : String
  material : Option String
  meshes : List MMesh
  originalVertexCount : Nat
  mergedVertexCount : Nat
  mergedMesh : Option MMesh
  deriving DecidableEq, Repr

/-- `mesh.material?.id || 'no-material'` for the merger. -/
def mergerMatKey (m : MMesh) : String :=
  match m.materialId with
  | some "" => "no-material"
  | none => "no-material"
  | some s => s

/-- Insert a mergeable mesh into the material-keyed group map. -/
def insertMergerGroup (gs : List MergerGroup) (m : MMesh) : List MergerGroup :=
  match gs with
  | [] => [⟨mergerMatKey m, m.materialId, [m], m.getTotalVertices, 0, none⟩]
  | g :: rest =>
      if g.materialId = mergerMatKey m then
        { g with
          meshes := g.meshes ++ [m]
          originalVertexCount := g.originalVertexCount + m.getTotalVertices } :: rest
      else g :: insertMergerGroup rest m

/-- The re-validation applied while filtering groups: the mesh still owns a
geometry with more than zero vertices. -/
def validMergeMesh (m : MMesh) : Bool :=
  m.geometry.isSome && decide (0 < m.getTotalVertices)

/-- `MeshMerger._analyzeMeshesByMaterial`: group mergeable meshes by material
id, drop singleton groups, narrow each remaining group to its valid meshes and
keep it only if more than one valid mesh remains. -/
def analyzeMeshesByMaterial (cfg : MergerConfig) (scene : List MMesh) :
    List MergerGroup :=
  ((scene.filter (isMeshMergeable cfg)).foldl insertMergerGroup []).filterMap fun g =>
    if g.meshes.length ≤ 1 then none
    else
      let g2 := { g with meshes := g.meshes.filter validMergeMesh }
      if 1 < g2.meshes.length then some g2 else none

/-- The attribute kinds present on a mesh's geometry, probed in the fixed
source order. -/
def presentKinds (m : MMesh) : List VKind :=
  match m.geometry with
  | none => []
  | some g => kindOrder.filter fun k => (g.getVerticesData k).isSome

/-- The union (as a set) of attribute kinds present on any member of a group. -/
def unionKinds (meshes : List MMesh) : List VKind :=
  kindOrder.filter fun k => meshes.any fun m => (presentKinds m).contains k

/-- The default buffer `MeshMerger._addMissingVertexAttribute` synthesizes for
`n` vertices: normals (0,1,0), UV/UV2 (0,0), colours (1,1,1,1), tangents
(1,0,0,1); a missing position buffer is not supported (warn and return). -/
def defaultAttrData (k : VKind) (n : Nat) : Option (List Rat) :=
  match k with
  | .position => none
  | .normal => some (List.replicate n [(0 : Rat), 1, 0]).flatten
  | .uv => some (List.replicate n [(0 : Rat), 0]).flatten
  | .uv2 => some (List.replicate n [(0 : Rat), 0]).flatten
  | .color => some (List.replicate n [(1 : Rat), 1, 1, 1]).flatten
  | .tangent => some (List.replicate n [(1 : Rat), 0, 0, 1]).flatten

/-- `MeshMerger._addMissingVertexAttribute`. -/
def addMissingVertexAttribute (m : MMesh) (k : VKind) : MMesh :=
  match m.geometry with
  | none => m
  | some g =>
      let n := m.getTotalVertices
      if n = 0 then m
      else
        match defaultAttrData k n with
        | none => m
        | some d => { m with geometry := some (g.setVerticesData k d) }

/-- `MeshMerger._normalizeVertexAttributes`: compute the union of attribute
kinds, then give every member a default buffer for each kind it lacks.  The
mutation is performed on the group's (source) meshes themselves. -/
def normalizeVertexAttributes (meshes : List MMesh) : List MMesh :=
  let allAttrs := unionKinds meshes
  meshes.map fun m =>
    (allAttrs.filter fun k => !(presentKinds m).contains k).foldl
      addMissingVertexAttribute m

/-- Buffer well-formedness: a geometry is structurally sound when its position
buffer is present, non-empty and a whole number of vertices, every present
attribute buffer has length `vertexCount × components`, and every index is in
range. -/
def wellFormedGeometry (g : MGeometry) : Bool :=
  match g.positions with
  | none => false
  | some ps =>
      decide (ps.length % 3 = 0) && decide (0 < ps.length) &&
      (kindOrder.all fun k =>
        match g.getVerticesData k with
        | none => true
        | some d => decide (d.length = g.vertexCount * k.components)) &&
      (g.indices.all fun i => decide (i < g.vertexCount))

/-- The attribute kinds present on a geometry. -/
def presentKindsG (g : MGeometry) : List VKind :=
  kindOrder.filter fun k => (g.getVerticesData k).isSome

/-- Concatenation of one attribute buffer across a batch (present only when
every member carries the attribute). -/
def concatAttr (gs : List MGeometry) (k : VKind) : Option (List Rat) :=
  if gs.all fun g => (g.getVerticesData k).isSome then
    some (gs.flatMap fun g => (g.getVerticesData k).getD [])
  else none

/-- Index concatenation with the running vertex offset. -/
def concatIndices : List MGeometry → Nat → List Nat
  | [], _ => []
  | g :: gs, off => g.indices.map (· + off) ++ concatIndices gs (g.vertexCount + off)

/-- Modelled from the spec: `BABYLON.Mesh.MergeMeshes` (an external library
routine, §4.4 steps 4 and 7 of the specification) concatenates the member
geometries in member order — vertex buffers appended per attribute kind,
index buffers offset by the running vertex count — and fails (returns `null`)
on incompatible or corrupt geometry: an empty batch, a member without
geometry, mismatched attribute sets across members, or a buffer whose length
disagrees with its vertex count. -/
def mergeMeshesGeometry (meshes : List MMesh) : Option MGeometry :=
  match meshes.mapM fun m => m.geometry with
  | none => none
  | some gs =>
      match gs with
      | [] => none
      | g0 :: _ =>
          if !(gs.all wellFormedGeometry) then none
          else if !(gs.all fun g => presentKindsG g = presentKindsG g0) then none
          else
            some { positions := some (gs.flatMap fun g => g.positions.getD [])
                   normals := concatAttr gs .normal
                   uvs := concatAttr gs .uv
                   uv2s := concatAttr gs .uv2
                   colors := concatAttr gs .color
                   tangents := concatAttr gs .tangent
                   indices := concatIndices gs 0 }

/-- `mesh.dispose()` for a merger source: the full mesh with this uid leaves
the scene's mesh list. -/
def removeMergerSources (scene : List MMesh) (uids : List Nat) : List MMesh :=
  scene.filter fun m => !(m.kind == NodeKind.full && uids.contains m.uid)

/-- `MeshMerger._mergeMeshGroup`: normalize the group's vertex attributes (the
mutation persists on the source meshes in the scene), then attempt the merge.
On success, a fresh merged mesh (uid `freshUid`) is appended, carrying the
group's material, the first member's pickable/collision flags and (when
`respectHierarchy`) the first member's parent; the batch's source meshes are
removed because `MergeMeshes` is invoked with `disposeSource = true`
unconditionally — the guarded dispose loop that follows in the source finds
them already disposed, so `preserveOriginalMeshes` has no effect.  On failure
nothing is disposed and `null` is returned. -/
def mergeMeshGroup (cfg : MergerConfig) (scene : List MMesh) (group : MergerGroup)
    (gIdx : Nat) (freshUid : Nat) : List MMesh × Option MMesh :=
  let normalized := normalizeVertexAttributes group.meshes
  let scene1 := scene.map fun m => (normalized.find? fun n => n.uid == m.uid).getD m
  match mergeMeshesGeometry normalized with
  | none => (scene1, none)
  | some geom =>
      let first := group.meshes.head?
      let merged : MMesh :=
        { uid := freshUid
          name := "Merged_Material_" ++ toString (gIdx + 1)
          kind := NodeKind.full
          geometry := some geom
          materialId := group.material
          isVisible := true
          isPickable := match first with | some f => f.isPickable | none => true
          checkCollisions := match first with | some f => f.checkCollisions | none => false
          animations := []
          parent := match first with
            | some f => if cfg.respectHierarchy && f.parent.isSome then f.parent else none
            | none => none }
      let scene2 := removeMergerSources scene1 (group.meshes.map fun m => m.uid) ++ [merged]
      (scene2, some merged)

/-- Fuel-indexed form of the batch-splitting loop (each round consumes at
least one mesh, so `fuel = length` is always sufficient). -/
def splitIntoBatchesFuel : Nat → List MMesh → Nat → List (List MMesh)
  | _, [], _ => []
  | 0, _ :: _, _ => []
  | _, _ :: _, 0 => []
  | fuel + 1, x :: xs, b + 1 =>
      (x :: xs).take (b + 1) :: splitIntoBatchesFuel fuel ((x :: xs).drop (b + 1)) (b + 1)

/-- `MeshMerger._splitIntoBatches`. -/
def splitIntoBatches (l : List MMesh) (batchSize : Nat) : List (List MMesh) :=
  splitIntoBatchesFuel l.length l batchSize

/-- The batch loop inside `MeshMerger._mergeMaterialGroups`: each batch becomes
its own `MaterialGroup` record (keyed `..._batch_${batchIndex}`) and is merged
independently; a failed batch keeps `mergedMesh = none`.  `freshUid` counts up
by one per merge attempt. -/
def mergeBatches (cfg : MergerConfig) :
    List (List MMesh) → Nat → MergerGroup → List MMesh → Nat →
    List MergerGroup × List MMesh × Nat
  | [], _, _, scene, fresh => ([], scene, fresh)
  | batch :: bs, bIdx, group, scene, fresh =>
      let bg : MergerGroup :=
        { materialId := group.materialId ++ "_batch_" ++ toString bIdx
          material := group.material
          meshes := batch
          originalVertexCount := (batch.map MMesh.getTotalVertices).sum
          mergedVertexCount := 0
          mergedMesh := none }
      let r := mergeMeshGroup cfg scene bg bIdx fresh
      let bg2 := match r.2 with
        | some mm => { bg with mergedMesh := some mm, mergedVertexCount := mm.getTotalVertices }
        | none => bg
      let out := mergeBatches cfg bs (bIdx + 1) group r.1 (fresh + 1)
      (bg2 :: out.1, out.2.1, out.2.2)

/-- `MeshMerger._mergeMaterialGroups` (named `mergeMergerGroupsAux` here to
avoid clashing with the material optimizer's namesake): oversized groups are
split into consecutive batches, others merge in one piece; a failure in one
group leaves that group unmerged and the loop continues with the rest. -/
def mergeMergerGroupsAux (cfg : MergerConfig) :
    List MergerGroup → Nat → List MMesh → Nat →
    List MergerGroup × List MMesh × Nat
  | [], _, scene, fresh => ([], scene, fresh)
  | g :: gs, idx, scene, fresh =>
      if cfg.mergeLimitPerGroup < g.meshes.length then
        let batches := splitIntoBatches g.meshes cfg.mergeLimitPerGroup
        let rb := mergeBatches cfg batches 0 g scene fresh
        let out := mergeMergerGroupsAux cfg gs (idx + 1) rb.2.1 rb.2.2
        (rb.1 ++ out.1, out.2)
      else
        let r := mergeMeshGroup cfg scene g idx fresh
        let g2 := match r.2 with
          | some mm => { g with mergedMesh := some mm, mergedVertexCount := mm.getTotalVertices }
          | none => g
        let out := mergeMergerGroupsAux cfg gs (idx + 1) r.1 (fresh + 1)
        (g2 :: out.1, out.2)

/-- `MergeResult`, extended with the scene list after the pass. -/
structure MergeResult where
  originalMeshCount : Nat
  mergedMeshCount : Nat
  materialGroups : List MergerGroup
  totalVertexReduction : Int
  newScene : List MMesh
  deriving Repr

/-- `MeshMerger.mergeMeshes`.  `freshUid` seeds the uids of the created merged
meshes (one per merge attempt). -/
def mergeMeshes (cfg : MergerConfig) (freshUid : Nat) (scene : List MMesh) :
    MergeResult :=
  let groups := analyzeMeshesByMaterial cfg scene
  let out := mergeMergerGroupsAux cfg groups 0 scene freshUid
  { originalMeshCount := (scene.filter (isMeshMergeable cfg)).length
    mergedMeshCount := (out.1.filter fun g => g.mergedMesh.isSome).length
    materialGroups := out.1
    totalVertexReduction :=
      (out.1.map fun g => (g.originalVertexCount : Int) - (g.mergedVertexCount : Int)).sum
    newScene := out.2.1 }

/-- A texture as the statistics pass observes it. -/
structure STexture where
  uid : String
  className : String
  width : Nat
  height : Nat
  deriving DecidableEq, Repr

/-- The scene as the statistics pass observes it.  `otherNodes` counts the
non-mesh nodes (cameras, lights, transform nodes) returned by
`scene.getNodes()` beyond the meshes. -/
structure StatScene where
  meshes : List MMesh
  materials : List Material
  textures : List STexture
  otherNodes : Nat
  deriving Repr

/-- `mesh.getClassName()`. -/
def MMesh.getClassName (m : MMesh) : String :=
  match m.kind with
  | .full => "Mesh"
  | .inst => "InstancedMesh"

/-- Bump the per-type counter map (`types[k] = (types[k] || 0) + 1`),
insertion-ordered. -/
def bumpCount : List (String × Nat) → String → List (String × Nat)
  | [], k => [(k, 1)]
  | p :: rest, k =>
      if p.1 = k then (p.1, p.2 + 1) :: rest else p :: bumpCount rest k

/-- First-seen deduplication by key (the `Set`-guarded traversals). -/
def dedupByUid (ts : List STexture) : List STexture :=
  (ts.foldl (fun acc t =>
    if acc.any fun u => u.uid == t.uid then acc else acc ++ [t]) [])

/-- `SceneStatistics`. -/
structure SceneStatistics where
  materialCount : Nat
  materialTypes : List (String × Nat)
  geometryCount : Nat
  geometryTypes : List (String × Nat)
  totalTriangles : Nat
  textureCount : Nat
  textureTypes : List (String × Nat)
  meshCount : Nat
  nodeCount : Nat
  memVertices : Nat
  memIndices : Nat
  memTextures : Nat
  deriving DecidableEq, Repr

/-- `SceneStats.getStatistics`, assembled from the private helpers
(`_getMaterialStatistics`, `_getGeometryStatistics`, `_getTextureStatistics`,
`_getTotalTriangles`, `_getMemoryUsage`); all of them are read-only traversals
of the scene. -/
def getStatistics (s : StatScene) : SceneStatistics :=
  let geomMeshes := s.meshes.filter fun m =>
    m.kind == NodeKind.full && m.geometry.isSome
  let uniqueTextures := dedupByUid s.textures
  { materialCount := s.materials.length
    materialTypes := (s.materials.map Material.getClassName).foldl bumpCount []
    geometryCount := geomMeshes.length
    geometryTypes := (geomMeshes.map MMesh.getClassName).foldl bumpCount []
    totalTriangles := (geomMeshes.map fun m =>
      (match m.geometry with | some g => g.indices.length | none => 0) / 3).sum
    textureCount := uniqueTextures.length
    textureTypes := (uniqueTextures.map fun t => t.className).foldl bumpCount []
    meshCount := s.meshes.length
    nodeCount := s.meshes.length + s.otherNodes
    memVertices := (geomMeshes.map fun m => m.getTotalVertices * 32).sum
    memIndices := (geomMeshes.map fun m =>
      (match m.geometry with | some g => g.indices.length | none => 0) * 4).sum
    memTextures := (uniqueTextures.map fun t => t.width * t.height * 4).sum }

/-- The statistics collection as a state-passing computation: the traversal
reads the scene and returns it unchanged (no mutation anywhere in the
source). -/
def collectStatistics (s : StatScene) : SceneStatistics × StatScene :=
  (getStatistics s, s)

/-- A standard material with the given id and red diffuse component; all other
channels zero, alpha 1, no textures. -/
def demoMat (i : String) (r : Rat) : Material :=
  .standard i (some ⟨r, 0, 0⟩) (some ⟨0, 0, 0⟩) (some ⟨0, 0, 0⟩) 1 none none none none

/-- Five meshes: materials A and B are within the default thresholds of each
other, C is far from both, and the last mesh has no material. -/
def demoDedupMeshes : List OMesh :=
  [⟨"m0", some (demoMat "A" 0)⟩,
   ⟨"m1", some (demoMat "B" (mkRat 1 20))⟩,
   ⟨"m2", some (demoMat "C" (mkRat 9 10))⟩,
   ⟨"m3", some (demoMat "A" 0)⟩,
   ⟨"m4", none⟩]

/-- A full mesh for the instancer examples: geometry `"g"`, material `"M"`. -/
def demoIMesh (u : Nat) (anims : List String) : IMesh where
  uid := u
  name := "m" ++ toString u
  kind := .full
  geometryId := some "g"
  materialId := some "M"
  position := ⟨0, 0, 0⟩
  rotation := ⟨0, 0, 0⟩
  scaling := ⟨1, 1, 1⟩
  isVisible := true
  isPickable := true
  checkCollisions := false
  parent := none
  animations := anims
  metadata := none

/-- Two identical meshes, the first carrying an animation. -/
def demoAnimScene : List IMesh := [demoIMesh 0 ["walk"], demoIMesh 1 []]

/-- Five identical meshes (one (geometry, material) cluster of size 5). -/
def demoInstScene5 : List IMesh :=
  [demoIMesh 0 [], demoIMesh 1 [], demoIMesh 2 [], demoIMesh 3 [], demoIMesh 4 []]

/-- Instancer configuration with `minInstanceCount = 3`. -/
def instCfg3 : InstancerConfig := { defaultInstancerConfig with minInstanceCount := 3 }

/-- A well-formed triangle geometry with positions, normals and UVs. -/
def demoGeomFull : MGeometry where
  positions := some [0, 0, 0, 1, 0, 0, 0, 1, 0]
  normals := some [0, 0, 1, 0, 0, 1, 0, 0, 1]
  uvs := some [0, 0, 1, 0, 0, 1]
  uv2s := none
  colors := none
  tangents := none
  indices := [0, 1, 2]

/-- A well-formed triangle geometry carrying only positions. -/
def demoGeomPosOnly : MGeometry where
  positions := some [2, 0, 0, 3, 0, 0, 2, 1, 0]
  normals := none
  uvs := none
  uv2s := none
  colors := none
  tangents := none
  indices := [0, 1, 2]

/-- A corrupt geometry: its position buffer is not a whole number of vertices
(`getTotalVertices` still reports 1), so concatenation fails on it. -/
def demoGeomCorrupt : MGeometry where
  positions := some [0, 0, 0, 1]
  normals := none
  uvs := none
  uv2s := none
  colors := none
  tangents := none
  indices := []

/-- A mergeable full mesh with the given uid and geometry, material `"M"`. -/
def demoMMesh (u : Nat) (g : MGeometry) : MMesh where
  uid := u
  name := "mm" ++ toString u
  kind := .full
  geometry := some g
  materialId := some "M"
  isVisible := true
  isPickable := true
  checkCollisions := false
  animations := []
  parent := none

/-- Two mergeable meshes sharing material `"M"`. -/
def demoMergeScene : List MMesh := [demoMMesh 0 demoGeomFull, demoMMesh 1 demoGeomFull]

/-- Merger configuration asking to preserve the original meshes. -/
def mergerCfgPreserve : MergerConfig :=
  { defaultMergerConfig with preserveOriginalMeshes := true }

/-- A group of two meshes whose merge fails: the second one's geometry is
corrupt.  Normalization still runs first and mutates it. -/
def demoFailScene : List MMesh := [demoMMesh 0 demoGeomFull, demoMMesh 1 demoGeomCorrupt]

/-- The index-validity invariant: every mesh index recorded in an entry points
at a mesh of `L` whose material has the entry's id. -/
def InfosValid (L : List OMesh) (infos : List MaterialInfo) : Prop :=
  ∀ info ∈ infos, ∀ j ∈ info.meshes,
    ∃ m mat, L.get? j = some m ∧ m.material = some mat ∧ mat.id = info.material.id

/-- The per-batch `MaterialGroup` record built inside the batch loop of
`_mergeMaterialGroups`. -/
def batchRecord (group : MergerGroup) (b : List MMesh) (bIdx : Nat) : MergerGroup :=
  { materialId := group.materialId ++ "_batch_" ++ toString bIdx
    material := group.material
    meshes := b
    originalVertexCount := (b.map MMesh.getTotalVertices).sum
    mergedVertexCount := 0
    mergedMesh := none }

/-! ## Theorems -/

theorem ratAdd_eq (a b : Rat) : ratAdd a b = a + b := by
  rw [ratAdd, Rat.mkRat_eq_div]
  conv_rhs => rw [← Rat.num_div_den a, ← Rat.num_div_den b]
  rw [div_add_div _ _ (by positivity : ((a.den : Rat)) ≠ 0)
    (by positivity : ((b.den : Rat)) ≠ 0)]
  push_cast
  ring_nf

theorem ratSub_eq (a b : Rat) : ratSub a b = a - b := by
  rw [ratSub, Rat.mkRat_eq_div]
  conv_rhs => rw [← Rat.num_div_den a, ← Rat.num_div_den b]
  rw [div_sub_div _ _ (by positivity : ((a.den : Rat)) ≠ 0)
    (by positivity : ((b.den : Rat)) ≠ 0)]
  push_cast
  ring_nf

theorem ratMul_eq (a b : Rat) : ratMul a b = a * b := by
  rw [ratMul, Rat.mkRat_eq_div]
  conv_rhs => rw [← Rat.num_div_den a, ← Rat.num_div_den b]
  rw [div_mul_div_comm]
  push_cast
  ring_nf

theorem ratAbs_eq (a : Rat) : ratAbs a = |a| := by
  rw [ratAbs, Rat.mkRat_eq_div]
  conv_rhs => rw [← Rat.num_div_den a]
  rw [abs_div]
  congr 1
  · push_cast [Int.cast_natAbs]
    rfl
  · exact (abs_of_nonneg (by positivity)).symm

theorem ratLe_iff (a b : Rat) : ratLe a b = true ↔ a ≤ b := by
  rw [ratLe, decide_eq_true_iff]
  have h : a ≤ b ↔ (a.num : Rat) / (a.den : Rat) ≤ (b.num : Rat) / (b.den : Rat) := by
    rw [Rat.num_div_den, Rat.num_div_den]
  rw [h, div_le_div_iff₀ (by positivity) (by positivity)]
  exact_mod_cast Iff.rfl

theorem insertMeshMat_ids (infos : List MaterialInfo) (mat : Material) (i : Nat) :
    (insertMeshMat infos mat i).map (fun x => x.material.id)
      = if mat.id ∈ infos.map (fun x => x.material.id)
        then infos.map (fun x => x.material.id)
        else infos.map (fun x => x.material.id) ++ [mat.id] := by
  induction infos with
  | nil => simp [insertMeshMat]
  | cons a rest ih =>
      by_cases h : a.material.id = mat.id
      · simp [insertMeshMat, h]
      · simp only [insertMeshMat, if_neg h, List.map_cons, ih]
        by_cases hm : mat.id ∈ rest.map (fun x => x.material.id)
        · rw [if_pos hm, if_pos (by simp [hm])]
        · rw [if_neg hm, if_neg (by simp [hm]; exact fun hc => h hc.symm),
            List.cons_append]

theorem insertMeshMat_ids_nodup (infos : List MaterialInfo) (mat : Material) (i : Nat)
    (h : (infos.map fun x => x.material.id).Nodup) :
    ((insertMeshMat infos mat i).map fun x => x.material.id).Nodup := by
  rw [insertMeshMat_ids]
  by_cases hm : mat.id ∈ infos.map (fun x => x.material.id)
  · rwa [if_pos hm]
  · rw [if_neg hm]
    simp [List.nodup_append, h, hm]

theorem analyzeMaterialsAux_ids_nodup (ms : List OMesh) :
    ∀ (i : Nat) (infos : List MaterialInfo),
      (infos.map fun x => x.material.id).Nodup →
      ((analyzeMaterialsAux i ms infos).map fun x => x.material.id).Nodup := by
  induction ms with
  | nil => intro i infos h; exact h
  | cons m rest ih =>
      intro i infos h
      match hm : m.material with
      | none => simpa [analyzeMaterialsAux, hm] using ih (i + 1) infos h
      | some mat =>
          simpa [analyzeMaterialsAux, hm] using
            ih (i + 1) _ (insertMeshMat_ids_nodup infos mat i h)

theorem analyzeMaterials_ids_nodup (meshes : List OMesh) :
    ((analyzeMaterials meshes).map fun x => x.material.id).Nodup :=
  analyzeMaterialsAux_ids_nodup meshes 0 [] (by simp)

theorem insertMeshMat_mono (infos : List MaterialInfo) (mat : Material) (i : Nat)
    (info : MaterialInfo) (h : info ∈ infos) :
    ∃ info' ∈ insertMeshMat infos mat i,
      info'.material = info.material ∧ ∀ x ∈ info.meshes, x ∈ info'.meshes := by
  induction infos with
  | nil => cases h
  | cons a rest ih =>
      by_cases ha : a.material.id = mat.id
      · rcases List.mem_cons.mp h with rfl | hr
        · exact ⟨{ info with meshes := info.meshes ++ [i] },
            by simp [insertMeshMat, ha], rfl, by intro x hx; simp [hx]⟩
        · exact ⟨info, by simp [insertMeshMat, ha, hr], rfl, fun x hx => hx⟩
      · rcases List.mem_cons.mp h with rfl | hr
        · exact ⟨info, by simp [insertMeshMat, ha], rfl, fun x hx => hx⟩
        · rcases ih hr with ⟨info', h1, h2, h3⟩
          exact ⟨info', by simp [insertMeshMat, ha, h1], h2, h3⟩

theorem analyzeMaterialsAux_mono (ms : List OMesh) :
    ∀ (i : Nat) (infos : List MaterialInfo) (info : MaterialInfo), info ∈ infos →
      ∃ info' ∈ analyzeMaterialsAux i ms infos,
        info'.material = info.material ∧ ∀ x ∈ info.meshes, x ∈ info'.meshes := by
  induction ms with
  | nil => intro i infos info h; exact ⟨info, h, rfl, fun x hx => hx⟩
  | cons m rest ih =>
      intro i infos info h
      match hm : m.material with
      | none =>
          simpa [analyzeMaterialsAux, hm] using ih (i + 1) infos info h
      | some mat =>
          rcases insertMeshMat_mono infos mat i info h with ⟨info', h1, h2, h3⟩
          rcases ih (i + 1) _ info' h1 with ⟨info'', h4, h5, h6⟩
          exact ⟨info'', by simpa [analyzeMaterialsAux, hm] using h4,
            h5.trans h2, fun x hx => h6 x (h3 x hx)⟩

theorem insertMeshMat_hit (infos : List MaterialInfo) (mat : Material) (i : Nat) :
    ∃ info ∈ insertMeshMat infos mat i, info.material.id = mat.id ∧ i ∈ info.meshes := by
  induction infos with
  | nil => exact ⟨⟨mat, [i]⟩, by simp [insertMeshMat], rfl, by simp⟩
  | cons a rest ih =>
      by_cases ha : a.material.id = mat.id
      · exact ⟨{ a with meshes := a.meshes ++ [i] }, by simp [insertMeshMat, ha],
          ha, by simp⟩
      · rcases ih with ⟨info, h1, h2, h3⟩
        exact ⟨info, by simp [insertMeshMat, ha, h1], h2, h3⟩

theorem analyzeMaterialsAux_cover (ms : List OMesh) :
    ∀ (i : Nat) (infos : List MaterialInfo) (j : Nat) (m : OMesh) (mat : Material),
      ms.get? j = some m → m.material = some mat →
      ∃ info ∈ analyzeMaterialsAux i ms infos,
        info.material.id = mat.id ∧ (i + j) ∈ info.meshes := by
  induction ms with
  | nil => intro i infos j m mat h; simp at h
  | cons m0 rest ih =>
      intro i infos j m mat hj hmat
      match j with
      | 0 =>
          simp only [List.get?_cons_zero, Option.some_inj] at hj
          subst hj
          rcases insertMeshMat_hit infos mat i with ⟨info, h1, h2, h3⟩
          rcases analyzeMaterialsAux_mono rest (i + 1) _ info h1 with ⟨info', h4, h5, h6⟩
          exact ⟨info', by simpa [analyzeMaterialsAux, hmat] using h4,
            by rw [h5]; exact h2, by simpa using h6 i h3⟩
      | j' + 1 =>
          simp only [List.get?_cons_succ] at hj
          match hm : m0.material with
          | none =>
              rcases ih (i + 1) infos j' m mat hj hmat with ⟨info, h1, h2, h3⟩
              refine ⟨info, by simpa [analyzeMaterialsAux, hm] using h1, h2, ?_⟩
              rw [show i + (j' + 1) = i + 1 + j' by omega]
              exact h3
          | some mat0 =>
              rcases ih (i + 1) (insertMeshMat infos mat0 i) j' m mat hj hmat with
                ⟨info, h1, h2, h3⟩
              refine ⟨info, by simpa [analyzeMaterialsAux, hm] using h1, h2, ?_⟩
              rw [show i + (j' + 1) = i + 1 + j' by omega]
              exact h3

theorem insertMeshMat_source (infos : List MaterialInfo) (mat : Material) (i : Nat) :
    ∀ info ∈ insertMeshMat infos mat i,
      info.material ∈ infos.map (fun x => x.material) ∨ info.material = mat := by
  induction infos with
  | nil => intro info h; simp [insertMeshMat] at h; simp [h]
  | cons a rest ih =>
      intro info h
      by_cases ha : a.material.id = mat.id
      · simp only [insertMeshMat, if_pos ha, List.mem_cons] at h
        rcases h with rfl | h
        · exact Or.inl (by simp)
        · exact Or.inl (by simp [List.mem_map]; exact Or.inr ⟨info, h, rfl⟩)
      · simp only [insertMeshMat, if_neg ha, List.mem_cons] at h
        rcases h with rfl | h
        · exact Or.inl (by simp)
        · rcases ih info h with h' | h'
          · exact Or.inl (by simp [List.mem_map] at h' ⊢; tauto)
          · exact Or.inr h'

theorem analyzeMaterialsAux_source (ms : List OMesh) :
    ∀ (i : Nat) (infos : List MaterialInfo) (info : MaterialInfo),
      info ∈ analyzeMaterialsAux i ms infos →
      info.material ∈ infos.map (fun x => x.material) ∨
        info.material ∈ ms.filterMap (fun m => m.material) := by
  induction ms with
  | nil => intro i infos info h; exact Or.inl (List.mem_map_of_mem _ h)
  | cons m rest ih =>
      intro i infos info h
      match hm : m.material with
      | none =>
          rw [analyzeMaterialsAux, hm] at h
          rcases ih (i + 1) infos info h with h' | h'
          · exact Or.inl h'
          · exact Or.inr (by simpa [hm] using h')
      | some mat =>
          rw [analyzeMaterialsAux, hm] at h
          rcases ih (i + 1) _ info h with h' | h'
          · rcases List.mem_map.mp h' with ⟨info', hi', he⟩
            rcases insertMeshMat_source infos mat i info' hi' with h'' | h''
            · exact Or.inl (he ▸ h'')
            · exact Or.inr (by simp [hm]; exact Or.inl (by rw [← he, h'']))
          · refine Or.inr (by simp [hm]; exact Or.inr (by simpa using h'))

theorem insertMeshMat_valid (L : List OMesh) (infos : List MaterialInfo)
    (mat : Material) (i : Nat) (m0 : OMesh)
    (hL : L.get? i = some m0) (hm0 : m0.material = some mat)
    (h : InfosValid L infos) : InfosValid L (insertMeshMat infos mat i) := by
  induction infos with
  | nil =>
      intro info hinfo j hj
      simp [insertMeshMat] at hinfo
      subst hinfo
      simp at hj
      subst hj
      exact ⟨m0, mat, hL, hm0, rfl⟩
  | cons a rest ih =>
      intro info hinfo j hj
      by_cases ha : a.material.id = mat.id
      · simp only [insertMeshMat, if_pos ha, List.mem_cons] at hinfo
        rcases hinfo with rfl | hinfo
        · simp only [List.mem_append, List.mem_singleton] at hj
          rcases hj with hj | rfl
          · exact h a (by simp) j hj
          · exact ⟨m0, mat, hL, hm0, ha.symm⟩
        · exact h info (by simp [hinfo]) j hj
      · simp only [insertMeshMat, if_neg ha, List.mem_cons] at hinfo
        rcases hinfo with rfl | hinfo
        · exact h info (by simp) j hj
        · exact ih (fun x hx => h x (by simp [hx])) info hinfo j hj

theorem analyzeMaterialsAux_valid (L : List OMesh) :
    ∀ (ms : List OMesh) (i : Nat) (infos : List MaterialInfo),
      ms = L.drop i → InfosValid L infos →
      InfosValid L (analyzeMaterialsAux i ms infos) := by
  intro ms
  induction ms with
  | nil => intro i infos _ h; exact h
  | cons m rest ih =>
      intro i infos hdrop h
      have hget : L.get? i = some m := by
        have := List.get?_drop L i 0
        rw [← hdrop] at this
        simpa using this.symm
      have hrest : rest = L.drop (i + 1) := by
        have : L.drop (i + 1) = (L.drop i).drop 1 := by
          rw [List.drop_drop, Nat.add_comm]
        rw [this, ← hdrop]
        simp
      match hm : m.material with
      | none =>
          rw [analyzeMaterialsAux, hm]
          exact ih (i + 1) infos hrest h
      | some mat =>
          rw [analyzeMaterialsAux, hm]
          exact ih (i + 1) _ hrest (insertMeshMat_valid L infos mat i m hget hm h)

theorem analyzeMaterials_valid (L : List OMesh) : InfosValid L (analyzeMaterials L) :=
  analyzeMaterialsAux_valid L L 0 [] (by simp) (by intro info h; cases h)

/-- Two analysis entries sharing a recorded mesh index are the same entry. -/
theorem analyzeMaterials_unique_index (L : List OMesh) (info info' : MaterialInfo)
    (h : info ∈ analyzeMaterials L) (h' : info' ∈ analyzeMaterials L)
    (j : Nat) (hj : j ∈ info.meshes) (hj' : j ∈ info'.meshes) : info = info' := by
  rcases analyzeMaterials_valid L info h j hj with ⟨m, mat, hm, hmat, hid⟩
  rcases analyzeMaterials_valid L info' h' j hj' with ⟨m', mat', hm', hmat', hid'⟩
  rw [hm] at hm'
  injection hm' with he
  subst he
  rw [hmat] at hmat'
  injection hmat' with he'
  subst he'
  have hids : info.material.id = info'.material.id := by rw [← hid, ← hid']
  have := List.inj_on_of_nodup_map (analyzeMaterials_ids_nodup L)
  exact this h h' hids

theorem insertMeshMat_ids_toFinset (infos : List MaterialInfo) (mat : Material)
    (i : Nat) :
    ((insertMeshMat infos mat i).map fun x => x.material.id).toFinset
      = insert mat.id (infos.map fun x => x.material.id).toFinset := by
  rw [insertMeshMat_ids]
  by_cases hm : mat.id ∈ infos.map fun x => x.material.id
  · rw [if_pos hm]
    have : mat.id ∈ (infos.map fun x => x.material.id).toFinset := by
      simpa using hm
    rw [Finset.insert_eq_self.mpr this]
  · rw [if_neg hm]
    ext x
    simp [or_comm]

theorem analyzeMaterialsAux_ids_toFinset (ms : List OMesh) :
    ∀ (i : Nat) (infos : List MaterialInfo),
      ((analyzeMaterialsAux i ms infos).map fun x => x.material.id).toFinset
        = (infos.map fun x => x.material.id).toFinset
            ∪ (ms.filterMap fun m => m.material.map Material.id).toFinset := by
  induction ms with
  | nil => intro i infos; simp [analyzeMaterialsAux]
  | cons m rest ih =>
      intro i infos
      match hm : m.material with
      | none => rw [analyzeMaterialsAux, hm]; simp [hm, ih (i + 1) infos]
      | some mat =>
          rw [analyzeMaterialsAux, hm]
          rw [ih (i + 1) _, insertMeshMat_ids_toFinset]
          simp only [List.filterMap_cons, hm, Option.map_some, List.toFinset_cons]
          ext x
          simp [or_comm, or_assoc, or_left_comm]

/-- `originalCount` counts exactly the distinct referenced material ids. -/
theorem analyzeMaterials_length (L : List OMesh) :
    (analyzeMaterials L).length
      = (L.filterMap fun m => m.material.map Material.id).dedup.length := by
  have h1 : ((analyzeMaterials L).map fun x => x.material.id).toFinset
      = (L.filterMap fun m => m.material.map Material.id).toFinset := by
    rw [analyzeMaterials, analyzeMaterialsAux_ids_toFinset L 0 []]
    simp
  calc (analyzeMaterials L).length
      = ((analyzeMaterials L).map fun x => x.material.id).length := by
        rw [List.length_map]
    _ = ((analyzeMaterials L).map fun x => x.material.id).toFinset.card :=
        (List.toFinset_card_of_nodup (analyzeMaterials_ids_nodup L)).symm
    _ = (L.filterMap fun m => m.material.map Material.id).toFinset.card := by rw [h1]
    _ = (L.filterMap fun m => m.material.map Material.id).dedup.length :=
        List.card_toFinset _

theorem greedy_all_singleton (cfg : MaterialCompareConfig) (Q : MaterialInfo → Bool) :
    ∀ (fuel : Nat) (l : List MaterialInfo), l.length ≤ fuel → l.Nodup →
      (∀ a ∈ l, ∀ b ∈ l, a ≠ b →
        areMaterialsSimilar cfg a.material b.material = (Q a && Q b)) →
      (∀ x ∈ l, Q x = false) →
      groupSimilarMaterialsFuel cfg fuel l = l.map fun x => [x] := by
  intro fuel
  induction fuel with
  | zero =>
      intro l hl _ _ _
      have : l = [] := List.length_eq_zero.mp (Nat.le_zero.mp hl)
      subst this
      rfl
  | succ fuel ih =>
      intro l hl hnd hsim hQ
      match l with
      | [] => rfl
      | info :: rest =>
          have hmem : ∀ o ∈ rest, o ∈ info :: rest := fun o ho => by simp [ho]
          have hneq : ∀ o ∈ rest, info ≠ o := by
            intro o ho hcon
            exact (List.nodup_cons.mp hnd).1 (hcon ▸ ho)
          have h1 : rest.filter
              (fun o => areMaterialsSimilar cfg info.material o.material) = [] := by
            rw [List.filter_eq_nil_iff]
            intro o ho
            rw [hsim info (by simp) o (hmem o ho) (hneq o ho), hQ info (by simp)]
            simp
          have h2 : rest.filter
              (fun o => !areMaterialsSimilar cfg info.material o.material) = rest := by
            rw [List.filter_eq_self]
            intro o ho
            rw [hsim info (by simp) o (hmem o ho) (hneq o ho), hQ info (by simp)]
            simp
          rw [groupSimilarMaterialsFuel, h1, h2, List.map_cons]
          congr 1
          exact ih rest (by simpa using hl) (List.nodup_cons.mp hnd).2
            (fun a ha b hb hab => hsim a (hmem a ha) b (hmem b hb) hab)
            (fun x hx => hQ x (hmem x hx))

theorem greedy_single_cluster (cfg : MaterialCompareConfig) (Q : MaterialInfo → Bool) :
    ∀ (fuel : Nat) (l : List MaterialInfo), l.length ≤ fuel → l.Nodup →
      (∀ a ∈ l, ∀ b ∈ l, a ≠ b →
        areMaterialsSimilar cfg a.material b.material = (Q a && Q b)) →
      l.filter Q ≠ [] →
      ∃ gs1 gs2,
        groupSimilarMaterialsFuel cfg fuel l = gs1 ++ (l.filter Q) :: gs2 ∧
        (∀ g ∈ gs1, ∃ x, g = [x] ∧ Q x = false) ∧
        (∀ g ∈ gs2, ∃ x, g = [x] ∧ Q x = false) ∧
        gs1.length + gs2.length = (l.filter fun x => !Q x).length := by
  intro fuel
  induction fuel with
  | zero =>
      intro l hl _ _ hne
      have : l = [] := List.length_eq_zero.mp (Nat.le_zero.mp hl)
      subst this
      simp at hne
  | succ fuel ih =>
      intro l hl hnd hsim hne
      match l with
      | [] => simp at hne
      | info :: rest =>
          have hmem : ∀ o ∈ rest, o ∈ info :: rest := fun o ho => by simp [ho]
          have hneq : ∀ o ∈ rest, info ≠ o := by
            intro o ho hcon
            exact (List.nodup_cons.mp hnd).1 (hcon ▸ ho)
          by_cases hQi : Q info = true
          · have h1 : rest.filter
                (fun o => areMaterialsSimilar cfg info.material o.material)
                = rest.filter Q := by
              apply List.filter_congr
              intro o ho
              rw [hsim info (by simp) o (hmem o ho) (hneq o ho), hQi, Bool.true_and]
            have h2 : rest.filter
                (fun o => !areMaterialsSimilar cfg info.material o.material)
                = rest.filter fun x => !Q x := by
              apply List.filter_congr
              intro o ho
              rw [hsim info (by simp) o (hmem o ho) (hneq o ho), hQi, Bool.true_and]
            refine ⟨[], (rest.filter fun x => !Q x).map fun x => [x], ?_, ?_, ?_, ?_⟩
            · rw [groupSimilarMaterialsFuel, h1, h2, List.nil_append,
                List.filter_cons_of_pos hQi]
              congr 1
              apply greedy_all_singleton cfg Q fuel _
                (le_trans (List.length_filter_le _ _) (by simpa using hl))
                ((List.nodup_cons.mp hnd).2.filter _)
                (fun a ha b hb hab => hsim a (hmem a (List.mem_of_mem_filter ha))
                  b (hmem b (List.mem_of_mem_filter hb)) hab)
                (fun x hx => by
                  have := List.of_mem_filter hx
                  simpa using this)
            · intro g hg; cases hg
            · intro g hg
              rcases List.mem_map.mp hg with ⟨x, hx, rfl⟩
              exact ⟨x, rfl, by have := List.of_mem_filter hx; simpa using this⟩
            · simp [List.filter_cons, hQi]
          · have hQif : Q info = false := by
              cases hq : Q info
              · rfl
              · exact absurd hq hQi
            have h1 : rest.filter
                (fun o => areMaterialsSimilar cfg info.material o.material) = [] := by
              rw [List.filter_eq_nil_iff]
              intro o ho
              rw [hsim info (by simp) o (hmem o ho) (hneq o ho), hQif]
              simp
            have h2 : rest.filter
                (fun o => !areMaterialsSimilar cfg info.material o.material) = rest := by
              rw [List.filter_eq_self]
              intro o ho
              rw [hsim info (by simp) o (hmem o ho) (hneq o ho), hQif]
              simp
            have hne' : rest.filter Q ≠ [] := by
              rwa [List.filter_cons_of_neg (by simp [hQif])] at hne
            rcases ih rest (by simpa using hl) (List.nodup_cons.mp hnd).2
              (fun a ha b hb hab => hsim a (hmem a ha) b (hmem b hb) hab) hne' with
              ⟨gs1, gs2, heq, hgs1, hgs2, hcount⟩
            refine ⟨[info] :: gs1, gs2, ?_, ?_, hgs2, ?_⟩
            · rw [groupSimilarMaterialsFuel, h1, h2, heq,
                List.filter_cons_of_neg (by simp [hQif])]
              rfl
            · intro g hg
              rcases List.mem_cons.mp hg with rfl | hg'
              · exact ⟨info, rfl, hQif⟩
              · exact hgs1 g hg'
            · rw [List.filter_cons_of_pos (by simp [hQif])]
              simp only [List.length_cons]
              omega

theorem mergeMaterialGroupsAux_append (idx : Nat) (gs1 gs2 : List (List MaterialInfo)) :
    mergeMaterialGroupsAux idx (gs1 ++ gs2)
      = ((mergeMaterialGroupsAux idx gs1).1
            ++ (mergeMaterialGroupsAux (idx + gs1.length) gs2).1,
         (mergeMaterialGroupsAux idx gs1).2.1
            ++ (mergeMaterialGroupsAux (idx + gs1.length) gs2).2.1,
         (mergeMaterialGroupsAux idx gs1).2.2
            ++ (mergeMaterialGroupsAux (idx + gs1.length) gs2).2.2) := by
  induction gs1 generalizing idx with
  | nil => simp [mergeMaterialGroupsAux]
  | cons g gs ih =>
      simp only [List.cons_append, mergeMaterialGroupsAux, List.append_eq,
        ih (idx + 1), List.length_cons, List.append_assoc]
      rw [show idx + 1 + gs.length = idx + (gs.length + 1) by omega]

theorem mergeMaterialGroupsAux_singletons (idx : Nat) (gs : List (List MaterialInfo))
    (h : ∀ g ∈ gs, ∃ x, g = [x]) :
    (mergeMaterialGroupsAux idx gs).1.length = gs.length ∧
    (mergeMaterialGroupsAux idx gs).2.1 = [] ∧
    (mergeMaterialGroupsAux idx gs).2.2 = [] := by
  induction gs generalizing idx with
  | nil => simp [mergeMaterialGroupsAux]
  | cons g rest ih =>
      rcases h g (by simp) with ⟨x, rfl⟩
      rcases ih (idx + 1) (fun g' hg' => h g' (by simp [hg'])) with ⟨h1, h2, h3⟩
      refine ⟨?_, ?_, ?_⟩ <;>
        simp [mergeMaterialGroupsAux, mergeOneGroup, h1, h2, h3]

theorem mergeOneGroup_multi_repoints (idx : Nat) (master r1 : MaterialInfo)
    (rs : List MaterialInfo) :
    (∀ p ∈ (mergeOneGroup idx (master :: r1 :: rs)).2.1,
      p.2 = createMergedMaterial master.material ("Merged_" ++ toString (idx + 1))) ∧
    (∀ info ∈ master :: r1 :: rs, ∀ i ∈ info.meshes,
      (i, createMergedMaterial master.material ("Merged_" ++ toString (idx + 1)))
        ∈ (mergeOneGroup idx (master :: r1 :: rs)).2.1) := by
  constructor
  · intro p hp
    simp only [mergeOneGroup, List.mem_flatMap, List.mem_map] at hp
    rcases hp with ⟨info, _, i, _, rfl⟩
    rfl
  · intro info hinfo i hi
    simp only [mergeOneGroup, List.mem_flatMap]
    exact ⟨info, hinfo, by simp only [List.mem_map]; exact ⟨i, hi, rfl⟩⟩

theorem lookupAssign_const (reps : List (Nat × Material)) (i : Nat) (mat : Material)
    (h : ∀ p ∈ reps, p.2 = mat) (hmem : ∃ p ∈ reps, p.1 = i) :
    lookupAssign reps i = some mat := by
  rcases hmem with ⟨p, hp, hpi⟩
  have hsome : (reps.reverse.find? fun q => q.1 == i).isSome := by
    rw [List.find?_isSome]
    exact ⟨p, by simpa using hp, by simp [hpi]⟩
  rcases Option.isSome_iff_exists.mp hsome with ⟨q, hq⟩
  have hqmem : q ∈ reps.reverse := List.mem_of_find?_eq_some hq
  rw [lookupAssign, hq]
  simp [h q (by simpa using hqmem)]

theorem applyRepointsAux_get? (reps : List (Nat × Material)) :
    ∀ (l : List OMesh) (i0 j : Nat),
      (applyRepointsAux reps i0 l).get? j
        = (l.get? j).map fun m =>
            match lookupAssign reps (i0 + j) with
            | some mat => { m with material := some mat }
            | none => m := by
  intro l
  induction l with
  | nil => intro i0 j; simp [applyRepointsAux]
  | cons m rest ih =>
      intro i0 j
      match j with
      | 0 => simp [applyRepointsAux]
      | j' + 1 =>
          simp only [applyRepointsAux, List.get?_cons_succ, ih (i0 + 1) j']
          rw [show i0 + (j' + 1) = i0 + 1 + j' by omega]

/-- C9: running the statistics collection twice in succession with no
intervening mutation returns identical `Statistics` records, and the collection
itself never mutates the scene graph. -/
theorem collectStatistics_idempotent (s : StatScene) :
    (collectStatistics (collectStatistics s).2).1 = (collectStatistics s).1 ∧
    (collectStatistics (collectStatistics s).2).2 = s :=
  ⟨rfl, rfl⟩

/-- C5: evaluation of the merger at the failing input.  With
`preserveOriginalMeshes = true` and a successfully merged batch of the two
source meshes (uids 0 and 1), both sources are nevertheless removed from the
scene — only the merged mesh (uid 100) remains — because the source passes
`disposeSource = true` to `MergeMeshes` unconditionally. -/
theorem preserveOriginalMeshes_sources_still_disposed :
    mergerCfgPreserve.preserveOriginalMeshes = true ∧
    (demoMergeScene.map fun m => m.uid) = [0, 1] ∧
    ((analyzeMeshesByMaterial mergerCfgPreserve demoMergeScene).map fun g =>
      g.meshes.map fun m => m.uid) = [[0, 1]] ∧
    ((mergeMeshes mergerCfgPreserve 100 demoMergeScene).newScene.map fun m => m.uid)
      = [100] := by
  exact ⟨rfl, rfl, rfl, rfl⟩

/-- C2 counterexample: a mesh carrying an animation (uid 0) is a member of a
Mesh Instancer cluster — `_analyzeMeshes` applies no animation exclusion — so
the claim that an animated mesh is never a member of any Instancer cluster is
false on this scene. -/
theorem animated_mesh_in_instancer_cluster :
    (demoAnimScene.map fun m => m.animations) = [["walk"], []] ∧
    ((analyzeMeshes defaultInstancerConfig demoAnimScene).map fun g =>
      g.meshes.map fun m => m.uid) = [[0, 1]] ∧
    ((createInstances defaultInstancerConfig demoAnimScene).instancedGroups.map fun p =>
      p.1.meshes.map fun m => m.uid) = [[0, 1]] := by
  exact ⟨rfl, rfl, rfl⟩

/-- C3 counterexample: with `minInstanceCount = 3` and a cluster of five
identical meshes, instancing does happen (1 master + 4 instances), but the
scene's mesh count does not decrease by 4: every disposed source is replaced by
an instance, which Babylon also registers in `scene.meshes`, so
`optimizedMeshCount = originalMeshCount = 5`. -/
theorem instancer_mesh_count_not_decreased :
    instCfg3.minInstanceCount = 3 ∧
    (createInstances instCfg3 demoInstScene5).originalMeshCount = 5 ∧
    (createInstances instCfg3 demoInstScene5).totalInstancesCreated = 4 ∧
    ((createInstances instCfg3 demoInstScene5).newScene.filter fun m =>
      m.kind == NodeKind.inst).length = 4 ∧
    (createInstances instCfg3 demoInstScene5).optimizedMeshCount = 5 ∧
    ¬ (createInstances instCfg3 demoInstScene5).optimizedMeshCount =
        (createInstances instCfg3 demoInstScene5).originalMeshCount - 4 := by
  refine ⟨rfl, rfl, rfl, rfl, rfl, ?_⟩
  decide

/-- C4 counterexample: the scene has one similarity cluster of size 2, with
materials A and B (A the first member); after the pass only B has been
disposed — the cluster's first member A is not disposed, contradicting
"disposes every original material in the cluster (including the first)". -/
theorem dedup_master_not_disposed_example :
    ((optimizeMaterials defaultMaterialConfig demoDedupMeshes).materialGroups.map fun g =>
      g.map fun info => info.material.id) = [["A", "B"], ["C"]] ∧
    ((optimizeMaterials defaultMaterialConfig demoDedupMeshes).disposed.map Material.id)
      = ["B"] ∧
    ¬ "A" ∈ ((optimizeMaterials defaultMaterialConfig demoDedupMeshes).disposed.map
      Material.id) := by
  refine ⟨rfl, rfl, ?_⟩
  decide

/-- C6 counterexample: the single group (uids 0, 1) fails to merge — the
second member's geometry is corrupt — and both sources stay in the scene
un-disposed; but they are not left untouched: normalization had already added
a default normal and UV buffer to the second member's geometry (it had
neither), and that mutation persists after the failed merge. -/
theorem merge_failure_sources_mutated_example :
    ((mergeMeshes defaultMergerConfig 100 demoFailScene).materialGroups.map fun g =>
      g.mergedMesh.isSome) = [false] ∧
    ((mergeMeshes defaultMergerConfig 100 demoFailScene).newScene.map fun m => m.uid)
      = [0, 1] ∧
    (demoGeomCorrupt.normals, demoGeomCorrupt.uvs) = (none, none) ∧
    ((mergeMeshes defaultMergerConfig 100 demoFailScene).newScene.map fun m =>
      m.geometry.map fun g => (g.normals, g.uvs)) =
      [some (some [0, 0, 1, 0, 0, 1, 0, 0, 1], some [0, 0, 1, 0, 0, 1]),
       some (some [0, 1, 0], some [0, 0])] := by
  exact ⟨rfl, rfl, rfl, rfl⟩

/-- C1: for a scene whose referenced materials form exactly one similarity
cluster (the materials whose id satisfies `P`, of which there are `k ≥ 2`)
with every other referenced material similar to nothing, `optimizeMaterials`
returns `optimizedCount = originalCount - (k - 1)`, and every mesh that
referenced a cluster material now references the one surviving merged
material. -/
theorem optimizeMaterials_single_cluster_conservation
    (cfg : MaterialCompareConfig) (meshes : List OMesh) (P : String → Bool) (k : Nat)
    (hsim : ∀ a ∈ analyzeMaterials meshes, ∀ b ∈ analyzeMaterials meshes, a ≠ b →
      areMaterialsSimilar cfg a.material b.material
        = (P a.material.id && P b.material.id))
    (hk : ((analyzeMaterials meshes).filter fun x => P x.material.id).length = k)
    (hk2 : 2 ≤ k) :
    (optimizeMaterials cfg meshes).optimizedCount
        = (optimizeMaterials cfg meshes).originalCount - (k - 1) ∧
    k ≤ (optimizeMaterials cfg meshes).originalCount ∧
    ∃ mm ∈ (optimizeMaterials cfg meshes).mergedMaterials,
      ∀ (i : Nat) (m : OMesh) (mat : Material),
        meshes.get? i = some m → m.material = some mat → P mat.id = true →
        (optimizeMaterials cfg meshes).newMeshes.get? i
          = some { m with material := some mm } := by
  have hne : (analyzeMaterials meshes).filter (fun x => P x.material.id) ≠ [] := by
    intro h0
    rw [h0] at hk
    simp at hk
    omega
  have hnd : (analyzeMaterials meshes).Nodup :=
    (analyzeMaterials_ids_nodup meshes).of_map
  rcases greedy_single_cluster cfg (fun x => P x.material.id)
    (analyzeMaterials meshes).length (analyzeMaterials meshes) le_rfl hnd hsim hne with
    ⟨gs1, gs2, heq, hsing1, hsing2, hcount⟩
  obtain ⟨master, r1, rs, hcl⟩ : ∃ master r1 rs,
      (analyzeMaterials meshes).filter (fun x => P x.material.id)
        = master :: r1 :: rs := by
    match hfl : (analyzeMaterials meshes).filter (fun x => P x.material.id) with
    | [] => exact absurd hfl hne
    | [x] => rw [hfl] at hk; simp at hk; omega
    | a :: b :: t => exact ⟨a, b, t, hfl⟩
  rw [hcl] at heq
  have hgroups : groupSimilarMaterials cfg (analyzeMaterials meshes)
      = gs1 ++ (master :: r1 :: rs) :: gs2 := heq
  have hsingle1 := mergeMaterialGroupsAux_singletons 0 gs1
    (fun g hg => (hsing1 g hg).imp fun x hx => hx.1)
  have hsingle2 := mergeMaterialGroupsAux_singletons (gs1.length + 1) gs2
    (fun g hg => (hsing2 g hg).imp fun x hx => hx.1)
  have happ := mergeMaterialGroupsAux_append 0 gs1 ((master :: r1 :: rs) :: gs2)
  have h0g : (0 : Nat) + gs1.length = gs1.length := by omega
  rw [h0g] at happ
  -- the repoint assignments come from the cluster group only
  have hrep : (mergeMaterialGroupsAux 0 (gs1 ++ (master :: r1 :: rs) :: gs2)).2.1
      = (mergeOneGroup gs1.length (master :: r1 :: rs)).2.1 := by
    rw [happ]
    dsimp only
    rw [hsingle1.2.1, List.nil_append]
    show (mergeOneGroup gs1.length (master :: r1 :: rs)).2.1
        ++ (mergeMaterialGroupsAux (gs1.length + 1) gs2).2.1 = _
    rw [hsingle2.2.1, List.append_nil]
  -- the surviving material list
  have hmerged : (mergeMaterialGroupsAux 0 (gs1 ++ (master :: r1 :: rs) :: gs2)).1
      = (mergeMaterialGroupsAux 0 gs1).1
          ++ createMergedMaterial master.material
              ("Merged_" ++ toString (gs1.length + 1))
            :: (mergeMaterialGroupsAux (gs1.length + 1) gs2).1 := by
    rw [happ]
    dsimp only
    rfl
  have hlen : (mergeMaterialGroupsAux 0 (gs1 ++ (master :: r1 :: rs) :: gs2)).1.length
      = gs1.length + 1 + gs2.length := by
    rw [hmerged]
    simp [hsingle1.1, hsingle2.1]
    omega
  have horig : (optimizeMaterials cfg meshes).originalCount
      = (analyzeMaterials meshes).length := rfl
  have hoptc : (optimizeMaterials cfg meshes).optimizedCount
      = (mergeMaterialGroupsAux 0 (groupSimilarMaterials cfg (analyzeMaterials meshes))).1.length := rfl
  have hpartition := List.length_eq_length_filter_add
    (l := analyzeMaterials meshes) (fun x => P x.material.id)
  have hkle : k ≤ (analyzeMaterials meshes).length := by
    rw [← hk]
    exact List.length_filter_le _ _
  refine ⟨?_, ?_, ?_⟩
  · rw [hoptc, horig, hgroups, hlen]
    have : gs1.length + gs2.length
        = ((analyzeMaterials meshes).filter fun x => !P x.material.id).length :=
      hcount
    omega
  · rw [horig]; exact hkle
  · refine ⟨createMergedMaterial master.material
      ("Merged_" ++ toString (gs1.length + 1)), ?_, ?_⟩
    · show _ ∈ (mergeMaterialGroupsAux 0
        (groupSimilarMaterials cfg (analyzeMaterials meshes))).1
      rw [hgroups, hmerged]
      exact List.mem_append_right _ (by simp)
    · intro i m mat hgi hmmat hP
      rcases analyzeMaterialsAux_cover meshes 0 [] i m mat hgi hmmat with
        ⟨info, hmemInfo, hid, hidx⟩
      have hidx' : i ∈ info.meshes := by simpa using hidx
      have hQinfo : P info.material.id = true := by rw [hid, hP]
      have hmemCl : info ∈ master :: r1 :: rs := by
        rw [← hcl]
        exact List.mem_filter.mpr ⟨hmemInfo, hQinfo⟩
      have hentry := (mergeOneGroup_multi_repoints gs1.length master r1 rs).2
        info hmemCl i hidx'
      have hconst := (mergeOneGroup_multi_repoints gs1.length master r1 rs).1
      have hlookup : lookupAssign
          (mergeMaterialGroupsAux 0
            (groupSimilarMaterials cfg (analyzeMaterials meshes))).2.1 i
          = some (createMergedMaterial master.material
              ("Merged_" ++ toString (gs1.length + 1))) := by
        rw [hgroups, hrep]
        exact lookupAssign_const _ i _ hconst ⟨_, hentry, rfl⟩
      have hnew : (optimizeMaterials cfg meshes).newMeshes
          = applyRepointsAux
              (mergeMaterialGroupsAux 0
                (groupSimilarMaterials cfg (analyzeMaterials meshes))).2.1
              0 meshes := rfl
      rw [hnew, applyRepointsAux_get?]
      rw [show (0 : Nat) + i = i by omega, hlookup, hgi]
      rfl

/-- Witness for C1 at a concrete scene: materials A and B form the one
similarity cluster (k = 2), C is a singleton. -/
theorem optimizeMaterials_single_cluster_conservation_witness :
    ((∀ a ∈ analyzeMaterials demoDedupMeshes, ∀ b ∈ analyzeMaterials demoDedupMeshes,
        a ≠ b →
        areMaterialsSimilar defaultMaterialConfig a.material b.material
          = ((a.material.id == "A" || a.material.id == "B") &&
             (b.material.id == "A" || b.material.id == "B"))) ∧
      ((analyzeMaterials demoDedupMeshes).filter fun x =>
        x.material.id == "A" || x.material.id == "B").length = 2) ∧
    ((optimizeMaterials defaultMaterialConfig demoDedupMeshes).optimizedCount
        = (optimizeMaterials defaultMaterialConfig demoDedupMeshes).originalCount
            - (2 - 1) ∧
      2 ≤ (optimizeMaterials defaultMaterialConfig demoDedupMeshes).originalCount ∧
      ∃ mm ∈ (optimizeMaterials defaultMaterialConfig demoDedupMeshes).mergedMaterials,
        ∀ (i : Nat) (m : OMesh) (mat : Material),
          demoDedupMeshes.get? i = some m → m.material = some mat →
          ((fun s => s == "A" || s == "B") mat.id) = true →
          (optimizeMaterials defaultMaterialConfig demoDedupMeshes).newMeshes.get? i
            = some { m with material := some mm }) :=
  ⟨⟨by decide, by decide⟩,
    optimizeMaterials_single_cluster_conservation defaultMaterialConfig
      demoDedupMeshes (fun s => s == "A" || s == "B") 2 (by decide) (by decide)
      (by decide)⟩

theorem groupSimilarMaterialsFuel_mem (cfg : MaterialCompareConfig) :
    ∀ (fuel : Nat) (l : List MaterialInfo) (g : List MaterialInfo),
      g ∈ groupSimilarMaterialsFuel cfg fuel l → ∀ x ∈ g, x ∈ l := by
  intro fuel
  induction fuel with
  | zero =>
      intro l g hg
      match l with
      | [] => cases hg
      | _ :: _ => cases hg
  | succ fuel ih =>
      intro l g hg x hx
      match l with
      | [] => cases hg
      | info :: rest =>
          rw [groupSimilarMaterialsFuel] at hg
          rcases List.mem_cons.mp hg with rfl | hg'
          · rcases List.mem_cons.mp hx with rfl | hx'
            · simp
            · simp [List.mem_of_mem_filter hx']
          · have := ih _ g hg' x hx
            simp [List.mem_of_mem_filter this]

theorem groupSimilarMaterials_mem (cfg : MaterialCompareConfig)
    (l : List MaterialInfo) (g : List MaterialInfo)
    (hg : g ∈ groupSimilarMaterials cfg l) : ∀ x ∈ g, x ∈ l :=
  groupSimilarMaterialsFuel_mem cfg l.length l g hg

theorem mergeMaterialGroupsAux_disposed_src :
    ∀ (gs : List (List MaterialInfo)) (idx : Nat) (d : Material),
      d ∈ (mergeMaterialGroupsAux idx gs).2.2 →
      ∃ g ∈ gs, ∃ info ∈ g, info.material = d := by
  intro gs
  induction gs with
  | nil => intro idx d h; cases h
  | cons g rest ih =>
      intro idx d h
      rw [mergeMaterialGroupsAux] at h
      dsimp only at h
      rcases List.mem_append.mp h with h' | h'
      · match g with
        | [] => cases h'
        | [info] => cases h'
        | master :: r1 :: rs =>
            simp only [mergeOneGroup, List.mem_map, List.mem_filter] at h'
            rcases h' with ⟨info, ⟨hinfo, _⟩, rfl⟩
            exact ⟨master :: r1 :: rs, by simp, info, hinfo, rfl⟩
      · rcases ih (idx + 1) d h' with ⟨g', hg', info, hinfo, he⟩
        exact ⟨g', by simp [hg'], info, hinfo, he⟩

/-- C10: `originalCount` equals the number of distinct material ids referenced
by at least one mesh, and a material referenced by no mesh is never clustered
or disposed by the pass. -/
theorem optimizeMaterials_counts_referenced_only (cfg : MaterialCompareConfig)
    (meshes : List OMesh) :
    (optimizeMaterials cfg meshes).originalCount
        = (meshes.filterMap fun m => m.material.map Material.id).dedup.length ∧
    ∀ mat : Material,
      (∀ m ∈ meshes, ∀ ma, m.material = some ma → ma.id ≠ mat.id) →
      (∀ g ∈ (optimizeMaterials cfg meshes).materialGroups, ∀ info ∈ g,
        info.material.id ≠ mat.id) ∧
      (∀ d ∈ (optimizeMaterials cfg meshes).disposed, d.id ≠ mat.id) := by
  have hsrc : ∀ info ∈ analyzeMaterials meshes,
      ∃ m ∈ meshes, m.material = some info.material := by
    intro info h
    rcases analyzeMaterialsAux_source meshes 0 [] info h with h' | h'
    · simp at h'
    · exact List.mem_filterMap.mp h'
  constructor
  · exact analyzeMaterials_length meshes
  · intro mat hm
    have hinfo_ne : ∀ info ∈ analyzeMaterials meshes, info.material.id ≠ mat.id := by
      intro info h
      rcases hsrc info h with ⟨m, hmem, hmat⟩
      exact hm m hmem info.material hmat
    constructor
    · intro g hg info hinfo
      have hmemg : g ∈ groupSimilarMaterials cfg (analyzeMaterials meshes) := hg
      exact hinfo_ne info (groupSimilarMaterials_mem cfg _ g hmemg info hinfo)
    · intro d hd
      have hd' : d ∈ (mergeMaterialGroupsAux 0
          (groupSimilarMaterials cfg (analyzeMaterials meshes))).2.2 := hd
      rcases mergeMaterialGroupsAux_disposed_src _ 0 d hd' with ⟨g, hg, info, hinfo, he⟩
      rw [← he]
      exact hinfo_ne info (groupSimilarMaterials_mem cfg _ g hg info hinfo)

/-- Witness for C10 at a concrete scene: material X is present nowhere in the
scene's mesh references. -/
theorem optimizeMaterials_counts_referenced_only_witness :
    ((optimizeMaterials defaultMaterialConfig demoDedupMeshes).originalCount
        = (demoDedupMeshes.filterMap fun m =>
            m.material.map Material.id).dedup.length ∧
      ∀ mat : Material,
        (∀ m ∈ demoDedupMeshes, ∀ ma, m.material = some ma → ma.id ≠ mat.id) →
        (∀ g ∈ (optimizeMaterials defaultMaterialConfig demoDedupMeshes).materialGroups,
          ∀ info ∈ g, info.material.id ≠ mat.id) ∧
        (∀ d ∈ (optimizeMaterials defaultMaterialConfig demoDedupMeshes).disposed,
          d.id ≠ mat.id)) ∧
    (∀ m ∈ demoDedupMeshes, ∀ ma, m.material = some ma → ma.id ≠ (demoMat "X" 0).id) :=
  ⟨optimizeMaterials_counts_referenced_only defaultMaterialConfig demoDedupMeshes,
    by decide⟩

theorem groupSimilarMaterialsFuel_flatten_perm (cfg : MaterialCompareConfig) :
    ∀ (fuel : Nat) (l : List MaterialInfo), l.length ≤ fuel →
      List.Perm (groupSimilarMaterialsFuel cfg fuel l).flatten l := by
  intro fuel
  induction fuel with
  | zero =>
      intro l hl
      have : l = [] := List.length_eq_zero.mp (Nat.le_zero.mp hl)
      subst this
      exact List.Perm.refl _
  | succ fuel ih =>
      intro l hl
      match l with
      | [] => exact List.Perm.refl _
      | info :: rest =>
          rw [groupSimilarMaterialsFuel]
          simp only [List.flatten_cons, List.cons_append]
          refine List.Perm.cons info ?_
          have h1 := ih (rest.filter fun o =>
              !areMaterialsSimilar cfg info.material o.material)
            (le_trans (List.length_filter_le _ _) (by simpa using hl))
          exact List.Perm.trans (List.Perm.append_left _ h1)
            (List.filter_append_perm _ rest)

theorem groupSimilarMaterials_flatten_perm (cfg : MaterialCompareConfig)
    (l : List MaterialInfo) :
    List.Perm (groupSimilarMaterials cfg l).flatten l :=
  groupSimilarMaterialsFuel_flatten_perm cfg l.length l le_rfl

theorem flatMap_ids_eq_map_flatten (gs : List (List MaterialInfo)) :
    (gs.flatMap fun g => g.map fun x => x.material.id)
      = gs.flatten.map fun x => x.material.id := by
  induction gs with
  | nil => rfl
  | cons g rest ih => simp [ih]

theorem mergeOneGroup_disposed_idx (idx : Nat) (g : List MaterialInfo) :
    (mergeOneGroup idx g).2.2 = (mergeOneGroup 0 g).2.2 := by
  match g with
  | [] => rfl
  | [x] => rfl
  | a :: b :: t => rfl

theorem mergeOneGroup_disposed_src (idx : Nat) (g : List MaterialInfo) (d : Material)
    (hd : d ∈ (mergeOneGroup idx g).2.2) : ∃ info ∈ g, info.material = d := by
  match g with
  | [] => cases hd
  | [x] => cases hd
  | a :: b :: t =>
      simp only [mergeOneGroup, List.mem_map, List.mem_filter] at hd
      rcases hd with ⟨info, ⟨hinfo, _⟩, rfl⟩
      exact ⟨info, hinfo, rfl⟩

theorem mergeAux_disposed_of_group :
    ∀ (gs : List (List MaterialInfo)) (idx : Nat) (g : List MaterialInfo), g ∈ gs →
      ∀ d ∈ (mergeOneGroup 0 g).2.2, d ∈ (mergeMaterialGroupsAux idx gs).2.2 := by
  intro gs
  induction gs with
  | nil => intro idx g hg; cases hg
  | cons g0 rest ih =>
      intro idx g hg d hd
      rw [mergeMaterialGroupsAux]
      dsimp only
      rcases List.mem_cons.mp hg with rfl | hg'
      · exact List.mem_append_left _ (by rw [mergeOneGroup_disposed_idx]; exact hd)
      · exact List.mem_append_right _ (ih (idx + 1) g hg' d hd)

theorem lookupAssign_append (a b : List (Nat × Material)) (i : Nat) :
    lookupAssign (a ++ b) i = (lookupAssign b i).or (lookupAssign a i) := by
  unfold lookupAssign
  rw [List.reverse_append, List.find?_append]
  cases hb : b.reverse.find? fun q => q.1 == i <;> simp [hb, Option.or]

theorem lookupAssign_eq_none (reps : List (Nat × Material)) (i : Nat)
    (h : ∀ p ∈ reps, p.1 ≠ i) : lookupAssign reps i = none := by
  unfold lookupAssign
  rw [List.find?_eq_none.mpr]
  · rfl
  · intro p hp
    simp [h p (List.mem_reverse.mp hp)]

theorem mergeAux_entries_src :
    ∀ (gs : List (List MaterialInfo)) (idx : Nat) (p : Nat × Material),
      p ∈ (mergeMaterialGroupsAux idx gs).2.1 →
      ∃ g ∈ gs, ∃ info ∈ g, p.1 ∈ info.meshes := by
  intro gs
  induction gs with
  | nil => intro idx p hp; cases hp
  | cons g0 rest ih =>
      intro idx p hp
      rw [mergeMaterialGroupsAux] at hp
      dsimp only at hp
      rcases List.mem_append.mp hp with hp' | hp'
      · match g0, hp' with
        | a :: b :: t, hp' =>
            simp only [mergeOneGroup, List.mem_flatMap, List.mem_map] at hp'
            rcases hp' with ⟨info, hinfo, i, hi, rfl⟩
            exact ⟨a :: b :: t, by simp, info, hinfo, hi⟩
      · rcases ih (idx + 1) p hp' with ⟨g, hg, info, hinfo, hi⟩
        exact ⟨g, by simp [hg], info, hinfo, hi⟩

theorem mergeAux_master_not_disposed :
    ∀ (gs : List (List MaterialInfo)) (idx : Nat),
      (gs.flatMap fun g => g.map fun x => x.material.id).Nodup →
      ∀ g ∈ gs, ∀ master rest, g = master :: rest →
      ∀ d ∈ (mergeMaterialGroupsAux idx gs).2.2, d.id ≠ master.material.id := by
  intro gs
  induction gs with
  | nil => intro idx _ g hg; cases hg
  | cons g0 gs' ih =>
      intro idx hN g hg master rest hcons d hd
      rw [List.flatMap_cons] at hN
      have hdisj := (List.nodup_append.mp hN).2.2
      rw [mergeMaterialGroupsAux] at hd
      dsimp only at hd
      rcases List.mem_cons.mp hg with rfl | hg'
      · rcases List.mem_append.mp hd with hd' | hd'
        · rw [mergeOneGroup_disposed_idx] at hd'
          subst hcons
          match rest, hd' with
          | r1 :: rs, hd' =>
              simp only [mergeOneGroup, List.mem_map, List.mem_filter,
                decide_eq_true_eq] at hd'
              rcases hd' with ⟨info, ⟨_, hne⟩, rfl⟩
              exact hne
        · rcases mergeMaterialGroupsAux_disposed_src gs' (idx + 1) d hd' with
            ⟨g', hg', info', hinfo', he⟩
          have h1 : d.id ∈ gs'.flatMap fun g => g.map fun x => x.material.id :=
            List.mem_flatMap.mpr ⟨g', hg',
              by rw [← he]; exact List.mem_map_of_mem _ hinfo'⟩
          have h2 : master.material.id ∈ g.map fun x => x.material.id := by
            rw [hcons]
            simp
          intro heq
          rw [heq] at h1
          exact hdisj h2 h1
      · rcases List.mem_append.mp hd with hd' | hd'
        · rcases mergeOneGroup_disposed_src idx g0 d hd' with ⟨info0, hinfo0, he0⟩
          have h1 : d.id ∈ g0.map fun x => x.material.id := by
            rw [← he0]
            exact List.mem_map_of_mem _ hinfo0
          have h2 : master.material.id ∈ gs'.flatMap fun g =>
              g.map fun x => x.material.id :=
            List.mem_flatMap.mpr ⟨g, hg', by rw [hcons]; simp⟩
          intro heq
          rw [heq] at h1
          exact hdisj h1 h2
        · exact ih (idx + 1) (List.nodup_append.mp hN).2.1 g hg' master rest hcons d hd'

theorem mergeAux_lookup :
    ∀ (gs : List (List MaterialInfo)) (idx : Nat),
      (gs.flatMap fun g => g.map fun x => x.material.id).Nodup →
      (∀ g ∈ gs, ∀ info ∈ g, ∀ g' ∈ gs, ∀ info' ∈ g', ∀ i : Nat,
        i ∈ info.meshes → i ∈ info'.meshes →
        info.material.id = info'.material.id) →
      ∀ g ∈ gs, ∀ master r1 rs, g = master :: r1 :: rs →
      ∃ nm, createMergedMaterial master.material nm
          ∈ (mergeMaterialGroupsAux idx gs).1 ∧
        ∀ info ∈ g, ∀ i ∈ info.meshes,
          lookupAssign (mergeMaterialGroupsAux idx gs).2.1 i
            = some (createMergedMaterial master.material nm) := by
  intro gs
  induction gs with
  | nil => intro idx _ _ g hg; cases hg
  | cons g0 gs' ih =>
      intro idx hN hIdx g hg master r1 rs hcons
      rw [List.flatMap_cons] at hN
      have hdisj := (List.nodup_append.mp hN).2.2
      rcases List.mem_cons.mp hg with rfl | hg'
      · refine ⟨"Merged_" ++ toString (idx + 1), ?_, ?_⟩
        · rw [mergeMaterialGroupsAux]
          dsimp only
          apply List.mem_append_left
          rw [hcons]
          simp [mergeOneGroup]
        · intro info hinfo i hi
          rw [mergeMaterialGroupsAux]
          dsimp only
          rw [lookupAssign_append]
          have hnone : lookupAssign (mergeMaterialGroupsAux (idx + 1) gs').2.1 i
              = none := by
            apply lookupAssign_eq_none
            intro p hp hpi
            rcases mergeAux_entries_src gs' (idx + 1) p hp with
              ⟨g', hg', info', hinfo', hi'⟩
            rw [hpi] at hi'
            have hideq := hIdx g (by simp) info hinfo g' (by simp [hg'])
              info' hinfo' i hi hi'
            have h1 : info.material.id ∈ g.map fun x => x.material.id :=
              List.mem_map_of_mem _ hinfo
            have h2 : info'.material.id ∈ gs'.flatMap fun g =>
                g.map fun x => x.material.id :=
              List.mem_flatMap.mpr ⟨g', hg', List.mem_map_of_mem _ hinfo'⟩
            rw [← hideq] at h2
            exact hdisj h1 h2
          rw [hnone, Option.none_or]
          subst hcons
          exact lookupAssign_const _ i _
            (mergeOneGroup_multi_repoints idx master r1 rs).1
            ⟨_, (mergeOneGroup_multi_repoints idx master r1 rs).2 info hinfo i hi, rfl⟩
      · have hIdx' : ∀ g ∈ gs', ∀ info ∈ g, ∀ g' ∈ gs', ∀ info' ∈ g', ∀ i : Nat,
            i ∈ info.meshes → i ∈ info'.meshes →
            info.material.id = info'.material.id := by
          intro a ha infoa hia b hb infob hib i h1 h2
          exact hIdx a (by simp [ha]) infoa hia b (by simp [hb]) infob hib i h1 h2
        rcases ih (idx + 1) (List.nodup_append.mp hN).2.1 hIdx' g hg' master r1 rs
          hcons with ⟨nm, hmem, hlk⟩
        refine ⟨nm, ?_, ?_⟩
        · rw [mergeMaterialGroupsAux]
          dsimp only
          exact List.mem_append_right _ hmem
        · intro info hinfo i hi
          rw [mergeMaterialGroupsAux]
          dsimp only
          rw [lookupAssign_append, hlk info hinfo i hi]
          rfl

/-- C4 (amended): for every similarity cluster of size > 1, the Deduplicator
constructs one new material cloned from the cluster's first member, repoints
every referencing mesh of every cluster member to that new material, and
disposes every original material of the cluster except the first member (the
master), which is left un-disposed. -/
theorem dedup_cluster_merge_behavior (cfg : MaterialCompareConfig)
    (meshes : List OMesh) :
    ∀ g ∈ (optimizeMaterials cfg meshes).materialGroups,
    ∀ (master r1 : MaterialInfo) (rs : List MaterialInfo), g = master :: r1 :: rs →
    ∃ mm, (∃ nm, mm = createMergedMaterial master.material nm) ∧
      mm ∈ (optimizeMaterials cfg meshes).mergedMaterials ∧
      (∀ info ∈ g, ∀ i ∈ info.meshes, ∀ m : OMesh, meshes.get? i = some m →
        (optimizeMaterials cfg meshes).newMeshes.get? i
          = some { m with material := some mm }) ∧
      (∀ info ∈ r1 :: rs, info.material ∈ (optimizeMaterials cfg meshes).disposed) ∧
      (∀ d ∈ (optimizeMaterials cfg meshes).disposed, d.id ≠ master.material.id) := by
  intro g hg master r1 rs hcons
  have hgroups : (optimizeMaterials cfg meshes).materialGroups
      = groupSimilarMaterials cfg (analyzeMaterials meshes) := rfl
  rw [hgroups] at hg
  have hperm := groupSimilarMaterials_flatten_perm cfg (analyzeMaterials meshes)
  have hN : ((groupSimilarMaterials cfg (analyzeMaterials meshes)).flatMap fun g =>
      g.map fun x => x.material.id).Nodup := by
    rw [flatMap_ids_eq_map_flatten]
    exact ((hperm.map _).nodup_iff).mpr (analyzeMaterials_ids_nodup meshes)
  have hIdx : ∀ a ∈ groupSimilarMaterials cfg (analyzeMaterials meshes),
      ∀ infoa ∈ a, ∀ b ∈ groupSimilarMaterials cfg (analyzeMaterials meshes),
      ∀ infob ∈ b, ∀ i : Nat, i ∈ infoa.meshes → i ∈ infob.meshes →
      infoa.material.id = infob.material.id := by
    intro a ha infoa hia b hb infob hib i h1 h2
    have hma := groupSimilarMaterials_mem cfg _ a ha infoa hia
    have hmb := groupSimilarMaterials_mem cfg _ b hb infob hib
    rcases analyzeMaterials_valid meshes infoa hma i h1 with ⟨m, mata, hg1, hm1, hid1⟩
    rcases analyzeMaterials_valid meshes infob hmb i h2 with ⟨m', matb, hg2, hm2, hid2⟩
    rw [hg1] at hg2
    injection hg2 with he
    subst he
    rw [hm1] at hm2
    injection hm2 with he'
    subst he'
    rw [← hid1, ← hid2]
  rcases mergeAux_lookup (groupSimilarMaterials cfg (analyzeMaterials meshes)) 0 hN
    hIdx g hg master r1 rs hcons with ⟨nm, hmem, hlk⟩
  have hgNodup : (g.map fun x => x.material.id).Nodup := by
    refine List.Nodup.sublist ?_ hN
    rw [flatMap_ids_eq_map_flatten]
    exact (List.sublist_flatten_of_mem hg).map _
  refine ⟨createMergedMaterial master.material nm, ⟨nm, rfl⟩, hmem, ?_, ?_, ?_⟩
  · intro info hinfo i hi m hgi
    have hl := hlk info hinfo i hi
    have hnew : (optimizeMaterials cfg meshes).newMeshes
        = applyRepointsAux
            (mergeMaterialGroupsAux 0
              (groupSimilarMaterials cfg (analyzeMaterials meshes))).2.1
            0 meshes := rfl
    rw [hnew, applyRepointsAux_get?, show (0 : Nat) + i = i by omega, hl, hgi]
    rfl
  · intro info hinfo
    have hne : info.material.id ≠ master.material.id := by
      rw [hcons] at hgNodup
      simp only [List.map_cons, List.nodup_cons] at hgNodup
      intro heq
      refine hgNodup.1 ?_
      rw [← heq]
      simpa using List.mem_map_of_mem (fun x => x.material.id) hinfo
    have hmm : info.material ∈ (mergeOneGroup 0 g).2.2 := by
      rw [hcons]
      simp only [mergeOneGroup, List.mem_map, List.mem_filter, decide_eq_true_eq]
      refine ⟨info, ⟨?_, ?_⟩, rfl⟩
      · rcases List.mem_cons.mp hinfo with rfl | h'
        · simp
        · simp [h']
      · rw [hcons] at hgNodup
        exact hne
    exact mergeAux_disposed_of_group _ 0 g hg info.material hmm
  · exact mergeAux_master_not_disposed _ 0 hN g hg master (r1 :: rs) hcons

/-- Witness for C4 (amended) at the concrete scene: the cluster is
[A, B]; B is disposed, A is not, and both referencing meshes are repointed. -/
theorem dedup_cluster_merge_behavior_witness :
    ((optimizeMaterials defaultMaterialConfig demoDedupMeshes).materialGroups.map
      fun g => g.map fun info => info.material.id) = [["A", "B"], ["C"]] ∧
    ∃ mm, (∃ nm, mm = createMergedMaterial (demoMat "A" 0) nm) ∧
      mm ∈ (optimizeMaterials defaultMaterialConfig demoDedupMeshes).mergedMaterials ∧
      (∀ info ∈ [(⟨demoMat "A" 0, [0, 3]⟩ : MaterialInfo), ⟨demoMat "B" (mkRat 1 20), [1]⟩],
        ∀ i ∈ info.meshes, ∀ m : OMesh, demoDedupMeshes.get? i = some m →
        (optimizeMaterials defaultMaterialConfig demoDedupMeshes).newMeshes.get? i
          = some { m with material := some mm }) ∧
      (∀ info ∈ [(⟨demoMat "B" (mkRat 1 20), [1]⟩ : MaterialInfo)],
        info.material ∈ (optimizeMaterials defaultMaterialConfig demoDedupMeshes).disposed) ∧
      (∀ d ∈ (optimizeMaterials defaultMaterialConfig demoDedupMeshes).disposed,
        d.id ≠ (demoMat "A" 0).id) := by
  refine ⟨by decide, ?_⟩
  have h := dedup_cluster_merge_behavior defaultMaterialConfig demoDedupMeshes
    ((optimizeMaterials defaultMaterialConfig demoDedupMeshes).materialGroups.headI)
    (by decide) ⟨demoMat "A" 0, [0, 3]⟩ ⟨demoMat "B" (mkRat 1 20), [1]⟩ [] (by decide)
  rcases h with ⟨mm, h1, h2, h3, h4, h5⟩
  refine ⟨mm, h1, h2, ?_, h4, h5⟩
  intro info hinfo i hi m hm
  apply h3 info _ i hi m hm
  have : (optimizeMaterials defaultMaterialConfig demoDedupMeshes).materialGroups.headI
      = [(⟨demoMat "A" 0, [0, 3]⟩ : MaterialInfo), ⟨demoMat "B" (mkRat 1 20), [1]⟩] := by
    decide
  rw [this]
  exact hinfo

theorem insertMergerGroup_mem_src (gs : List MergerGroup) (m : MMesh)
    (g : MergerGroup) (hg : g ∈ insertMergerGroup gs m) :
    ∀ x ∈ g.meshes, (∃ g0 ∈ gs, x ∈ g0.meshes) ∨ x = m := by
  induction gs with
  | nil =>
      intro x hx
      simp [insertMergerGroup] at hg
      subst hg
      simp at hx
      exact Or.inr hx
  | cons a rest ih =>
      intro x hx
      by_cases ha : a.materialId = mergerMatKey m
      · simp only [insertMergerGroup, if_pos ha, List.mem_cons] at hg
        rcases hg with rfl | hg'
        · simp only [List.mem_append, List.mem_singleton] at hx
          rcases hx with hx | rfl
          · exact Or.inl ⟨a, by simp, hx⟩
          · exact Or.inr rfl
        · exact Or.inl ⟨g, by simp [hg'], hx⟩
      · simp only [insertMergerGroup, if_neg ha, List.mem_cons] at hg
        rcases hg with rfl | hg'
        · exact Or.inl ⟨g, by simp, hx⟩
        · rcases ih hg' x hx with ⟨g0, hg0, hx0⟩ | h'
          · exact Or.inl ⟨g0, by simp [hg0], hx0⟩
          · exact Or.inr h'

theorem foldl_insertMergerGroup_mem :
    ∀ (l : List MMesh) (acc : List MergerGroup) (g : MergerGroup),
      g ∈ l.foldl insertMergerGroup acc →
      ∀ x ∈ g.meshes, (∃ g0 ∈ acc, x ∈ g0.meshes) ∨ x ∈ l := by
  intro l
  induction l with
  | nil => intro acc g hg x hx; exact Or.inl ⟨g, hg, hx⟩
  | cons m rest ih =>
      intro acc g hg x hx
      rcases ih (insertMergerGroup acc m) g hg x hx with ⟨g0, hg0, hx0⟩ | h'
      · rcases insertMergerGroup_mem_src acc m g0 hg0 x hx0 with ⟨g1, hg1, hx1⟩ | h''
        · exact Or.inl ⟨g1, hg1, hx1⟩
        · exact Or.inr (by simp [h''])
      · exact Or.inr (by simp [h'])

/-- C2 (amended): a mesh carrying at least one animation is never a member of
any Mesh Merger cluster; the Mesh Instancer applies no animation exclusion, so
an animated mesh matching other meshes is a member of an Instancer cluster
(demonstrated on a concrete scene). -/
theorem merger_excludes_animated_instancer_does_not :
    (∀ (cfg : MergerConfig) (scene : List MMesh),
      ∀ g ∈ analyzeMeshesByMaterial cfg scene, ∀ m ∈ g.meshes, m.animations = []) ∧
    ((analyzeMeshes defaultInstancerConfig demoAnimScene).map fun g =>
      g.meshes.map fun m => (m.uid, m.animations)) = [[(0, ["walk"]), (1, [])]] := by
  constructor
  · intro cfg scene g hg m hm
    simp only [analyzeMeshesByMaterial, List.mem_filterMap] at hg
    rcases hg with ⟨g0, hg0, hfm⟩
    by_cases hlen : g0.meshes.length ≤ 1
    · rw [if_pos hlen] at hfm; cases hfm
    · rw [if_neg hlen] at hfm
      split at hfm
      · injection hfm with he
        subst he
        have hm' : m ∈ g0.meshes := List.mem_of_mem_filter hm
        rcases foldl_insertMergerGroup_mem _ [] g0 hg0 m hm' with ⟨g1, hg1, _⟩ | h'
        · cases hg1
        · have := List.of_mem_filter h'
          simp only [isMeshMergeable, Bool.and_eq_true] at this
          exact List.isEmpty_iff.mp this.2
      · cases hfm
  · decide

/-- Witness for C2 (amended): the theorem's merger half applied at a concrete
scene and group member. -/
theorem merger_excludes_animated_instancer_does_not_witness :
    (demoMMesh 0 demoGeomFull).animations = [] :=
  (merger_excludes_animated_instancer_does_not).1 defaultMergerConfig demoMergeScene
    { materialId := "M", material := some "M",
      meshes := [demoMMesh 0 demoGeomFull, demoMMesh 1 demoGeomFull],
      originalVertexCount := 6, mergedVertexCount := 0, mergedMesh := none }
    (by decide) (demoMMesh 0 demoGeomFull) (by decide)

/-- The key of a freshly inserted group is the inserting mesh's key. -/
theorem insertMeshGroup_keys (acc : List MeshGroup) (m : IMesh) :
    (insertMeshGroup acc m).map MeshGroup.key
      = if meshKey m ∈ acc.map MeshGroup.key
        then acc.map MeshGroup.key
        else acc.map MeshGroup.key ++ [meshKey m] := by
  induction acc with
  | nil => simp [insertMeshGroup, MeshGroup.key, meshKey]
  | cons a rest ih =>
      by_cases h : a.key = meshKey m
      · have hupd : ({ a with meshes := a.meshes ++ [m] } : MeshGroup).key = a.key := rfl
        simp only [insertMeshGroup, if_pos h, List.map_cons, hupd]
        rw [if_pos (by simp only [List.mem_cons]; exact Or.inl h.symm)]
      · simp only [insertMeshGroup, if_neg h, List.map_cons, ih]
        by_cases hm : meshKey m ∈ rest.map MeshGroup.key
        · rw [if_pos hm, if_pos (by simp [hm])]
        · rw [if_neg hm, if_neg ?_, List.cons_append]
          simp only [List.mem_cons]
          rintro (hc | hc)
          · exact h hc.symm
          · exact hm hc

theorem insertMeshGroup_cases (acc : List MeshGroup) (m : IMesh)
    (h1 : (acc.map MeshGroup.key).Nodup) :
    ∀ g' ∈ insertMeshGroup acc m,
      (g' ∈ acc ∧ ¬g'.key = meshKey m) ∨
      (∃ g ∈ acc, g.key = meshKey m ∧ g' = { g with meshes := g.meshes ++ [m] }) ∨
      (g' = ⟨meshGeomKey m, meshMatKey m, [m]⟩
        ∧ ¬meshKey m ∈ acc.map MeshGroup.key) := by
  induction acc with
  | nil =>
      intro g' hg'
      simp [insertMeshGroup] at hg'
      exact Or.inr (Or.inr ⟨hg', by simp⟩)
  | cons a rest ih =>
      intro g' hg'
      have h1' : a.key ∉ rest.map MeshGroup.key ∧ (rest.map MeshGroup.key).Nodup := by
        rw [List.map_cons, List.nodup_cons] at h1
        exact h1
      by_cases ha : a.key = meshKey m
      · simp only [insertMeshGroup, if_pos ha, List.mem_cons] at hg'
        rcases hg' with rfl | hg'
        · exact Or.inr (Or.inl ⟨a, by simp, ha, rfl⟩)
        · left
          refine ⟨by simp [hg'], ?_⟩
          intro hk
          exact h1'.1 (by rw [ha, ← hk]; exact List.mem_map_of_mem _ hg')
      · simp only [insertMeshGroup, if_neg ha, List.mem_cons] at hg'
        rcases hg' with rfl | hg'
        · exact Or.inl ⟨by simp, ha⟩
        · rcases ih h1'.2 g' hg' with
            ⟨hmem, hne⟩ | ⟨g, hgmem, hkey, he⟩ | ⟨he, hnmem⟩
          · exact Or.inl ⟨by simp [hmem], hne⟩
          · exact Or.inr (Or.inl ⟨g, by simp [hgmem], hkey, he⟩)
          · refine Or.inr (Or.inr ⟨he, ?_⟩)
            simp only [List.map_cons, List.mem_cons]
            rintro (hc | hc)
            · exact ha hc.symm
            · exact hnmem hc

/-- Full characterization of the instancer's group-building fold. -/
theorem foldl_insertMeshGroup_spec :
    ∀ (l : List IMesh) (acc : List MeshGroup) (done : List IMesh),
      (acc.map MeshGroup.key).Nodup →
      (∀ g ∈ acc, g.meshes = done.filter fun x => decide (meshKey x = g.key)) →
      (∀ x ∈ done, ∃ g ∈ acc, meshKey x = g.key) →
      ((l.foldl insertMeshGroup acc).map MeshGroup.key).Nodup ∧
      (∀ g ∈ l.foldl insertMeshGroup acc,
        g.meshes = (done ++ l).filter fun x => decide (meshKey x = g.key)) ∧
      (∀ x ∈ done ++ l, ∃ g ∈ l.foldl insertMeshGroup acc, meshKey x = g.key) := by
  intro l
  induction l with
  | nil =>
      intro acc done h1 h2 h3
      refine ⟨h1, ?_, ?_⟩
      · intro g hg; rw [List.append_nil]; exact h2 g hg
      · intro x hx; rw [List.append_nil] at hx; exact h3 x hx
  | cons m rest ih =>
      intro acc done h1 h2 h3
      have h1' : ((insertMeshGroup acc m).map MeshGroup.key).Nodup := by
        rw [insertMeshGroup_keys]
        by_cases hm : meshKey m ∈ acc.map MeshGroup.key
        · rwa [if_pos hm]
        · rw [if_neg hm]; simp [List.nodup_append, h1, hm]
      have h2' : ∀ g ∈ insertMeshGroup acc m,
          g.meshes = (done ++ [m]).filter fun x => decide (meshKey x = g.key) := by
        intro g' hg'
        rcases insertMeshGroup_cases acc m h1 g' hg' with
          ⟨hmem, hne⟩ | ⟨g, hgmem, hkey, he⟩ | ⟨he, hnmem⟩
        · rw [List.filter_append, h2 g' hmem]
          have : [m].filter (fun x => decide (meshKey x = g'.key)) = [] := by
            simp only [List.filter_cons, List.filter_nil]
            rw [if_neg (by simpa using fun hc => hne hc.symm)]
          rw [this, List.append_nil]
        · subst he
          show g.meshes ++ [m]
              = (done ++ [m]).filter fun x => decide (meshKey x = g.key)
          rw [List.filter_append, h2 g hgmem]
          congr 1
          simp only [List.filter_cons, List.filter_nil]
          rw [if_pos (by simp [hkey])]
        · subst he
          show [m] = (done ++ [m]).filter fun x => decide (meshKey x = meshKey m)
          rw [List.filter_append]
          have hdone : done.filter (fun x => decide (meshKey x = meshKey m)) = [] := by
            rw [List.filter_eq_nil_iff]
            intro x hx
            rcases h3 x hx with ⟨g, hgmem, hgk⟩
            simp only [decide_eq_true_eq]
            intro hc
            exact hnmem (by rw [← hc, hgk]; exact List.mem_map_of_mem _ hgmem)
          rw [hdone, List.nil_append]
          simp
      have h3' : ∀ x ∈ done ++ [m], ∃ g ∈ insertMeshGroup acc m, meshKey x = g.key := by
        intro x hx
        have hkeys := insertMeshGroup_keys acc m
        have hsub : ∀ kk, kk ∈ acc.map MeshGroup.key ∨ kk = meshKey m →
            kk ∈ (insertMeshGroup acc m).map MeshGroup.key := by
          intro kk hkk
          rw [hkeys]
          by_cases hm : meshKey m ∈ acc.map MeshGroup.key
          · rw [if_pos hm]
            rcases hkk with h | rfl
            · exact h
            · exact hm
          · rw [if_neg hm]
            rcases hkk with h | rfl
            · exact List.mem_append_left _ h
            · exact List.mem_append_right _ (by simp)
        rcases List.mem_append.mp hx with hx' | hx'
        · rcases h3 x hx' with ⟨g, hgmem, hgk⟩
          have := hsub (meshKey x) (Or.inl (by rw [hgk]; exact List.mem_map_of_mem _ hgmem))
          rcases List.mem_map.mp this with ⟨g', hg', hk'⟩
          exact ⟨g', hg', hk'.symm⟩
        · have hxm : x = m := by simpa using hx'
          subst hxm
          have := hsub (meshKey x) (Or.inr rfl)
          rcases List.mem_map.mp this with ⟨g', hg', hk'⟩
          exact ⟨g', hg', hk'.symm⟩
      have := ih (insertMeshGroup acc m) (done ++ [m]) h1' h2' h3'
      refine ⟨this.1, ?_, ?_⟩
      · intro g hg
        have := this.2.1 g hg
        rwa [List.append_assoc, List.singleton_append] at this
      · intro x hx
        apply this.2.2
        rw [List.append_assoc, List.singleton_append]
        exact hx

theorem length_le_one_of_nodup_map_const {α β : Type} (l : List α) (f : α → β) (k : β)
    (hnd : (l.map f).Nodup) (hall : ∀ x ∈ l, f x = k) : l.length ≤ 1 := by
  match l with
  | [] => simp
  | [x] => simp
  | x :: y :: t =>
      exfalso
      rw [List.map_cons, List.nodup_cons] at hnd
      apply hnd.1
      rw [hall x (by simp), ← hall y (by simp)]
      simp

theorem filter_mem_of_sublist {α : Type} [DecidableEq α] {l' l : List α}
    (h : l'.Sublist l) (hnd : l.Nodup) :
    l.filter (fun x => decide (x ∈ l')) = l' := by
  induction h with
  | slnil => rfl
  | cons a h ih =>
      rename_i l1 l2
      rw [List.filter_cons]
      have ha : a ∉ l1 := fun hc => (List.nodup_cons.mp hnd).1 (h.subset hc)
      rw [if_neg (by simpa using ha)]
      exact ih (List.nodup_cons.mp hnd).2
  | cons₂ a h ih =>
      rename_i l1 l2
      rw [List.filter_cons, if_pos (by simp)]
      have hanotin : a ∉ l2 := (List.nodup_cons.mp hnd).1
      have hcongr : l2.filter (fun x => decide (x ∈ a :: l1))
          = l2.filter (fun x => decide (x ∈ l1)) := by
        apply List.filter_congr
        intro x hx
        have hxa : ¬x = a := fun hc => hanotin (hc ▸ hx)
        simp [List.mem_cons, hxa]
      rw [hcongr, ih (List.nodup_cons.mp hnd).2]

theorem createOneInstance_kind (cfg : InstancerConfig) (master source : IMesh)
    (i : Nat) : (createOneInstance cfg master source i).kind = NodeKind.inst := rfl

/-- Scene evolution of the per-group instancing loop: the final scene is the
original minus the source full meshes, with the created instances appended;
every created instance shares the master's geometry/material reference. -/
theorem instantiateTail_spec (cfg : InstancerConfig) (master : IMesh) :
    ∀ (srcs : List IMesh) (i : Nat) (scene : List IMesh),
      (instantiateTail cfg master srcs i scene).2
        = scene.filter (fun x =>
            !(x.kind == NodeKind.full && decide (x.uid ∈ srcs.map fun s => s.uid)))
          ++ (instantiateTail cfg master srcs i scene).1 ∧
      (instantiateTail cfg master srcs i scene).1.length = srcs.length ∧
      (∀ j ∈ (instantiateTail cfg master srcs i scene).1,
        j.kind = NodeKind.inst ∧ j.geometryId = master.geometryId
          ∧ j.materialId = master.materialId) := by
  intro srcs
  induction srcs with
  | nil =>
      intro i scene
      refine ⟨?_, rfl, by intro j hj; cases hj⟩
      show scene = scene.filter _ ++ []
      rw [List.append_nil]
      exact (List.filter_eq_self.mpr fun x _ => by simp).symm
  | cons src rest ih =>
      intro i scene
      have hstep : instantiateTail cfg master (src :: rest) i scene
          = ((createOneInstance cfg master src i)
              :: (instantiateTail cfg master rest (i + 1)
                  (removeSourceMesh (scene ++ [createOneInstance cfg master src i])
                    src.uid)).1,
             (instantiateTail cfg master rest (i + 1)
                  (removeSourceMesh (scene ++ [createOneInstance cfg master src i])
                    src.uid)).2) := rfl
      have hscene1 : removeSourceMesh (scene ++ [createOneInstance cfg master src i])
          src.uid
          = scene.filter (fun x => !(x.kind == NodeKind.full && x.uid == src.uid))
            ++ [createOneInstance cfg master src i] := by
        rw [removeSourceMesh, List.filter_append]
        congr 1
      rcases ih (i + 1) (removeSourceMesh
          (scene ++ [createOneInstance cfg master src i]) src.uid) with
        ⟨hsc, hlen, hprops⟩
      refine ⟨?_, ?_, ?_⟩
      · rw [hstep]
        dsimp only
        rw [hsc, hscene1, List.filter_append]
        have hinstkeep : ([createOneInstance cfg master src i].filter fun x =>
            !(x.kind == NodeKind.full && decide (x.uid ∈ rest.map fun s => s.uid)))
            = [createOneInstance cfg master src i] := by
          simp [createOneInstance_kind]
        rw [hinstkeep]
        have hff : ((scene.filter fun x =>
              !(x.kind == NodeKind.full && x.uid == src.uid)).filter fun x =>
              !(x.kind == NodeKind.full && decide (x.uid ∈ rest.map fun s => s.uid)))
            = scene.filter fun x =>
              !(x.kind == NodeKind.full
                && decide (x.uid ∈ (src :: rest).map fun s => s.uid)) := by
          rw [List.filter_filter]
          apply List.filter_congr
          intro x _
          by_cases hf : x.kind == NodeKind.full
          · by_cases hu : x.uid = src.uid
            · simp [hf, hu]
            · by_cases hc : x.uid ∈ rest.map fun s => s.uid
              · simp [hf, hu, hc]
              · simp [hf, hu, hc]
          · simp [hf]
        rw [hff, List.append_assoc]
        rfl
      · rw [hstep]
        dsimp only
        rw [List.length_cons, hlen, List.length_cons]
      · rw [hstep]
        dsimp only
        intro j hj
        rcases List.mem_cons.mp hj with rfl | hj'
        · exact ⟨rfl, rfl, rfl⟩
        · exact hprops j hj'

theorem meshKey_congr (a b : IMesh) (hg : a.geometryId = b.geometryId)
    (hm : a.materialId = b.materialId) : meshKey a = meshKey b := by
  unfold meshKey meshGeomKey meshMatKey
  rw [hg, hm]

/-- C3 (amended): with `minInstanceCount = 3`, a scene whose clusters all have
size ≤ 2 undergoes no instancing (`optimizedMeshCount = originalMeshCount`,
scene untouched); with one cluster of 5 (all others ≤ 2), 4 instances are
created and exactly 1 full candidate mesh with that key remains, but the
scene's mesh count does not decrease: every disposed source is replaced by an
instance registered in the scene list, so `optimizedMeshCount =
originalMeshCount`. -/
theorem instancer_threshold_amended (cfg : InstancerConfig) (scene : List IMesh)
    (hmin : cfg.minInstanceCount = 3)
    (hnd : (scene.map fun m => m.uid).Nodup) :
    ((∀ k : String, ((scene.filter isInstancerCandidate).filter fun m =>
        decide (meshKey m = k)).length ≤ 2) →
      (createInstances cfg scene).newScene = scene ∧
      (createInstances cfg scene).optimizedMeshCount
        = (createInstances cfg scene).originalMeshCount ∧
      (createInstances cfg scene).totalInstancesCreated = 0) ∧
    (∀ k : String,
      (((scene.filter isInstancerCandidate).filter fun m =>
        decide (meshKey m = k)).length = 5) →
      (∀ k' : String, k' ≠ k → ((scene.filter isInstancerCandidate).filter fun m =>
        decide (meshKey m = k')).length ≤ 2) →
      (createInstances cfg scene).totalInstancesCreated = 4 ∧
      (createInstances cfg scene).optimizedMeshCount
        = (createInstances cfg scene).originalMeshCount ∧
      (createInstances cfg scene).newScene.length = scene.length ∧
      ((createInstances cfg scene).newScene.filter fun m =>
        isInstancerCandidate m && decide (meshKey m = k)).length = 1 ∧
      ((createInstances cfg scene).newScene.filter fun m =>
        m.kind == NodeKind.inst && decide (meshKey m = k)).length
        = (scene.filter fun m =>
            m.kind == NodeKind.inst && decide (meshKey m = k)).length + 4) := by
  have hspec := foldl_insertMeshGroup_spec (scene.filter isInstancerCandidate) [] []
    (by simp) (by intro g hg; cases hg) (by intro x hx; cases hx)
  rcases hspec with ⟨hkeysNd, hmeshesEq, hcover⟩
  have hmeshesEq' : ∀ g ∈ (scene.filter isInstancerCandidate).foldl insertMeshGroup [],
      g.meshes = (scene.filter isInstancerCandidate).filter fun x =>
        decide (meshKey x = g.key) := by
    intro g hg
    have := hmeshesEq g hg
    rwa [List.nil_append] at this
  constructor
  · intro hsmall
    have hempty : analyzeMeshes cfg scene = [] := by
      rw [analyzeMeshes, List.filter_eq_nil_iff]
      intro g hg
      rw [hmeshesEq' g hg]
      simp only [decide_eq_true_eq, not_le]
      calc ((scene.filter isInstancerCandidate).filter fun x =>
            decide (meshKey x = g.key)).length
          ≤ 2 := hsmall g.key
        _ < cfg.minInstanceCount := by rw [hmin]; omega
    have hrun : createInstances cfg scene
        = { originalMeshCount := scene.length
            optimizedMeshCount := scene.length
            instancedGroups := []
            totalInstancesCreated := 0
            newScene := scene } := by
      rw [createInstances, hempty]
      rfl
    rw [hrun]
    exact ⟨rfl, rfl, rfl⟩
  · intro k hk5 hothers
    -- the unique retained group
    have hsurv_key : ∀ g ∈ analyzeMeshes cfg scene, g.key = k := by
      intro g hg
      have hgf : g ∈ (scene.filter isInstancerCandidate).foldl insertMeshGroup [] :=
        List.mem_of_mem_filter hg
      have hglen : cfg.minInstanceCount ≤ g.meshes.length := by
        have := List.of_mem_filter hg
        simpa using this
      by_contra hne
      have := hothers g.key hne
      rw [hmeshesEq' g hgf] at hglen
      omega
    have hsurvNd : ((analyzeMeshes cfg scene).map MeshGroup.key).Nodup :=
      List.Nodup.sublist ((List.filter_sublist _).map _) hkeysNd
    have hsurv_le : (analyzeMeshes cfg scene).length ≤ 1 :=
      length_le_one_of_nodup_map_const _ MeshGroup.key k hsurvNd hsurv_key
    obtain ⟨x, hxmem, hxk⟩ : ∃ x ∈ scene.filter isInstancerCandidate, meshKey x = k := by
      have hne : (scene.filter isInstancerCandidate).filter
          (fun m => decide (meshKey m = k)) ≠ [] := by
        intro hc
        rw [hc] at hk5
        simp at hk5
      match hfl : (scene.filter isInstancerCandidate).filter
          (fun m => decide (meshKey m = k)) with
      | [] => exact absurd hfl hne
      | y :: _ =>
          have hy : y ∈ (scene.filter isInstancerCandidate).filter
              (fun m => decide (meshKey m = k)) := by rw [hfl]; simp
          exact ⟨y, List.mem_of_mem_filter hy, by
            have := List.of_mem_filter hy
            simpa using this⟩
    obtain ⟨g, hgf, hgk⟩ := hcover x (by rw [List.nil_append]; exact hxmem)
    have hgkey : g.key = k := by rw [← hgk, hxk]
    have hgmeshes : g.meshes = (scene.filter isInstancerCandidate).filter fun m =>
        decide (meshKey m = k) := by
      rw [hmeshesEq' g hgf, hgkey]
    have hgsurv : g ∈ analyzeMeshes cfg scene := by
      rw [analyzeMeshes, List.mem_filter]
      refine ⟨hgf, ?_⟩
      rw [hgmeshes, hk5]
      simp [hmin]
    have hone : analyzeMeshes cfg scene = [g] := by
      have hpos : 0 < (analyzeMeshes cfg scene).length :=
        List.length_pos_of_mem hgsurv
      have : (analyzeMeshes cfg scene).length = 1 := by omega
      rcases List.length_eq_one.mp this with ⟨a, ha⟩
      rw [ha] at hgsurv ⊢
      simp at hgsurv
      rw [hgsurv]
    -- destructure the cluster
    obtain ⟨master, srcs, hms, hsrcslen⟩ : ∃ master srcs,
        g.meshes = master :: srcs ∧ srcs.length = 4 := by
      match hgm : g.meshes with
      | [] =>
          exfalso
          have hlen5 : g.meshes.length = 5 := by rw [hgmeshes, hk5]
          rw [hgm] at hlen5
          simp at hlen5
      | m0 :: rest =>
          refine ⟨m0, rest, rfl, ?_⟩
          have : g.meshes.length = 5 := by rw [hgmeshes, hk5]
          rw [hgm] at this
          simpa using this
    have htail := instantiateTail_spec cfg master srcs 1 scene
    rcases htail with ⟨hsc, hlen4, hprops⟩
    rw [hsrcslen] at hlen4
    have hrun_groups : instantiateGroup cfg scene g
        = instantiateTail cfg master srcs 1 scene := by
      rw [instantiateGroup, hms]
    have hnew : (createInstances cfg scene).newScene
        = (instantiateTail cfg master srcs 1 scene).2 := by
      show (createInstanceGroupsAux cfg (analyzeMeshes cfg scene) scene).2 = _
      rw [hone, createInstanceGroupsAux, hrun_groups]
      rfl
    have htot : (createInstances cfg scene).totalInstancesCreated
        = (instantiateTail cfg master srcs 1 scene).1.length := by
      show ((createInstanceGroupsAux cfg (analyzeMeshes cfg scene) scene).1.map
        fun p => p.2.length).sum = _
      rw [hone, createInstanceGroupsAux, hrun_groups]
      simp [createInstanceGroupsAux]
    -- source meshes are a sublist of the scene and exactly the P-filter
    have hsub_g : g.meshes.Sublist scene := by
      rw [hgmeshes]
      exact (List.filter_sublist _).trans (List.filter_sublist _)
    have hsceneNd : scene.Nodup := hnd.of_map
    have hgNd : g.meshes.Nodup := hsub_g.nodup hsceneNd
    have hsub_srcs : srcs.Sublist scene := by
      refine List.Sublist.trans ?_ hsub_g
      rw [hms]
      exact List.sublist_cons_self master srcs
    have hsrcs_cand : ∀ s ∈ srcs, isInstancerCandidate s = true := by
      intro s hs
      have : s ∈ g.meshes := by rw [hms]; simp [hs]
      rw [hgmeshes] at this
      exact List.of_mem_filter (List.mem_of_mem_filter this)
    have hinj := List.inj_on_of_nodup_map hnd
    have hPfilter : scene.filter (fun x =>
        x.kind == NodeKind.full && decide (x.uid ∈ srcs.map fun s => s.uid)) = srcs := by
      rw [List.filter_congr (q := fun x => decide (x ∈ srcs)) ?_]
      · exact filter_mem_of_sublist hsub_srcs hsceneNd
      · intro x hx
        by_cases hmem : x ∈ srcs
        · have hcand := hsrcs_cand x hmem
          simp only [isInstancerCandidate, Bool.and_eq_true] at hcand
          simp [hmem, hcand.1, List.mem_map]
          exact ⟨x, hmem, rfl⟩
        · simp only [decide_eq_false hmem, Bool.and_false]
          by_cases hf : x.kind == NodeKind.full
          · simp only [hf, Bool.true_and]
            have : ¬ x.uid ∈ srcs.map fun s => s.uid := by
              intro hc
              rcases List.mem_map.mp hc with ⟨s, hsmem, hsuid⟩
              have hxs : s = x := hinj (hsub_srcs.subset hsmem) hx hsuid
              exact hmem (hxs ▸ hsmem)
            simp [this]
          · simp [hf]
    have hpart := List.length_eq_length_filter_add (l := scene)
      (fun x => x.kind == NodeKind.full && decide (x.uid ∈ srcs.map fun s => s.uid))
    have hnotP_eq : (scene.filter fun x =>
          !((fun x => x.kind == NodeKind.full
            && decide (x.uid ∈ srcs.map fun s => s.uid)) x))
        = scene.filter fun x =>
          !(x.kind == NodeKind.full && decide (x.uid ∈ srcs.map fun s => s.uid)) := by
      apply List.filter_congr
      intro x _
      rfl
    have hnewlen : (instantiateTail cfg master srcs 1 scene).2.length
        = scene.length := by
      rw [hsc, List.length_append, hlen4]
      rw [hnotP_eq] at hpart
      rw [hPfilter] at hpart
      rw [hsrcslen] at hpart
      omega
    have hopt : (createInstances cfg scene).optimizedMeshCount
        = (instantiateTail cfg master srcs 1 scene).2.length := by
      show (createInstanceGroupsAux cfg (analyzeMeshes cfg scene) scene).2.length = _
      rw [hone, createInstanceGroupsAux, hrun_groups]
      rfl
    refine ⟨?_, ?_, ?_, ?_, ?_⟩
    · rw [htot, hlen4]
    · rw [hopt]
      show (instantiateTail cfg master srcs 1 scene).2.length = scene.length
      exact hnewlen
    · rw [hnew]
      exact hnewlen
    · -- exactly one full candidate with key k remains
      rw [hnew, hsc, List.filter_append]
      have hinsts : ((instantiateTail cfg master srcs 1 scene).1.filter fun m =>
          isInstancerCandidate m && decide (meshKey m = k)) = [] := by
        rw [List.filter_eq_nil_iff]
        intro j hj
        have hjk := (hprops j hj).1
        simp [isInstancerCandidate, hjk]
      rw [hinsts, List.append_nil]
      have hcomb : ((scene.filter fun x =>
            !(x.kind == NodeKind.full
              && decide (x.uid ∈ srcs.map fun s => s.uid))).filter fun m =>
            isInstancerCandidate m && decide (meshKey m = k))
          = (g.meshes.filter fun x =>
            !(x.kind == NodeKind.full
              && decide (x.uid ∈ srcs.map fun s => s.uid))) := by
        rw [hgmeshes]
        simp only [List.filter_filter]
        apply List.filter_congr
        intro x _
        cases hx1 : isInstancerCandidate x <;>
          cases hx2 : decide (meshKey x = k) <;>
          cases hx3 : (!(x.kind == NodeKind.full
            && decide (x.uid ∈ srcs.map fun s => s.uid))) <;>
          simp [hx1, hx2, hx3]
      rw [hcomb, hms, List.filter_cons]
      have hmnotsrc : master ∉ srcs := by
        rw [hms] at hgNd
        exact (List.nodup_cons.mp hgNd).1
      have hmaster_keep : (!(master.kind == NodeKind.full
          && decide (master.uid ∈ srcs.map fun s => s.uid))) = true := by
        have : ¬ master.uid ∈ srcs.map fun s => s.uid := by
          intro hc
          rcases List.mem_map.mp hc with ⟨s, hsmem, hsuid⟩
          have hsm : s = master :=
            hinj (hsub_srcs.subset hsmem) (hsub_g.subset (by rw [hms]; simp)) hsuid
          exact hmnotsrc (hsm ▸ hsmem)
        simp [this]
      rw [if_pos hmaster_keep]
      have hsrcs_gone : (srcs.filter fun x =>
          !(x.kind == NodeKind.full
            && decide (x.uid ∈ srcs.map fun s => s.uid))) = [] := by
        rw [List.filter_eq_nil_iff]
        intro s hs
        have hcand := hsrcs_cand s hs
        simp only [isInstancerCandidate, Bool.and_eq_true] at hcand
        simp [hcand.1, List.mem_map]
        exact ⟨s, hs, rfl⟩
      rw [hsrcs_gone]
      rfl
    · -- instances with key k grew by exactly 4
      rw [hnew, hsc, List.filter_append]
      have hmaster_key : meshKey master = k := by
        have hmm : master ∈ g.meshes := by rw [hms]; simp
        rw [hgmeshes] at hmm
        have := List.of_mem_filter hmm
        simpa using this
      have hinsts : ((instantiateTail cfg master srcs 1 scene).1.filter fun m =>
          m.kind == NodeKind.inst && decide (meshKey m = k))
          = (instantiateTail cfg master srcs 1 scene).1 := by
        rw [List.filter_eq_self]
        intro j hj
        rcases hprops j hj with ⟨hk1, hk2, hk3⟩
        have : meshKey j = k := by
          rw [meshKey_congr j master hk2 hk3, hmaster_key]
        simp [hk1, this]
      rw [hinsts]
      have hcomb : ((scene.filter fun x =>
            !(x.kind == NodeKind.full
              && decide (x.uid ∈ srcs.map fun s => s.uid))).filter fun m =>
            m.kind == NodeKind.inst && decide (meshKey m = k))
          = scene.filter fun m =>
            m.kind == NodeKind.inst && decide (meshKey m = k) := by
        simp only [List.filter_filter]
        apply List.filter_congr
        intro x _
        cases hx1 : x.kind == NodeKind.full
        · simp [hx1]
        · have : (x.kind == NodeKind.inst) = false := by
            cases hxk : x.kind
            · rfl
            · rw [hxk] at hx1; cases hx1
          simp [this]
      rw [hcomb, List.length_append, hlen4]

/-- Witness for C3 (amended) at the concrete five-mesh scene. -/
theorem instancer_threshold_amended_witness :
    (instCfg3.minInstanceCount = 3 ∧
      (demoInstScene5.map fun m => m.uid).Nodup ∧
      ((demoInstScene5.filter isInstancerCandidate).filter fun m =>
        decide (meshKey m = "g_M")).length = 5) ∧
    ((createInstances instCfg3 demoInstScene5).totalInstancesCreated = 4 ∧
      (createInstances instCfg3 demoInstScene5).optimizedMeshCount
        = (createInstances instCfg3 demoInstScene5).originalMeshCount ∧
      (createInstances instCfg3 demoInstScene5).newScene.length
        = demoInstScene5.length ∧
      ((createInstances instCfg3 demoInstScene5).newScene.filter fun m =>
        isInstancerCandidate m && decide (meshKey m = "g_M")).length = 1 ∧
      ((createInstances instCfg3 demoInstScene5).newScene.filter fun m =>
        m.kind == NodeKind.inst && decide (meshKey m = "g_M")).length
        = (demoInstScene5.filter fun m =>
            m.kind == NodeKind.inst && decide (meshKey m = "g_M")).length + 4) := by
  refine ⟨⟨by decide, by decide, by decide⟩, ?_⟩
  have hall : ∀ m ∈ demoInstScene5.filter isInstancerCandidate,
      meshKey m = "g_M" := by decide
  refine (instancer_threshold_amended instCfg3 demoInstScene5 (by decide)
    (by decide)).2 "g_M" (by decide) ?_
  intro k' hk'
  have hnil : (demoInstScene5.filter isInstancerCandidate).filter
      (fun m => decide (meshKey m = k')) = [] := by
    rw [List.filter_eq_nil_iff]
    intro m hm
    simp only [decide_eq_true_eq]
    intro hc
    exact hk' (by rw [← hc, hall m hm])
  rw [hnil]
  simp

theorem mergeMeshGroup_replace_uid (group : List MMesh) (m : MMesh) :
    (((normalizeVertexAttributes group).find? fun n => n.uid == m.uid).getD m).uid
      = m.uid := by
  cases hf : (normalizeVertexAttributes group).find? fun n => n.uid == m.uid with
  | none => rfl
  | some n =>
      have := List.find?_some hf
      simp only [Option.getD_some]
      simpa using this

theorem mergeMeshGroup_presence (cfg : MergerConfig) (scene : List MMesh)
    (group : MergerGroup) (gIdx freshUid : Nat) (u : Nat)
    (hmem : ∃ m ∈ scene, m.uid = u)
    (hnr : ((mergeMeshGroup cfg scene group gIdx freshUid).2).isSome →
      u ∉ group.meshes.map fun m => m.uid) :
    ∃ m' ∈ (mergeMeshGroup cfg scene group gIdx freshUid).1, m'.uid = u := by
  rcases hmem with ⟨m, hm, hmu⟩
  have hm1 : ∃ m1 ∈ scene.map (fun x =>
      ((normalizeVertexAttributes group.meshes).find? fun n => n.uid == x.uid).getD x),
      m1.uid = u := by
    refine ⟨_, List.mem_map_of_mem _ hm, ?_⟩
    rw [mergeMeshGroup_replace_uid]
    exact hmu
  rw [mergeMeshGroup]
  cases hmg : mergeMeshesGeometry (normalizeVertexAttributes group.meshes) with
  | none => exact hm1
  | some geom =>
      have hnotin : u ∉ group.meshes.map fun m => m.uid := by
        apply hnr
        rw [mergeMeshGroup, hmg]
        rfl
      rcases hm1 with ⟨m1, hm1mem, hm1u⟩
      refine ⟨m1, ?_, hm1u⟩
      apply List.mem_append_left
      rw [removeMergerSources, List.mem_filter]
      refine ⟨hm1mem, ?_⟩
      simp
      right
      intro x hx hc
      apply hnotin
      rw [← hm1u, ← hc]
      exact List.mem_map_of_mem _ hx

theorem mergeBatches_cons (cfg : MergerConfig) (b : List MMesh)
    (bs : List (List MMesh)) (bIdx : Nat) (group : MergerGroup)
    (scene : List MMesh) (fresh : Nat) :
    mergeBatches cfg (b :: bs) bIdx group scene fresh =
      ((match (mergeMeshGroup cfg scene (batchRecord group b bIdx) bIdx fresh).2 with
        | some mm => { batchRecord group b bIdx with
                       mergedMesh := some mm,
                       mergedVertexCount := mm.getTotalVertices }
        | none => batchRecord group b bIdx) ::
         (mergeBatches cfg bs (bIdx + 1) group
           (mergeMeshGroup cfg scene (batchRecord group b bIdx) bIdx fresh).1 (fresh + 1)).1,
       (mergeBatches cfg bs (bIdx + 1) group
           (mergeMeshGroup cfg scene (batchRecord group b bIdx) bIdx fresh).1 (fresh + 1)).2.1,
       (mergeBatches cfg bs (bIdx + 1) group
           (mergeMeshGroup cfg scene (batchRecord group b bIdx) bIdx fresh).1 (fresh + 1)).2.2) :=
  rfl

theorem addMissingVertexAttribute_uid (m : MMesh) (k : VKind) :
    (addMissingVertexAttribute m k).uid = m.uid := by
  rw [addMissingVertexAttribute]
  cases m.geometry
  · rfl
  · dsimp only
    split
    · rfl
    · cases defaultAttrData k m.getTotalVertices <;> rfl

theorem foldl_addMissing_uid (ks : List VKind) (m : MMesh) :
    (ks.foldl addMissingVertexAttribute m).uid = m.uid := by
  induction ks generalizing m with
  | nil => rfl
  | cons k rest ih => rw [List.foldl_cons, ih, addMissingVertexAttribute_uid]

theorem normalizeVertexAttributes_uid (meshes : List MMesh) :
    ∀ n ∈ normalizeVertexAttributes meshes, ∃ x ∈ meshes, n.uid = x.uid := by
  intro n hn
  rw [normalizeVertexAttributes] at hn
  rcases List.mem_map.mp hn with ⟨x, hx, rfl⟩
  exact ⟨x, hx, foldl_addMissing_uid _ x⟩

theorem mergeMeshGroup_value_preserved (cfg : MergerConfig) (scene : List MMesh)
    (group : MergerGroup) (gIdx freshUid : Nat) (mm : MMesh)
    (hmem : mm ∈ scene) (hne : ∀ x ∈ group.meshes, x.uid ≠ mm.uid) :
    mm ∈ (mergeMeshGroup cfg scene group gIdx freshUid).1 := by
  have hfind : ((normalizeVertexAttributes group.meshes).find? fun n =>
      n.uid == mm.uid) = none := by
    rw [List.find?_eq_none]
    intro n hn
    rcases normalizeVertexAttributes_uid group.meshes n hn with ⟨x, hx, hxu⟩
    simp only [beq_iff_eq]
    rw [hxu]
    exact hne x hx
  have hm1 : mm ∈ scene.map fun x =>
      ((normalizeVertexAttributes group.meshes).find? fun n => n.uid == x.uid).getD x := by
    have hid : (((normalizeVertexAttributes group.meshes).find? fun n =>
        n.uid == mm.uid).getD mm) = mm := by rw [hfind]; rfl
    rw [← hid]
    exact List.mem_map_of_mem _ hmem
  rw [mergeMeshGroup]
  cases hmg : mergeMeshesGeometry (normalizeVertexAttributes group.meshes) with
  | none => exact hm1
  | some geom =>
      apply List.mem_append_left
      rw [removeMergerSources, List.mem_filter]
      refine ⟨hm1, ?_⟩
      simp
      right
      intro x hx hc
      exact hne x hx hc

theorem mergeMeshGroup_merged_mem (cfg : MergerConfig) (scene : List MMesh)
    (group : MergerGroup) (gIdx freshUid : Nat) (mm : MMesh)
    (h : (mergeMeshGroup cfg scene group gIdx freshUid).2 = some mm) :
    mm ∈ (mergeMeshGroup cfg scene group gIdx freshUid).1 := by
  rw [mergeMeshGroup] at h ⊢
  cases hmg : mergeMeshesGeometry (normalizeVertexAttributes group.meshes) with
  | none => rw [hmg] at h; cases h
  | some geom =>
      rw [hmg] at h
      dsimp only at h ⊢
      injection h with he
      rw [← he]
      exact List.mem_append_right _ (by simp)

theorem mergeMeshGroup_merged_uid (cfg : MergerConfig) (scene : List MMesh)
    (group : MergerGroup) (gIdx freshUid : Nat) (mm : MMesh)
    (h : (mergeMeshGroup cfg scene group gIdx freshUid).2 = some mm) :
    mm.uid = freshUid := by
  rw [mergeMeshGroup] at h
  cases hmg : mergeMeshesGeometry (normalizeVertexAttributes group.meshes) with
  | none => rw [hmg] at h; cases h
  | some geom =>
      rw [hmg] at h
      dsimp only at h
      injection h with he
      rw [← he]

theorem splitIntoBatchesFuel_mem :
    ∀ (fuel : Nat) (l : List MMesh) (bs : Nat) (b : List MMesh),
      b ∈ splitIntoBatchesFuel fuel l bs → ∀ x ∈ b, x ∈ l := by
  intro fuel
  induction fuel with
  | zero =>
      intro l bs b hb
      match l, bs with
      | [], _ => cases hb
      | _ :: _, 0 => cases hb
      | _ :: _, _ + 1 => cases hb
  | succ fuel ih =>
      intro l bs b hb
      match l, bs with
      | [], _ => cases hb
      | _ :: _, 0 => cases hb
      | x :: xs, bsz + 1 =>
          rw [splitIntoBatchesFuel] at hb
          rcases List.mem_cons.mp hb with rfl | hb'
          · intro y hy
            exact (List.take_sublist _ _).subset hy
          · intro y hy
            exact (List.drop_sublist _ _).subset (ih _ _ b hb' y hy)

theorem mergeBatches_fresh_le (cfg : MergerConfig) :
    ∀ (batches : List (List MMesh)) (bIdx : Nat) (group : MergerGroup)
      (scene : List MMesh) (fresh : Nat),
      fresh ≤ (mergeBatches cfg batches bIdx group scene fresh).2.2 := by
  intro batches
  induction batches with
  | nil => intro bIdx group scene fresh; exact le_rfl
  | cons b bs ih =>
      intro bIdx group scene fresh
      rw [mergeBatches_cons]
      exact le_trans (by omega) (ih (bIdx + 1) group _ (fresh + 1))

theorem mergeBatches_value_preserved (cfg : MergerConfig) :
    ∀ (batches : List (List MMesh)) (bIdx : Nat) (group : MergerGroup)
      (scene : List MMesh) (fresh : Nat) (mm : MMesh),
      mm ∈ scene → (∀ b ∈ batches, ∀ x ∈ b, x.uid ≠ mm.uid) →
      mm ∈ (mergeBatches cfg batches bIdx group scene fresh).2.1 := by
  intro batches
  induction batches with
  | nil => intro bIdx group scene fresh mm hm _; exact hm
  | cons b bs ih =>
      intro bIdx group scene fresh mm hm hne
      rw [mergeBatches_cons]
      apply ih (bIdx + 1) group _ (fresh + 1) mm
      · exact mergeMeshGroup_value_preserved cfg scene _ bIdx fresh mm hm
          (fun x hx => hne b (by simp) x hx)
      · intro b' hb' x hx
        exact hne b' (by simp [hb']) x hx

theorem mergeBatches_presence (cfg : MergerConfig) :
    ∀ (batches : List (List MMesh)) (bIdx : Nat) (group : MergerGroup)
      (scene : List MMesh) (fresh : Nat) (u : Nat),
      (∃ m ∈ scene, m.uid = u) →
      (∀ bg ∈ (mergeBatches cfg batches bIdx group scene fresh).1,
        bg.mergedMesh.isSome → u ∉ bg.meshes.map fun m => m.uid) →
      ∃ m' ∈ (mergeBatches cfg batches bIdx group scene fresh).2.1, m'.uid = u := by
  intro batches
  induction batches with
  | nil => intro bIdx group scene fresh u hm _; exact hm
  | cons b bs ih =>
      intro bIdx group scene fresh u hm hnr
      rw [mergeBatches_cons] at hnr ⊢
      dsimp only at hnr ⊢
      apply ih (bIdx + 1) group _ (fresh + 1) u
      · apply mergeMeshGroup_presence cfg scene (batchRecord group b bIdx) bIdx fresh u hm
        intro hsome
        have hh := hnr _ (List.mem_cons_self _ _)
        rcases hs : (mergeMeshGroup cfg scene (batchRecord group b bIdx) bIdx fresh).2 with
          _ | mm
        · rw [hs] at hsome; cases hsome
        · simp only [hs] at hh
          have hu := hh (by rfl)
          simpa [batchRecord] using hu
      · intro bg hbg hsome
        exact hnr bg (List.mem_cons_of_mem _ hbg) hsome

theorem mergeBatches_merged_present (cfg : MergerConfig) :
    ∀ (batches : List (List MMesh)) (bIdx : Nat) (group : MergerGroup)
      (scene : List MMesh) (fresh : Nat),
      (∀ b ∈ batches, ∀ m ∈ b, m.uid < fresh) →
      ∀ bg ∈ (mergeBatches cfg batches bIdx group scene fresh).1, ∀ mm,
        bg.mergedMesh = some mm →
        mm ∈ (mergeBatches cfg batches bIdx group scene fresh).2.1 := by
  intro batches
  induction batches with
  | nil => intro bIdx group scene fresh _ bg hbg; cases hbg
  | cons b bs ih =>
      intro bIdx group scene fresh hlt bg hbg mm hmm
      rw [mergeBatches_cons] at hbg ⊢
      dsimp only at hbg ⊢
      rcases List.mem_cons.mp hbg with rfl | hbg'
      · rcases hs : (mergeMeshGroup cfg scene (batchRecord group b bIdx) bIdx fresh).2 with
          _ | mm'
        · rw [hs] at hmm
          simp only [batchRecord] at hmm
          cases hmm
        · rw [hs] at hmm
          simp only at hmm
          injection hmm with he
          subst he
          apply mergeBatches_value_preserved cfg bs (bIdx + 1) group _ (fresh + 1) mm'
          · exact mergeMeshGroup_merged_mem cfg scene _ bIdx fresh mm' hs
          · intro b' hb' x hx
            have hxlt : x.uid < fresh := hlt b' (by simp [hb']) x hx
            have hmu : mm'.uid = fresh :=
              mergeMeshGroup_merged_uid cfg scene _ bIdx fresh mm' hs
            omega
      · exact ih (bIdx + 1) group _ (fresh + 1)
          (fun b' hb' m hm => lt_trans (hlt b' (by simp [hb']) m hm) (by omega))
          bg hbg' mm hmm

theorem insertMergerGroup_mergedMesh_none (gs : List MergerGroup) (m : MMesh)
    (hall : ∀ g0 ∈ gs, g0.mergedMesh = none) :
    ∀ g ∈ insertMergerGroup gs m, g.mergedMesh = none := by
  induction gs with
  | nil =>
      intro g hg
      simp only [insertMergerGroup, List.mem_singleton] at hg
      subst hg
      rfl
  | cons g0 rest ih =>
      intro g hg
      rw [insertMergerGroup] at hg
      by_cases hk : g0.materialId = mergerMatKey m
      · rw [if_pos hk] at hg
        rcases List.mem_cons.mp hg with rfl | h'
        · exact hall g0 (List.mem_cons_self _ _)
        · exact hall g (List.mem_cons_of_mem _ h')
      · rw [if_neg hk] at hg
        rcases List.mem_cons.mp hg with rfl | h'
        · exact hall g (List.mem_cons_self _ _)
        · exact ih (fun g1 h1 => hall g1 (List.mem_cons_of_mem _ h1)) g h'

theorem foldl_insertMergerGroup_mergedMesh_none :
    ∀ (l : List MMesh) (acc : List MergerGroup),
      (∀ g0 ∈ acc, g0.mergedMesh = none) →
      ∀ g ∈ l.foldl insertMergerGroup acc, g.mergedMesh = none := by
  intro l
  induction l with
  | nil => intro acc hall g hg; exact hall g hg
  | cons m rest ih =>
      intro acc hall g hg
      exact ih _ (insertMergerGroup_mergedMesh_none acc m hall) g hg

theorem analyzeMeshesByMaterial_mergedMesh_none (cfg : MergerConfig)
    (scene : List MMesh) :
    ∀ g ∈ analyzeMeshesByMaterial cfg scene, g.mergedMesh = none := by
  intro g hg
  simp only [analyzeMeshesByMaterial, List.mem_filterMap] at hg
  rcases hg with ⟨g0, hg0, hfm⟩
  by_cases hlen : g0.meshes.length ≤ 1
  · rw [if_pos hlen] at hfm; cases hfm
  · rw [if_neg hlen] at hfm
    split at hfm
    · injection hfm with he
      subst he
      exact foldl_insertMergerGroup_mergedMesh_none _ [] (by simp) g0 hg0
    · cases hfm

theorem analyzeMeshesByMaterial_mem_scene (cfg : MergerConfig)
    (scene : List MMesh) :
    ∀ g ∈ analyzeMeshesByMaterial cfg scene, ∀ m ∈ g.meshes, m ∈ scene := by
  intro g hg m hm
  simp only [analyzeMeshesByMaterial, List.mem_filterMap] at hg
  rcases hg with ⟨g0, hg0, hfm⟩
  by_cases hlen : g0.meshes.length ≤ 1
  · rw [if_pos hlen] at hfm; cases hfm
  · rw [if_neg hlen] at hfm
    split at hfm
    · injection hfm with he
      subst he
      have hm' : m ∈ g0.meshes := List.mem_of_mem_filter hm
      rcases foldl_insertMergerGroup_mem _ [] g0 hg0 m hm' with ⟨g1, hg1, _⟩ | h'
      · cases hg1
      · exact List.mem_of_mem_filter h'
    · cases hfm

theorem mergeBatches_merged_uid_ge (cfg : MergerConfig) :
    ∀ (batches : List (List MMesh)) (bIdx : Nat) (group : MergerGroup)
      (scene : List MMesh) (fresh : Nat),
      ∀ bg ∈ (mergeBatches cfg batches bIdx group scene fresh).1, ∀ mm,
        bg.mergedMesh = some mm → fresh ≤ mm.uid := by
  intro batches
  induction batches with
  | nil => intro bIdx group scene fresh bg hbg; cases hbg
  | cons b bs ih =>
      intro bIdx group scene fresh bg hbg mm hmm
      rw [mergeBatches_cons] at hbg
      dsimp only at hbg
      rcases List.mem_cons.mp hbg with rfl | hbg'
      · rcases hs : (mergeMeshGroup cfg scene (batchRecord group b bIdx) bIdx fresh).2 with
          _ | mm'
        · rw [hs] at hmm
          simp only [batchRecord] at hmm
          cases hmm
        · rw [hs] at hmm
          simp only at hmm
          injection hmm with he
          subst he
          exact le_of_eq (mergeMeshGroup_merged_uid cfg scene _ bIdx fresh mm' hs).symm
      · exact le_trans (by omega) (ih (bIdx + 1) group _ (fresh + 1) bg hbg' mm hmm)

theorem mergeMergerGroupsAux_fresh_le (cfg : MergerConfig) :
    ∀ (gs : List MergerGroup) (idx : Nat) (scene : List MMesh) (fresh : Nat),
      fresh ≤ (mergeMergerGroupsAux cfg gs idx scene fresh).2.2 := by
  intro gs
  induction gs with
  | nil => intro idx scene fresh; exact le_rfl
  | cons g rest ih =>
      intro idx scene fresh
      rw [mergeMergerGroupsAux]
      by_cases hb : cfg.mergeLimitPerGroup < g.meshes.length
      · rw [if_pos hb]
        dsimp only
        exact le_trans (mergeBatches_fresh_le cfg _ 0 g scene fresh) (ih _ _ _)
      · rw [if_neg hb]
        dsimp only
        exact le_trans (by omega) (ih _ _ _)

theorem mergeMergerGroupsAux_value_preserved (cfg : MergerConfig) :
    ∀ (gs : List MergerGroup) (idx : Nat) (scene : List MMesh) (fresh : Nat)
      (mm : MMesh),
      mm ∈ scene → (∀ g ∈ gs, ∀ x ∈ g.meshes, x.uid ≠ mm.uid) →
      mm ∈ (mergeMergerGroupsAux cfg gs idx scene fresh).2.1 := by
  intro gs
  induction gs with
  | nil => intro idx scene fresh mm hm _; exact hm
  | cons g rest ih =>
      intro idx scene fresh mm hm hne
      rw [mergeMergerGroupsAux]
      by_cases hb : cfg.mergeLimitPerGroup < g.meshes.length
      · rw [if_pos hb]
        dsimp only
        apply ih _ _ _ mm
        · apply mergeBatches_value_preserved cfg _ 0 g scene fresh mm hm
          intro b hbb x hx
          exact hne g (List.mem_cons_self _ _) x
            (splitIntoBatchesFuel_mem _ _ _ b hbb x hx)
        · intro g' hg' x hx
          exact hne g' (List.mem_cons_of_mem _ hg') x hx
      · rw [if_neg hb]
        dsimp only
        apply ih _ _ _ mm
        · exact mergeMeshGroup_value_preserved cfg scene g idx fresh mm hm
            (fun x hx => hne g (List.mem_cons_self _ _) x hx)
        · intro g' hg' x hx
          exact hne g' (List.mem_cons_of_mem _ hg') x hx

theorem mergeMergerGroupsAux_presence (cfg : MergerConfig) :
    ∀ (gs : List MergerGroup) (idx : Nat) (scene : List MMesh) (fresh : Nat)
      (u : Nat),
      (∃ m ∈ scene, m.uid = u) →
      (∀ bg ∈ (mergeMergerGroupsAux cfg gs idx scene fresh).1,
        bg.mergedMesh.isSome → u ∉ bg.meshes.map fun m => m.uid) →
      ∃ m' ∈ (mergeMergerGroupsAux cfg gs idx scene fresh).2.1, m'.uid = u := by
  intro gs
  induction gs with
  | nil => intro idx scene fresh u hm _; exact hm
  | cons g rest ih =>
      intro idx scene fresh u hm hnr
      rw [mergeMergerGroupsAux] at hnr ⊢
      by_cases hb : cfg.mergeLimitPerGroup < g.meshes.length
      · rw [if_pos hb] at hnr ⊢
        dsimp only at hnr ⊢
        apply ih _ _ _ u
        · apply mergeBatches_presence cfg _ 0 g scene fresh u hm
          intro bg hbg hsome
          exact hnr bg (List.mem_append_left _ hbg) hsome
        · intro bg hbg hsome
          exact hnr bg (List.mem_append_right _ hbg) hsome
      · rw [if_neg hb] at hnr ⊢
        dsimp only at hnr ⊢
        apply ih _ _ _ u
        · apply mergeMeshGroup_presence cfg scene g idx fresh u hm
          intro hsome
          have hh := hnr _ (List.mem_cons_self _ _)
          rcases hs : (mergeMeshGroup cfg scene g idx fresh).2 with _ | mm
          · rw [hs] at hsome; cases hsome
          · simp only [hs] at hh
            exact hh (by rfl)
        · intro bg hbg hsome
          exact hnr bg (List.mem_cons_of_mem _ hbg) hsome

theorem mergeMergerGroupsAux_merged_present (cfg : MergerConfig) :
    ∀ (gs : List MergerGroup) (idx : Nat) (scene : List MMesh) (fresh : Nat),
      (∀ g ∈ gs, ∀ m ∈ g.meshes, m.uid < fresh) →
      (∀ g ∈ gs, g.mergedMesh = none) →
      ∀ bg ∈ (mergeMergerGroupsAux cfg gs idx scene fresh).1, ∀ mm,
        bg.mergedMesh = some mm →
        mm ∈ (mergeMergerGroupsAux cfg gs idx scene fresh).2.1 := by
  intro gs
  induction gs with
  | nil => intro idx scene fresh _ _ bg hbg; cases hbg
  | cons g rest ih =>
      intro idx scene fresh hlt hnone bg hbg mm hmm
      rw [mergeMergerGroupsAux] at hbg ⊢
      by_cases hb : cfg.mergeLimitPerGroup < g.meshes.length
      · rw [if_pos hb] at hbg ⊢
        dsimp only at hbg ⊢
        rcases List.mem_append.mp hbg with hbg1 | hbg2
        · have hmem1 : mm ∈ (mergeBatches cfg
              (splitIntoBatches g.meshes cfg.mergeLimitPerGroup) 0 g scene fresh).2.1 :=
            mergeBatches_merged_present cfg _ 0 g scene fresh
              (fun b hbb x hx => hlt g (List.mem_cons_self _ _) x
                (splitIntoBatchesFuel_mem _ _ _ b hbb x hx))
              bg hbg1 mm hmm
          have hge : fresh ≤ mm.uid :=
            mergeBatches_merged_uid_ge cfg _ 0 g scene fresh bg hbg1 mm hmm
          apply mergeMergerGroupsAux_value_preserved cfg rest (idx + 1) _ _ mm hmem1
          intro g' hg' x hx
          have := hlt g' (List.mem_cons_of_mem _ hg') x hx
          omega
        · exact ih (idx + 1) _ _
            (fun g' hg' m hmem => lt_of_lt_of_le
              (hlt g' (List.mem_cons_of_mem _ hg') m hmem)
              (mergeBatches_fresh_le cfg _ 0 g scene fresh))
            (fun g' hg' => hnone g' (List.mem_cons_of_mem _ hg'))
            bg hbg2 mm hmm
      · rw [if_neg hb] at hbg ⊢
        dsimp only at hbg ⊢
        rcases List.mem_cons.mp hbg with rfl | hbg'
        · rcases hs : (mergeMeshGroup cfg scene g idx fresh).2 with _ | mm'
          · rw [hs] at hmm
            have hgn := hnone g (List.mem_cons_self _ _)
            simp only [hgn] at hmm
            cases hmm
          · rw [hs] at hmm
            simp only at hmm
            injection hmm with he
            subst he
            apply mergeMergerGroupsAux_value_preserved cfg rest (idx + 1) _ _ mm'
            · exact mergeMeshGroup_merged_mem cfg scene g idx fresh mm' hs
            · intro g' hg' x hx
              have hxlt := hlt g' (List.mem_cons_of_mem _ hg') x hx
              have hmu := mergeMeshGroup_merged_uid cfg scene g idx fresh mm' hs
              omega
        · exact ih (idx + 1) _ (fresh + 1)
            (fun g' hg' m hmem => lt_trans
              (hlt g' (List.mem_cons_of_mem _ hg') m hmem) (by omega))
            (fun g' hg' => hnone g' (List.mem_cons_of_mem _ hg'))
            bg hbg' mm hmm

/-- C6 (amended): when geometry concatenation fails for a group or batch,
`mergeMeshes` leaves that group's source meshes un-disposed (every scene mesh
whose uid is not among the members of a *successfully* merged group or batch is
still present in the final scene by uid) and continues processing the
remaining groups (every merged mesh recorded in a group is present in the
final scene) — but the failed group's sources are not untouched: the
normalization mutation performed before the failed merge persists on them. -/
theorem merge_failure_policy_amended (cfg : MergerConfig) (freshUid : Nat)
    (scene : List MMesh) (hfresh : ∀ m ∈ scene, m.uid < freshUid) :
    (∀ u, (∃ m ∈ scene, m.uid = u) →
      (∀ bg ∈ (mergeMeshes cfg freshUid scene).materialGroups,
        bg.mergedMesh.isSome → u ∉ bg.meshes.map fun m => m.uid) →
      ∃ m' ∈ (mergeMeshes cfg freshUid scene).newScene, m'.uid = u) ∧
    (∀ bg ∈ (mergeMeshes cfg freshUid scene).materialGroups, ∀ mm,
      bg.mergedMesh = some mm → mm ∈ (mergeMeshes cfg freshUid scene).newScene) := by
  constructor
  · intro u hm hnr
    exact mergeMergerGroupsAux_presence cfg _ 0 scene freshUid u hm hnr
  · intro bg hbg mm hmm
    exact mergeMergerGroupsAux_merged_present cfg _ 0 scene freshUid
      (fun g hg m hmem => hfresh m (analyzeMeshesByMaterial_mem_scene cfg scene g hg m hmem))
      (analyzeMeshesByMaterial_mergedMesh_none cfg scene)
      bg hbg mm hmm

/-- Witness for C6 (amended): on the concrete failing scene, the mesh with uid
0 belongs to the (failed) group yet is still present in the final scene. -/
theorem merge_failure_policy_amended_witness :
    (∀ m ∈ demoFailScene, m.uid < 50) ∧
    (∃ m' ∈ (mergeMeshes defaultMergerConfig 50 demoFailScene).newScene,
      m'.uid = 0) :=
  ⟨by decide,
   (merge_failure_policy_amended defaultMergerConfig 50 demoFailScene (by decide)).1
     0 (by decide) (by decide)⟩

theorem addMissingVertexAttribute_eq (m : MMesh) (g : MGeometry) (k : VKind)
    (d : List Rat) (hg : m.geometry = some g) (hn : ¬ m.getTotalVertices = 0)
    (hd : defaultAttrData k m.getTotalVertices = some d) :
    addMissingVertexAttribute m k =
      { m with geometry := some (g.setVerticesData k d) } := by
  rw [addMissingVertexAttribute, hg]
  dsimp only
  rw [if_neg hn, hd]

theorem mergeMeshGroup_geom (cfg : MergerConfig) (scene : List MMesh)
    (group : MergerGroup) (gIdx freshUid : Nat) (geom : MGeometry)
    (h : mergeMeshesGeometry (normalizeVertexAttributes group.meshes) = some geom) :
    ∃ mm, (mergeMeshGroup cfg scene group gIdx freshUid).2 = some mm ∧
      mm.geometry = some geom := by
  rw [mergeMeshGroup, h]
  exact ⟨_, rfl, rfl⟩

/-- C7: merging a group whose member A carries position, normal and UV
buffers while member B carries only a position buffer produces a merged mesh
whose geometry has a normal and a UV buffer, B's segment being the documented
defaults — normal `(0,1,0)` and UV `(0,0)` per vertex — and each buffer is
sized to the full merged vertex count. -/
theorem merged_normalization_defaults (cfg : MergerConfig) (scene : List MMesh)
    (gIdx freshUid uidA uidB : Nat) (mat : Option String)
    (pA nA uA : List Rat) (iA : List Nat) (pB : List Rat) (iB : List Nat)
    (hA : wellFormedGeometry
      (MGeometry.mk (some pA) (some nA) (some uA) none none none iA) = true)
    (hB : wellFormedGeometry
      (MGeometry.mk (some pB) none none none none none iB) = true) :
    ∃ mm g,
      (mergeMeshGroup cfg scene
        (MergerGroup.mk "M" mat
          [demoMMesh uidA (MGeometry.mk (some pA) (some nA) (some uA) none none none iA),
           demoMMesh uidB (MGeometry.mk (some pB) none none none none none iB)]
          0 0 none) gIdx freshUid).2 = some mm ∧
      mm.geometry = some g ∧
      g.normals = some (nA ++ (List.replicate (pB.length / 3) ([0, 1, 0] : List Rat)).flatten) ∧
      g.uvs = some (uA ++ (List.replicate (pB.length / 3) ([0, 0] : List Rat)).flatten) ∧
      (g.normals.getD []).length = g.vertexCount * 3 ∧
      (g.uvs.getD []).length = g.vertexCount * 2 := by
  have hA' := hA
  have hB' := hB
  simp only [wellFormedGeometry, MGeometry.getVerticesData, MGeometry.vertexCount,
    kindOrder, Option.getD, VKind.components, List.all_cons, List.all_nil,
    Bool.and_eq_true, decide_eq_true_eq, List.all_eq_true] at hA' hB'
  obtain ⟨⟨⟨hamod, hapos⟩, haall⟩, haidx⟩ := hA'
  obtain ⟨⟨⟨hbmod, hbpos⟩, hball⟩, hbidx⟩ := hB'
  obtain ⟨hposA, hnAlen, huAlen, -⟩ := haall
  obtain ⟨hposB, -⟩ := hball
  have hn2 : ¬ (pB.length / 3 = 0) := by omega
  have hn2' : ¬ (demoMMesh uidB
      (MGeometry.mk (some pB) none none none none none iB)).getTotalVertices = 0 := hn2
  have hdn : ((List.replicate (pB.length / 3) ([0, 1, 0] : List Rat)).flatten).length
      = pB.length / 3 * 3 := by
    simp [List.length_flatten, List.map_replicate, List.sum_replicate, smul_eq_mul]
  have hdu : ((List.replicate (pB.length / 3) ([0, 0] : List Rat)).flatten).length
      = pB.length / 3 * 2 := by
    simp [List.length_flatten, List.map_replicate, List.sum_replicate, smul_eq_mul]
  have h1 : addMissingVertexAttribute
      (demoMMesh uidB (MGeometry.mk (some pB) none none none none none iB)) .normal
      = demoMMesh uidB (MGeometry.mk (some pB)
          (some ((List.replicate (pB.length / 3) ([0, 1, 0] : List Rat)).flatten))
          none none none none iB) := by
    rw [addMissingVertexAttribute_eq
      (demoMMesh uidB (MGeometry.mk (some pB) none none none none none iB))
      (MGeometry.mk (some pB) none none none none none iB) .normal
      ((List.replicate (pB.length / 3) ([0, 1, 0] : List Rat)).flatten) rfl hn2' rfl]
    rfl
  have h2 : addMissingVertexAttribute
      (demoMMesh uidB (MGeometry.mk (some pB)
        (some ((List.replicate (pB.length / 3) ([0, 1, 0] : List Rat)).flatten))
        none none none none iB)) .uv
      = demoMMesh uidB (MGeometry.mk (some pB)
          (some ((List.replicate (pB.length / 3) ([0, 1, 0] : List Rat)).flatten))
          (some ((List.replicate (pB.length / 3) ([0, 0] : List Rat)).flatten))
          none none none iB) := by
    rw [addMissingVertexAttribute_eq
      (demoMMesh uidB (MGeometry.mk (some pB)
        (some ((List.replicate (pB.length / 3) ([0, 1, 0] : List Rat)).flatten))
        none none none none iB))
      (MGeometry.mk (some pB)
        (some ((List.replicate (pB.length / 3) ([0, 1, 0] : List Rat)).flatten))
        none none none none iB) .uv
      ((List.replicate (pB.length / 3) ([0, 0] : List Rat)).flatten) rfl hn2 rfl]
    rfl
  have hnorm : normalizeVertexAttributes
      [demoMMesh uidA (MGeometry.mk (some pA) (some nA) (some uA) none none none iA),
       demoMMesh uidB (MGeometry.mk (some pB) none none none none none iB)]
      = [demoMMesh uidA (MGeometry.mk (some pA) (some nA) (some uA) none none none iA),
         demoMMesh uidB (MGeometry.mk (some pB)
           (some ((List.replicate (pB.length / 3) ([0, 1, 0] : List Rat)).flatten))
           (some ((List.replicate (pB.length / 3) ([0, 0] : List Rat)).flatten))
           none none none iB)] := by
    show [demoMMesh uidA (MGeometry.mk (some pA) (some nA) (some uA) none none none iA),
          List.foldl addMissingVertexAttribute
            (demoMMesh uidB (MGeometry.mk (some pB) none none none none none iB))
            [.normal, .uv]] = _
    rw [List.foldl_cons, h1, List.foldl_cons, h2, List.foldl_nil]
  have hwfB' : wellFormedGeometry (MGeometry.mk (some pB)
      (some ((List.replicate (pB.length / 3) ([0, 1, 0] : List Rat)).flatten))
      (some ((List.replicate (pB.length / 3) ([0, 0] : List Rat)).flatten))
      none none none iB) = true := by
    simp only [wellFormedGeometry, MGeometry.getVerticesData, MGeometry.vertexCount,
      kindOrder, Option.getD, VKind.components, List.all_cons, List.all_nil,
      Bool.and_eq_true, decide_eq_true_eq, List.all_eq_true, hdn, hdu]
    exact ⟨⟨⟨hbmod, hbpos⟩, hposB, trivial, trivial, trivial, trivial, trivial, trivial⟩,
      hbidx⟩
  have hall : ([MGeometry.mk (some pA) (some nA) (some uA) none none none iA,
      MGeometry.mk (some pB)
        (some ((List.replicate (pB.length / 3) ([0, 1, 0] : List Rat)).flatten))
        (some ((List.replicate (pB.length / 3) ([0, 0] : List Rat)).flatten))
        none none none iB].all wellFormedGeometry) = true := by
    rw [List.all_cons, List.all_cons, List.all_nil, hA, hwfB']
    rfl
  have hstep : mergeMeshesGeometry
      [demoMMesh uidA (MGeometry.mk (some pA) (some nA) (some uA) none none none iA),
       demoMMesh uidB (MGeometry.mk (some pB)
         (some ((List.replicate (pB.length / 3) ([0, 1, 0] : List Rat)).flatten))
         (some ((List.replicate (pB.length / 3) ([0, 0] : List Rat)).flatten))
         none none none iB)]
      = (if !([MGeometry.mk (some pA) (some nA) (some uA) none none none iA,
            MGeometry.mk (some pB)
              (some ((List.replicate (pB.length / 3) ([0, 1, 0] : List Rat)).flatten))
              (some ((List.replicate (pB.length / 3) ([0, 0] : List Rat)).flatten))
              none none none iB].all wellFormedGeometry) then none
         else some (MGeometry.mk
           (some (pA ++ (pB ++ [])))
           (some (nA ++ ((List.replicate (pB.length / 3) ([0, 1, 0] : List Rat)).flatten ++ [])))
           (some (uA ++ ((List.replicate (pB.length / 3) ([0, 0] : List Rat)).flatten ++ [])))
           none none none
           (iA.map (· + 0) ++ (iB.map (· + (pA.length / 3 + 0)) ++ [])))) := rfl
  have hmg : mergeMeshesGeometry
      [demoMMesh uidA (MGeometry.mk (some pA) (some nA) (some uA) none none none iA),
       demoMMesh uidB (MGeometry.mk (some pB)
         (some ((List.replicate (pB.length / 3) ([0, 1, 0] : List Rat)).flatten))
         (some ((List.replicate (pB.length / 3) ([0, 0] : List Rat)).flatten))
         none none none iB)]
      = some (MGeometry.mk
          (some (pA ++ (pB ++ [])))
          (some (nA ++ ((List.replicate (pB.length / 3) ([0, 1, 0] : List Rat)).flatten ++ [])))
          (some (uA ++ ((List.replicate (pB.length / 3) ([0, 0] : List Rat)).flatten ++ [])))
          none none none
          (iA.map (· + 0) ++ (iB.map (· + (pA.length / 3 + 0)) ++ []))) := by
    rw [hstep, hall]
    rfl
  obtain ⟨mm, hmm2, hgeom⟩ := mergeMeshGroup_geom cfg scene
    (MergerGroup.mk "M" mat
      [demoMMesh uidA (MGeometry.mk (some pA) (some nA) (some uA) none none none iA),
       demoMMesh uidB (MGeometry.mk (some pB) none none none none none iB)]
      0 0 none) gIdx freshUid _ (by
        show mergeMeshesGeometry (normalizeVertexAttributes
          [demoMMesh uidA (MGeometry.mk (some pA) (some nA) (some uA) none none none iA),
           demoMMesh uidB (MGeometry.mk (some pB) none none none none none iB)]) = _
        rw [hnorm]
        exact hmg)
  refine ⟨mm, _, hmm2, hgeom, ?_, ?_, ?_, ?_⟩
  · show some (nA ++ ((List.replicate (pB.length / 3) ([0, 1, 0] : List Rat)).flatten ++ []))
      = some (nA ++ (List.replicate (pB.length / 3) ([0, 1, 0] : List Rat)).flatten)
    rw [List.append_nil]
  · show some (uA ++ ((List.replicate (pB.length / 3) ([0, 0] : List Rat)).flatten ++ []))
      = some (uA ++ (List.replicate (pB.length / 3) ([0, 0] : List Rat)).flatten)
    rw [List.append_nil]
  · show (nA ++ ((List.replicate (pB.length / 3) ([0, 1, 0] : List Rat)).flatten ++ [])).length
      = (pA ++ (pB ++ [])).length / 3 * 3
    simp only [List.length_append, List.length_nil, hdn]
    omega
  · show (uA ++ ((List.replicate (pB.length / 3) ([0, 0] : List Rat)).flatten ++ [])).length
      = (pA ++ (pB ++ [])).length / 3 * 2
    simp only [List.length_append, List.length_nil, hdu]
    omega

/-- Witness for C7: the theorem applied to the two concrete triangle
geometries (member A full, member B position-only). -/
theorem merged_normalization_defaults_witness :
    ∃ mm g,
      (mergeMeshGroup defaultMergerConfig demoMergeScene
        (MergerGroup.mk "M" (some "M")
          [demoMMesh 0 (MGeometry.mk (some [0, 0, 0, 1, 0, 0, 0, 1, 0])
             (some [0, 0, 1, 0, 0, 1, 0, 0, 1]) (some [0, 0, 1, 0, 0, 1])
             none none none [0, 1, 2]),
           demoMMesh 1 (MGeometry.mk (some [2, 0, 0, 3, 0, 0, 2, 1, 0])
             none none none none none [0, 1, 2])]
          0 0 none) 0 100).2 = some mm ∧
      mm.geometry = some g ∧
      g.normals = some (([0, 0, 1, 0, 0, 1, 0, 0, 1] : List Rat)
        ++ (List.replicate 3 ([0, 1, 0] : List Rat)).flatten) ∧
      g.uvs = some (([0, 0, 1, 0, 0, 1] : List Rat)
        ++ (List.replicate 3 ([0, 0] : List Rat)).flatten) ∧
      (g.normals.getD []).length = g.vertexCount * 3 ∧
      (g.uvs.getD []).length = g.vertexCount * 2 :=
  merged_normalization_defaults defaultMergerConfig demoMergeScene 0 100 0 1 (some "M")
    [0, 0, 0, 1, 0, 0, 0, 1, 0] [0, 0, 1, 0, 0, 1, 0, 0, 1] [0, 0, 1, 0, 0, 1] [0, 1, 2]
    [2, 0, 0, 3, 0, 0, 2, 1, 0] [0, 1, 2] (by decide) (by decide)

theorem mergeMeshGroup_snd_eq (cfg : MergerConfig) (scene : List MMesh)
    (group : MergerGroup) (gIdx freshUid : Nat) (geom : MGeometry)
    (h : mergeMeshesGeometry (normalizeVertexAttributes group.meshes) = some geom) :
    (mergeMeshGroup cfg scene group gIdx freshUid).2 = some
      { uid := freshUid
        name := "Merged_Material_" ++ toString (gIdx + 1)
        kind := NodeKind.full
        geometry := some geom
        materialId := group.material
        isVisible := true
        isPickable := match group.meshes.head? with
          | some f => f.isPickable
          | none => true
        checkCollisions := match group.meshes.head? with
          | some f => f.checkCollisions
          | none => false
        animations := []
        parent := match group.meshes.head? with
          | some f => if cfg.respectHierarchy && f.parent.isSome then f.parent else none
          | none => none } := by
  rw [mergeMeshGroup, h]

/-- C8: with `mergeLimitPerGroup = 2`, a single material group of five
eligible meshes is split into consecutive batches of sizes 2, 2 and 1, and
the group-merging loop produces exactly three merged output meshes, each the
concatenation — vertex buffers appended, indices offset by the running vertex
count — of its own batch's members in member order. -/
theorem batch_split_and_merge
    (pm mc cb : Bool) (scene : List MMesh) (freshUid : Nat) (mat : Option String)
    (u1 u2 u3 u4 u5 : Nat)
    (p1 n1 v1 : List Rat) (i1 : List Nat)
    (p2 n2 v2 : List Rat) (i2 : List Nat)
    (p3 n3 v3 : List Rat) (i3 : List Nat)
    (p4 n4 v4 : List Rat) (i4 : List Nat)
    (p5 n5 v5 : List Rat) (i5 : List Nat)
    (h1 : wellFormedGeometry (MGeometry.mk (some p1) (some n1) (some v1) none none none i1) = true)
    (h2 : wellFormedGeometry (MGeometry.mk (some p2) (some n2) (some v2) none none none i2) = true)
    (h3 : wellFormedGeometry (MGeometry.mk (some p3) (some n3) (some v3) none none none i3) = true)
    (h4 : wellFormedGeometry (MGeometry.mk (some p4) (some n4) (some v4) none none none i4) = true)
    (h5 : wellFormedGeometry (MGeometry.mk (some p5) (some n5) (some v5) none none none i5) = true) :
    splitIntoBatches
      [demoMMesh u1 (MGeometry.mk (some p1) (some n1) (some v1) none none none i1),
       demoMMesh u2 (MGeometry.mk (some p2) (some n2) (some v2) none none none i2),
       demoMMesh u3 (MGeometry.mk (some p3) (some n3) (some v3) none none none i3),
       demoMMesh u4 (MGeometry.mk (some p4) (some n4) (some v4) none none none i4),
       demoMMesh u5 (MGeometry.mk (some p5) (some n5) (some v5) none none none i5)] 2
      = [[demoMMesh u1 (MGeometry.mk (some p1) (some n1) (some v1) none none none i1), demoMMesh u2 (MGeometry.mk (some p2) (some n2) (some v2) none none none i2)],
         [demoMMesh u3 (MGeometry.mk (some p3) (some n3) (some v3) none none none i3), demoMMesh u4 (MGeometry.mk (some p4) (some n4) (some v4) none none none i4)],
         [demoMMesh u5 (MGeometry.mk (some p5) (some n5) (some v5) none none none i5)]] ∧
    ∃ mm1 mm2 mm3,
      ((mergeMergerGroupsAux (MergerConfig.mk pm 2 false mc cb)
          [(MergerGroup.mk "M" mat
      [demoMMesh u1 (MGeometry.mk (some p1) (some n1) (some v1) none none none i1),
       demoMMesh u2 (MGeometry.mk (some p2) (some n2) (some v2) none none none i2),
       demoMMesh u3 (MGeometry.mk (some p3) (some n3) (some v3) none none none i3),
       demoMMesh u4 (MGeometry.mk (some p4) (some n4) (some v4) none none none i4),
       demoMMesh u5 (MGeometry.mk (some p5) (some n5) (some v5) none none none i5)] 0 0 none)] 0 scene freshUid).1.map fun bg => bg.mergedMesh)
        = [some mm1, some mm2, some mm3] ∧
      ((mergeMergerGroupsAux (MergerConfig.mk pm 2 false mc cb)
          [(MergerGroup.mk "M" mat
      [demoMMesh u1 (MGeometry.mk (some p1) (some n1) (some v1) none none none i1),
       demoMMesh u2 (MGeometry.mk (some p2) (some n2) (some v2) none none none i2),
       demoMMesh u3 (MGeometry.mk (some p3) (some n3) (some v3) none none none i3),
       demoMMesh u4 (MGeometry.mk (some p4) (some n4) (some v4) none none none i4),
       demoMMesh u5 (MGeometry.mk (some p5) (some n5) (some v5) none none none i5)] 0 0 none)] 0 scene freshUid).1.map fun bg => bg.meshes)
        = [[demoMMesh u1 (MGeometry.mk (some p1) (some n1) (some v1) none none none i1), demoMMesh u2 (MGeometry.mk (some p2) (some n2) (some v2) none none none i2)],
           [demoMMesh u3 (MGeometry.mk (some p3) (some n3) (some v3) none none none i3), demoMMesh u4 (MGeometry.mk (some p4) (some n4) (some v4) none none none i4)],
           [demoMMesh u5 (MGeometry.mk (some p5) (some n5) (some v5) none none none i5)]] ∧
      mm1.geometry = some (MGeometry.mk (some (p1 ++ (p2 ++ []))) (some (n1 ++ (n2 ++ [])))
        (some (v1 ++ (v2 ++ []))) none none none
        (i1.map (· + 0) ++ (i2.map (· + (p1.length / 3 + 0)) ++ []))) ∧
      mm2.geometry = some (MGeometry.mk (some (p3 ++ (p4 ++ []))) (some (n3 ++ (n4 ++ [])))
        (some (v3 ++ (v4 ++ []))) none none none
        (i3.map (· + 0) ++ (i4.map (· + (p3.length / 3 + 0)) ++ []))) ∧
      mm3.geometry = some (MGeometry.mk (some (p5 ++ [])) (some (n5 ++ [])) (some (v5 ++ []))
        none none none (i5.map (· + 0) ++ [])) := by
  have hall12 : ([(MGeometry.mk (some p1) (some n1) (some v1) none none none i1), (MGeometry.mk (some p2) (some n2) (some v2) none none none i2)].all wellFormedGeometry) = true := by
    rw [List.all_cons, List.all_cons, List.all_nil, h1, h2]
    rfl
  have hall34 : ([(MGeometry.mk (some p3) (some n3) (some v3) none none none i3), (MGeometry.mk (some p4) (some n4) (some v4) none none none i4)].all wellFormedGeometry) = true := by
    rw [List.all_cons, List.all_cons, List.all_nil, h3, h4]
    rfl
  have hall5 : ([(MGeometry.mk (some p5) (some n5) (some v5) none none none i5)].all wellFormedGeometry) = true := by
    rw [List.all_cons, List.all_nil, h5]
    rfl
  have hmg12 : mergeMeshesGeometry [demoMMesh u1 (MGeometry.mk (some p1) (some n1) (some v1) none none none i1), demoMMesh u2 (MGeometry.mk (some p2) (some n2) (some v2) none none none i2)]
      = some (MGeometry.mk (some (p1 ++ (p2 ++ []))) (some (n1 ++ (n2 ++ [])))
        (some (v1 ++ (v2 ++ []))) none none none
        (i1.map (· + 0) ++ (i2.map (· + (p1.length / 3 + 0)) ++ []))) := by
    rw [show mergeMeshesGeometry [demoMMesh u1 (MGeometry.mk (some p1) (some n1) (some v1) none none none i1), demoMMesh u2 (MGeometry.mk (some p2) (some n2) (some v2) none none none i2)]
        = (if !([(MGeometry.mk (some p1) (some n1) (some v1) none none none i1), (MGeometry.mk (some p2) (some n2) (some v2) none none none i2)].all wellFormedGeometry) then none
           else some (MGeometry.mk (some (p1 ++ (p2 ++ []))) (some (n1 ++ (n2 ++ [])))
        (some (v1 ++ (v2 ++ []))) none none none
        (i1.map (· + 0) ++ (i2.map (· + (p1.length / 3 + 0)) ++ [])))) from rfl, hall12]
    rfl
  have hmg34 : mergeMeshesGeometry [demoMMesh u3 (MGeometry.mk (some p3) (some n3) (some v3) none none none i3), demoMMesh u4 (MGeometry.mk (some p4) (some n4) (some v4) none none none i4)]
      = some (MGeometry.mk (some (p3 ++ (p4 ++ []))) (some (n3 ++ (n4 ++ [])))
        (some (v3 ++ (v4 ++ []))) none none none
        (i3.map (· + 0) ++ (i4.map (· + (p3.length / 3 + 0)) ++ []))) := by
    rw [show mergeMeshesGeometry [demoMMesh u3 (MGeometry.mk (some p3) (some n3) (some v3) none none none i3), demoMMesh u4 (MGeometry.mk (some p4) (some n4) (some v4) none none none i4)]
        = (if !([(MGeometry.mk (some p3) (some n3) (some v3) none none none i3), (MGeometry.mk (some p4) (some n4) (some v4) none none none i4)].all wellFormedGeometry) then none
           else some (MGeometry.mk (some (p3 ++ (p4 ++ []))) (some (n3 ++ (n4 ++ [])))
        (some (v3 ++ (v4 ++ []))) none none none
        (i3.map (· + 0) ++ (i4.map (· + (p3.length / 3 + 0)) ++ [])))) from rfl, hall34]
    rfl
  have hmg5 : mergeMeshesGeometry [demoMMesh u5 (MGeometry.mk (some p5) (some n5) (some v5) none none none i5)]
      = some (MGeometry.mk (some (p5 ++ [])) (some (n5 ++ [])) (some (v5 ++ []))
        none none none (i5.map (· + 0) ++ [])) := by
    rw [show mergeMeshesGeometry [demoMMesh u5 (MGeometry.mk (some p5) (some n5) (some v5) none none none i5)]
        = (if !([(MGeometry.mk (some p5) (some n5) (some v5) none none none i5)].all wellFormedGeometry) then none
           else some (MGeometry.mk (some (p5 ++ [])) (some (n5 ++ [])) (some (v5 ++ []))
        none none none (i5.map (· + 0) ++ []))) from rfl, hall5]
    rfl
  refine ⟨rfl, ?_⟩
  have hunf : (mergeMergerGroupsAux (MergerConfig.mk pm 2 false mc cb)
      [(MergerGroup.mk "M" mat
      [demoMMesh u1 (MGeometry.mk (some p1) (some n1) (some v1) none none none i1),
       demoMMesh u2 (MGeometry.mk (some p2) (some n2) (some v2) none none none i2),
       demoMMesh u3 (MGeometry.mk (some p3) (some n3) (some v3) none none none i3),
       demoMMesh u4 (MGeometry.mk (some p4) (some n4) (some v4) none none none i4),
       demoMMesh u5 (MGeometry.mk (some p5) (some n5) (some v5) none none none i5)] 0 0 none)] 0 scene freshUid).1
      = (mergeBatches (MergerConfig.mk pm 2 false mc cb)
          [[demoMMesh u1 (MGeometry.mk (some p1) (some n1) (some v1) none none none i1), demoMMesh u2 (MGeometry.mk (some p2) (some n2) (some v2) none none none i2)],
           [demoMMesh u3 (MGeometry.mk (some p3) (some n3) (some v3) none none none i3), demoMMesh u4 (MGeometry.mk (some p4) (some n4) (some v4) none none none i4)],
           [demoMMesh u5 (MGeometry.mk (some p5) (some n5) (some v5) none none none i5)]] 0
          (MergerGroup.mk "M" mat
      [demoMMesh u1 (MGeometry.mk (some p1) (some n1) (some v1) none none none i1),
       demoMMesh u2 (MGeometry.mk (some p2) (some n2) (some v2) none none none i2),
       demoMMesh u3 (MGeometry.mk (some p3) (some n3) (some v3) none none none i3),
       demoMMesh u4 (MGeometry.mk (some p4) (some n4) (some v4) none none none i4),
       demoMMesh u5 (MGeometry.mk (some p5) (some n5) (some v5) none none none i5)] 0 0 none) scene freshUid).1 ++ [] := rfl
  rw [hunf, List.append_nil, mergeBatches_cons, mergeBatches_cons, mergeBatches_cons]
  rw [mergeMeshGroup_snd_eq (MergerConfig.mk pm 2 false mc cb) scene
      (batchRecord (MergerGroup.mk "M" mat
      [demoMMesh u1 (MGeometry.mk (some p1) (some n1) (some v1) none none none i1),
       demoMMesh u2 (MGeometry.mk (some p2) (some n2) (some v2) none none none i2),
       demoMMesh u3 (MGeometry.mk (some p3) (some n3) (some v3) none none none i3),
       demoMMesh u4 (MGeometry.mk (some p4) (some n4) (some v4) none none none i4),
       demoMMesh u5 (MGeometry.mk (some p5) (some n5) (some v5) none none none i5)] 0 0 none)
        [demoMMesh u1 (MGeometry.mk (some p1) (some n1) (some v1) none none none i1), demoMMesh u2 (MGeometry.mk (some p2) (some n2) (some v2) none none none i2)] 0) 0 freshUid
      (MGeometry.mk (some (p1 ++ (p2 ++ []))) (some (n1 ++ (n2 ++ [])))
        (some (v1 ++ (v2 ++ []))) none none none
        (i1.map (· + 0) ++ (i2.map (· + (p1.length / 3 + 0)) ++ []))) hmg12]
  rw [mergeMeshGroup_snd_eq (MergerConfig.mk pm 2 false mc cb) _
      (batchRecord (MergerGroup.mk "M" mat
      [demoMMesh u1 (MGeometry.mk (some p1) (some n1) (some v1) none none none i1),
       demoMMesh u2 (MGeometry.mk (some p2) (some n2) (some v2) none none none i2),
       demoMMesh u3 (MGeometry.mk (some p3) (some n3) (some v3) none none none i3),
       demoMMesh u4 (MGeometry.mk (some p4) (some n4) (some v4) none none none i4),
       demoMMesh u5 (MGeometry.mk (some p5) (some n5) (some v5) none none none i5)] 0 0 none)
        [demoMMesh u3 (MGeometry.mk (some p3) (some n3) (some v3) none none none i3), demoMMesh u4 (MGeometry.mk (some p4) (some n4) (some v4) none none none i4)] 1) 1 (freshUid + 1)
      (MGeometry.mk (some (p3 ++ (p4 ++ []))) (some (n3 ++ (n4 ++ [])))
        (some (v3 ++ (v4 ++ []))) none none none
        (i3.map (· + 0) ++ (i4.map (· + (p3.length / 3 + 0)) ++ []))) hmg34]
  rw [mergeMeshGroup_snd_eq (MergerConfig.mk pm 2 false mc cb) _
      (batchRecord (MergerGroup.mk "M" mat
      [demoMMesh u1 (MGeometry.mk (some p1) (some n1) (some v1) none none none i1),
       demoMMesh u2 (MGeometry.mk (some p2) (some n2) (some v2) none none none i2),
       demoMMesh u3 (MGeometry.mk (some p3) (some n3) (some v3) none none none i3),
       demoMMesh u4 (MGeometry.mk (some p4) (some n4) (some v4) none none none i4),
       demoMMesh u5 (MGeometry.mk (some p5) (some n5) (some v5) none none none i5)] 0 0 none)
        [demoMMesh u5 (MGeometry.mk (some p5) (some n5) (some v5) none none none i5)] 2) 2 (freshUid + 1 + 1)
      (MGeometry.mk (some (p5 ++ [])) (some (n5 ++ [])) (some (v5 ++ []))
        none none none (i5.map (· + 0) ++ [])) hmg5]
  refine ⟨(MMesh.mk freshUid "Merged_Material_1" NodeKind.full
      (some (MGeometry.mk (some (p1 ++ (p2 ++ []))) (some (n1 ++ (n2 ++ [])))
        (some (v1 ++ (v2 ++ []))) none none none
        (i1.map (· + 0) ++ (i2.map (· + (p1.length / 3 + 0)) ++ [])))) mat true true false [] none),
    (MMesh.mk (freshUid + 1) "Merged_Material_2" NodeKind.full
      (some (MGeometry.mk (some (p3 ++ (p4 ++ []))) (some (n3 ++ (n4 ++ [])))
        (some (v3 ++ (v4 ++ []))) none none none
        (i3.map (· + 0) ++ (i4.map (· + (p3.length / 3 + 0)) ++ [])))) mat true true false [] none),
    (MMesh.mk (freshUid + 1 + 1) "Merged_Material_3" NodeKind.full
      (some (MGeometry.mk (some (p5 ++ [])) (some (n5 ++ [])) (some (v5 ++ []))
        none none none (i5.map (· + 0) ++ []))) mat true true false [] none),
    ?_, ?_, rfl, rfl, rfl⟩
  · rfl
  · rfl

/-- Witness for C8: the theorem applied to five concrete identical
well-formed triangle meshes. -/
theorem batch_split_and_merge_witness :
    splitIntoBatches
      [demoMMesh 0 (MGeometry.mk (some [0, 0, 0, 1, 0, 0, 0, 1, 0]) (some [0, 0, 1, 0, 0, 1, 0, 0, 1]) (some [0, 0, 1, 0, 0, 1]) none none none [0, 1, 2]),
       demoMMesh 1 (MGeometry.mk (some [0, 0, 0, 1, 0, 0, 0, 1, 0]) (some [0, 0, 1, 0, 0, 1, 0, 0, 1]) (some [0, 0, 1, 0, 0, 1]) none none none [0, 1, 2]),
       demoMMesh 2 (MGeometry.mk (some [0, 0, 0, 1, 0, 0, 0, 1, 0]) (some [0, 0, 1, 0, 0, 1, 0, 0, 1]) (some [0, 0, 1, 0, 0, 1]) none none none [0, 1, 2]),
       demoMMesh 3 (MGeometry.mk (some [0, 0, 0, 1, 0, 0, 0, 1, 0]) (some [0, 0, 1, 0, 0, 1, 0, 0, 1]) (some [0, 0, 1, 0, 0, 1]) none none none [0, 1, 2]),
       demoMMesh 4 (MGeometry.mk (some [0, 0, 0, 1, 0, 0, 0, 1, 0]) (some [0, 0, 1, 0, 0, 1, 0, 0, 1]) (some [0, 0, 1, 0, 0, 1]) none none none [0, 1, 2])] 2
      = [[demoMMesh 0 (MGeometry.mk (some [0, 0, 0, 1, 0, 0, 0, 1, 0]) (some [0, 0, 1, 0, 0, 1, 0, 0, 1]) (some [0, 0, 1, 0, 0, 1]) none none none [0, 1, 2]), demoMMesh 1 (MGeometry.mk (some [0, 0, 0, 1, 0, 0, 0, 1, 0]) (some [0, 0, 1, 0, 0, 1, 0, 0, 1]) (some [0, 0, 1, 0, 0, 1]) none none none [0, 1, 2])],
         [demoMMesh 2 (MGeometry.mk (some [0, 0, 0, 1, 0, 0, 0, 1, 0]) (some [0, 0, 1, 0, 0, 1, 0, 0, 1]) (some [0, 0, 1, 0, 0, 1]) none none none [0, 1, 2]), demoMMesh 3 (MGeometry.mk (some [0, 0, 0, 1, 0, 0, 0, 1, 0]) (some [0, 0, 1, 0, 0, 1, 0, 0, 1]) (some [0, 0, 1, 0, 0, 1]) none none none [0, 1, 2])],
         [demoMMesh 4 (MGeometry.mk (some [0, 0, 0, 1, 0, 0, 0, 1, 0]) (some [0, 0, 1, 0, 0, 1, 0, 0, 1]) (some [0, 0, 1, 0, 0, 1]) none none none [0, 1, 2])]] ∧
    ∃ mm1 mm2 mm3,
      ((mergeMergerGroupsAux (MergerConfig.mk false 2 false false false)
          [(MergerGroup.mk "M" (some "M")
      [demoMMesh 0 (MGeometry.mk (some [0, 0, 0, 1, 0, 0, 0, 1, 0]) (some [0, 0, 1, 0, 0, 1, 0, 0, 1]) (some [0, 0, 1, 0, 0, 1]) none none none [0, 1, 2]),
       demoMMesh 1 (MGeometry.mk (some [0, 0, 0, 1, 0, 0, 0, 1, 0]) (some [0, 0, 1, 0, 0, 1, 0, 0, 1]) (some [0, 0, 1, 0, 0, 1]) none none none [0, 1, 2]),
       demoMMesh 2 (MGeometry.mk (some [0, 0, 0, 1, 0, 0, 0, 1, 0]) (some [0, 0, 1, 0, 0, 1, 0, 0, 1]) (some [0, 0, 1, 0, 0, 1]) none none none [0, 1, 2]),
       demoMMesh 3 (MGeometry.mk (some [0, 0, 0, 1, 0, 0, 0, 1, 0]) (some [0, 0, 1, 0, 0, 1, 0, 0, 1]) (some [0, 0, 1, 0, 0, 1]) none none none [0, 1, 2]),
       demoMMesh 4 (MGeometry.mk (some [0, 0, 0, 1, 0, 0, 0, 1, 0]) (some [0, 0, 1, 0, 0, 1, 0, 0, 1]) (some [0, 0, 1, 0, 0, 1]) none none none [0, 1, 2])] 0 0 none)] 0 demoMergeScene 100).1.map fun bg => bg.mergedMesh)
        = [some mm1, some mm2, some mm3] ∧
      ((mergeMergerGroupsAux (MergerConfig.mk false 2 false false false)
          [(MergerGroup.mk "M" (some "M")
      [demoMMesh 0 (MGeometry.mk (some [0, 0, 0, 1, 0, 0, 0, 1, 0]) (some [0, 0, 1, 0, 0, 1, 0, 0, 1]) (some [0, 0, 1, 0, 0, 1]) none none none [0, 1, 2]),
       demoMMesh 1 (MGeometry.mk (some [0, 0, 0, 1, 0, 0, 0, 1, 0]) (some [0, 0, 1, 0, 0, 1, 0, 0, 1]) (some [0, 0, 1, 0, 0, 1]) none none none [0, 1, 2]),
       demoMMesh 2 (MGeometry.mk (some [0, 0, 0, 1, 0, 0, 0, 1, 0]) (some [0, 0, 1, 0, 0, 1, 0, 0, 1]) (some [0, 0, 1, 0, 0, 1]) none none none [0, 1, 2]),
       demoMMesh 3 (MGeometry.mk (some [0, 0, 0, 1, 0, 0, 0, 1, 0]) (some [0, 0, 1, 0, 0, 1, 0, 0, 1]) (some [0, 0, 1, 0, 0, 1]) none none none [0, 1, 2]),
       demoMMesh 4 (MGeometry.mk (some [0, 0, 0, 1, 0, 0, 0, 1, 0]) (some [0, 0, 1, 0, 0, 1, 0, 0, 1]) (some [0, 0, 1, 0, 0, 1]) none none none [0, 1, 2])] 0 0 none)] 0 demoMergeScene 100).1.map fun bg => bg.meshes)
        = [[demoMMesh 0 (MGeometry.mk (some [0, 0, 0, 1, 0, 0, 0, 1, 0]) (some [0, 0, 1, 0, 0, 1, 0, 0, 1]) (some [0, 0, 1, 0, 0, 1]) none none none [0, 1, 2]), demoMMesh 1 (MGeometry.mk (some [0, 0, 0, 1, 0, 0, 0, 1, 0]) (some [0, 0, 1, 0, 0, 1, 0, 0, 1]) (some [0, 0, 1, 0, 0, 1]) none none none [0, 1, 2])],
           [demoMMesh 2 (MGeometry.mk (some [0, 0, 0, 1, 0, 0, 0, 1, 0]) (some [0, 0, 1, 0, 0, 1, 0, 0, 1]) (some [0, 0, 1, 0, 0, 1]) none none none [0, 1, 2]), demoMMesh 3 (MGeometry.mk (some [0, 0, 0, 1, 0, 0, 0, 1, 0]) (some [0, 0, 1, 0, 0, 1, 0, 0, 1]) (some [0, 0, 1, 0, 0, 1]) none none none [0, 1, 2])],
           [demoMMesh 4 (MGeometry.mk (some [0, 0, 0, 1, 0, 0, 0, 1, 0]) (some [0, 0, 1, 0, 0, 1, 0, 0, 1]) (some [0, 0, 1, 0, 0, 1]) none none none [0, 1, 2])]] ∧
      mm1.geometry = some (MGeometry.mk (some (([0, 0, 0, 1, 0, 0, 0, 1, 0] : List Rat) ++ ([0, 0, 0, 1, 0, 0, 0, 1, 0] ++ []))) (some (([0, 0, 1, 0, 0, 1, 0, 0, 1] : List Rat) ++ ([0, 0, 1, 0, 0, 1, 0, 0, 1] ++ [])))
        (some (([0, 0, 1, 0, 0, 1] : List Rat) ++ ([0, 0, 1, 0, 0, 1] ++ []))) none none none
        (([0, 1, 2] : List Nat).map (· + 0) ++ (([0, 1, 2] : List Nat).map (· + (([0, 0, 0, 1, 0, 0, 0, 1, 0] : List Rat).length / 3 + 0)) ++ []))) ∧
      mm2.geometry = some (MGeometry.mk (some (([0, 0, 0, 1, 0, 0, 0, 1, 0] : List Rat) ++ ([0, 0, 0, 1, 0, 0, 0, 1, 0] ++ []))) (some (([0, 0, 1, 0, 0, 1, 0, 0, 1] : List Rat) ++ ([0, 0, 1, 0, 0, 1, 0, 0, 1] ++ [])))
        (some (([0, 0, 1, 0, 0, 1] : List Rat) ++ ([0, 0, 1, 0, 0, 1] ++ []))) none none none
        (([0, 1, 2] : List Nat).map (· + 0) ++ (([0, 1, 2] : List Nat).map (· + (([0, 0, 0, 1, 0, 0, 0, 1, 0] : List Rat).length / 3 + 0)) ++ []))) ∧
      mm3.geometry = some (MGeometry.mk (some (([0, 0, 0, 1, 0, 0, 0, 1, 0] : List Rat) ++ [])) (some (([0, 0, 1, 0, 0, 1, 0, 0, 1] : List Rat) ++ [])) (some (([0, 0, 1, 0, 0, 1] : List Rat) ++ []))
        none none none (([0, 1, 2] : List Nat).map (· + 0) ++ [])) :=
  batch_split_and_merge false false false demoMergeScene 100 (some "M")
    0 1 2 3 4
    [0, 0, 0, 1, 0, 0, 0, 1, 0] [0, 0, 1, 0, 0, 1, 0, 0, 1] [0, 0, 1, 0, 0, 1] [0, 1, 2] [0, 0, 0, 1, 0, 0, 0, 1, 0] [0, 0, 1, 0, 0, 1, 0, 0, 1] [0, 0, 1, 0, 0, 1] [0, 1, 2] [0, 0, 0, 1, 0, 0, 0, 1, 0] [0, 0, 1, 0, 0, 1, 0, 0, 1] [0, 0, 1, 0, 0, 1] [0, 1, 2] [0, 0, 0, 1, 0, 0, 0, 1, 0] [0, 0, 1, 0, 0, 1, 0, 0, 1] [0, 0, 1, 0, 0, 1] [0, 1, 2] [0, 0, 0, 1, 0, 0, 0, 1, 0] [0, 0, 1, 0, 0, 1, 0, 0, 1] [0, 0, 1, 0, 0, 1] [0, 1, 2]
    (by decide) (by decide) (by decide) (by decide) (by decide)

end BabylonOpt
